import Mathlib

/-!
# Proof network layer: operation registry and error classifier

A shallow embedding of `AbstractRestApi` / `AbstractRestApiPrivate`
(`src/src/proofnetwork/abstractrestapi.cpp` and
`src/include/private/proofnetwork/abstractrestapi_p.h`): the operation
registry, the error classifier, the entity decoder and the cache merge; and of
the token acquisition of `RestClientPrivate` (`src/src/proofnetwork/restclient.cpp`).

* A `QNetworkReply *` is a natural number (the identity of the transport
  handle); what the classifier reads from the handle (error code, HTTP
  status, headers, body) is a `QNetworkReply` record passed along with it.
* `QHash<QNetworkReply *, QPair<qulonglong, RestAnswerHandler>>` is an
  association list; `keys()` is its order.
* Signals and callbacks are recorded in a list of effects, in program order
  (`Effect` for the registry and classifier, `DecoderEffect` for the decoder,
  `AuthEffect` for token acquisition).
* An entity instance (`QSharedPointer<Entity>`) in the cache merge is a
  position in a list of instances; elsewhere an entity is its value.
* `qulonglong` is a natural number reduced modulo `2 ^ 64`; `int` values are
  integers and `%` on them is `Int.tmod` (truncation, as in C++).
-/

namespace Proof

/-! ## Constants -/

/-- Line 9 of abstractrestapi.cpp. -/
def NETWORK_SSL_ERROR_OFFSET : Int := 1500

/-- Line 10 of abstractrestapi.cpp. -/
def NETWORK_ERROR_OFFSET : Int := 1000

/-- Line 12 of abstractrestapi.cpp. -/
def ALLOWED_HTTP_STATUSES : List Int := [200, 201, 202, 203, 204, 205, 206]

/-- Values of the Qt enum `QNetworkReply::NetworkError` that the sources name. -/
def QNetworkReply.NoError : Int := 0

/-- Qt: `QNetworkReply::ConnectionRefusedError`. -/
def QNetworkReply.ConnectionRefusedError : Int := 1

/-- Qt: `QNetworkReply::RemoteHostClosedError`. -/
def QNetworkReply.RemoteHostClosedError : Int := 2

/-- Qt: `QNetworkReply::HostNotFoundError`. -/
def QNetworkReply.HostNotFoundError : Int := 3

/-- Qt: `QNetworkReply::TimeoutError`. -/
def QNetworkReply.TimeoutError : Int := 4

/-- Qt: `QNetworkReply::OperationCanceledError`. -/
def QNetworkReply.OperationCanceledError : Int := 5

/-- Qt: `QNetworkReply::UnknownNetworkError`. -/
def QNetworkReply.UnknownNetworkError : Int := 99

/-- Qt: `QSslError::NoError`. -/
def QSslError.NoError : Int := 0

/-- The constants of `proofnetwork_global.h` that the sources use:
`NETWORK_MODULE_CODE` and the members of `NetworkErrorCode`. The header is
not part of the sources at hand, so their values are parameters of every
function that builds an error record. -/
structure NetworkGlobal where
  NETWORK_MODULE_CODE : Int
  ServerError : Int
  ServiceUnavailable : Int
  SslError : Int
  InvalidReply : Int
deriving DecidableEq, Repr

/-! ## Data model -/

/-- The enum `RestApiError::Level`. -/
inductive Level where
  | NoError
  | ClientError
  | ServerError
  | JsonParseError
  | JsonDataError
  | JsonServerError
deriving DecidableEq, Repr

/-- The struct `RestApiError`, fields in constructor order. -/
structure RestApiError where
  level : Level
  code : Int
  proofModuleCode : Int
  proofErrorCode : Int
  message : String
  userFriendly : Bool
deriving DecidableEq, Repr

/-- What the classifier reads from a `QNetworkReply *`: `ptr` is the pointer
(the key of the pending table), the other fields are the values of the
accessors at the time of the call. -/
structure QNetworkReply where
  ptr : Nat
  error : Int
  httpStatusCode : Int
  httpReasonPhrase : String
  contentTypeHeader : String
  body : String
  errorString : String
  urlHost : String
deriving DecidableEq, Repr

/-- A `QSslError`: `error()` and `errorString()`. -/
structure QSslError where
  error : Int
  errorString : String
deriving DecidableEq, Repr

/-- A `RestAnswerHandler` (`std::function`): `none` is the empty function,
`some n` the callable named `n`. -/
abbrev RestAnswerHandler := Option Nat

/-- The member `replies`. -/
abbrev Replies := List (Nat × (Nat × RestAnswerHandler))

/-- What an operation does to the outside world, in program order. -/
inductive Effect where
  | apiErrorOccurred (operationId : Nat) (error : RestApiError)
  | handlerCalled (handler : Nat) (operationId : Nat) (reply : Nat)
  | abort (reply : Nat)
  | deleteLater (reply : Nat)
deriving DecidableEq, Repr

/-- The state of the registry: the static counter and the pending table. -/
structure AbstractRestApiPrivate where
  lastUsedOperationId : Nat
  replies : Replies
deriving DecidableEq, Repr

/-- The state at program start: `lastUsedOperationId {0}`, empty table. -/
def AbstractRestApiPrivate.initial : AbstractRestApiPrivate :=
  { lastUsedOperationId := 0, replies := [] }

/-! ## QHash -/

/-- Qt: `QHash::contains`. -/
def QHash.contains (t : Replies) (reply : Nat) : Bool :=
  t.any (fun e => e.1 == reply)

/-- Qt: `QHash::value` and a read through `operator[]`: the stored pair, or a
default-constructed one (`0`, empty handler) when the key is absent. -/
def QHash.value (t : Replies) (reply : Nat) : Nat × RestAnswerHandler :=
  match t.find? (fun e => e.1 == reply) with
  | some e => e.2
  | none => (0, none)

/-- Qt: `QHash::remove`; the number of removed items is the drop in length. -/
def QHash.remove (t : Replies) (reply : Nat) : Replies :=
  t.filter (fun e => e.1 != reply)

/-- Qt: `replies[reply] = v`: replaces the value of an existing key,
otherwise adds the pair. Qt leaves the place of a key in `keys()` unspecified;
here the assigned key comes first. -/
def QHash.insert (t : Replies) (reply : Nat) (v : Nat × RestAnswerHandler) : Replies :=
  (reply, v) :: QHash.remove t reply

/-- Qt: `QHash::keys`. -/
def QHash.keys (t : Replies) : List Nat :=
  t.map (fun e => e.1)

/-- The operation ids stored in the table, in `keys()` order. -/
def operationIds (t : Replies) : List Nat :=
  t.map (fun e => e.2.1)

/-! ## Operation registry -/

/-- The function `setupReply`: `operationId = ++lastUsedOperationId` on a
`qulonglong`, then `replies[reply] = qMakePair(operationId, handler)`.
Returns the new state and the id written back to the caller. -/
def setupReply (d : AbstractRestApiPrivate) (reply : Nat) (handler : RestAnswerHandler) :
    AbstractRestApiPrivate × Nat :=
  let operationId := (d.lastUsedOperationId + 1) % 2 ^ 64
  ({ lastUsedOperationId := operationId,
     replies := QHash.insert d.replies reply (operationId, handler) }, operationId)

/-- The six request functions of `AbstractRestApiPrivate`. -/
inductive Request where
  | get
  | post
  | postMultiPart
  | put
  | patch
  | deleteResource
deriving DecidableEq, Repr

/-- One of `get`, `post` (both overloads), `put`, `patch`, `deleteResource`:
each obtains `reply` from the rest client and calls `setupReply`. -/
def issue (d : AbstractRestApiPrivate) (request : Request) (reply : Nat)
    (handler : RestAnswerHandler) : AbstractRestApiPrivate × Nat :=
  match request with
  | .get => setupReply d reply handler
  | .post => setupReply d reply handler
  | .postMultiPart => setupReply d reply handler
  | .put => setupReply d reply handler
  | .patch => setupReply d reply handler
  | .deleteResource => setupReply d reply handler

/-- A sequence of requests, issued in order; returns the final state and the
operation ids written back, in issue order. -/
def issueAll (d : AbstractRestApiPrivate) :
    List (Request × Nat × RestAnswerHandler) → AbstractRestApiPrivate × List Nat
  | [] => (d, [])
  | (request, reply, handler) :: rest =>
    let r := issue d request reply handler
    let rs := issueAll r.1 rest
    (rs.1, r.2 :: rs.2)

/-! ## Strings and JSON (Qt library calls used by the classifier) -/

/-- Qt: `QChar::isSpace`: U+0020, U+0009..U+000D, U+0085, U+00A0 and the
Unicode separator categories Zs, Zl, Zp. -/
def QChar.isSpace (c : Char) : Bool :=
  let n := c.toNat
  n == 0x20 || (0x09 ≤ n && n ≤ 0x0d) || n == 0x85 || n == 0xa0 || n == 0x1680 ||
    (0x2000 ≤ n && n ≤ 0x200a) || n == 0x2028 || n == 0x2029 || n == 0x202f ||
    n == 0x205f || n == 0x3000

/-- Qt: `QString::trimmed`: whitespace removed from both ends. -/
def QString.trimmed (s : String) : String :=
  String.mk ((s.data.dropWhile QChar.isSpace).reverse.dropWhile QChar.isSpace).reverse

/-- The whitespace of `QByteArray::trimmed` (the C `isspace` of the C locale). -/
def QByteArray.isSpace (c : Char) : Bool :=
  let n := c.toNat
  n == 0x20 || (0x09 ≤ n && n ≤ 0x0d)

/-- Qt: `QByteArray::trimmed`, read back as a `QString`. -/
def QByteArray.trimmed (s : String) : String :=
  String.mk ((s.data.dropWhile QByteArray.isSpace).reverse.dropWhile QByteArray.isSpace).reverse

/-- Splits a character list at every occurrence of `sep`, empty parts kept. -/
def QString.splitChars (sep : Char) : List Char → List (List Char)
  | [] => [[]]
  | c :: cs =>
    if c == sep then [] :: QString.splitChars sep cs
    else
      match QString.splitChars sep cs with
      | [] => [[c]]
      | part :: parts => (c :: part) :: parts

/-- Qt: `QString::split(sep, QString::SkipEmptyParts)` for a one-character
separator. -/
def QString.split (s : String) (sep : Char) : List String :=
  ((QString.splitChars sep s.data).filter (fun part => !part.isEmpty)).map String.mk

/-- Qt: a `QJsonValue`. A number is the rational it denotes. -/
inductive QJsonValue where
  | null
  | bool (b : Bool)
  | double (d : ℚ)
  | string (s : String)
  | array (a : List QJsonValue)
  | object (o : List (String × QJsonValue))
  | undefined

/-- Qt: a `QJsonObject`, as its list of members. -/
abbrev QJsonObject := List (String × QJsonValue)

/-- Qt: `QJsonObject::value` and `operator[]`: the member of that name, or
`Undefined`. -/
def QJsonObject.value (o : QJsonObject) (key : String) : QJsonValue :=
  match o.find? (fun m => m.1 == key) with
  | some m => m.2
  | none => QJsonValue.undefined

/-- Qt: `QJsonValue::toString()`: the string, or a null string for every other
type. -/
def QJsonValue.toString : QJsonValue → String
  | .string s => s
  | _ => ""

/-- Qt: a `QJsonDocument`: null (what a failed parse returns), an array or an
object. -/
inductive QJsonDocument where
  | nullDocument
  | arrayDocument (a : List QJsonValue)
  | objectDocument (o : QJsonObject)

/-- Qt: `QJsonDocument::isObject`. -/
def QJsonDocument.isObject : QJsonDocument → Bool
  | .objectDocument _ => true
  | _ => false

/-- Qt: `QJsonDocument::object`: empty unless the document is an object. -/
def QJsonDocument.object : QJsonDocument → QJsonObject
  | .objectDocument o => o
  | _ => []

/-- Qt: `QJsonParseError`: `error` is `QJsonParseError::NoError` (0) on
success. -/
structure QJsonParseError where
  error : Int
  errorString : String
deriving DecidableEq, Repr

/-- The type of `QJsonDocument::fromJson(bytes, &jsonError)`. JSON parsing is a
library call; the parser is a parameter of every function that calls it. -/
abbrev JsonParser := String → QJsonParseError × QJsonDocument

/-! ## Error classifier -/

/-- The function `cleanupReply`: `replies.remove(reply)`, and `deleteLater()`
when something was removed. -/
def cleanupReply (t : Replies) (reply : Nat) : Replies × List Effect :=
  let numberRemoved := t.length - (QHash.remove t reply).length
  (QHash.remove t reply, if numberRemoved > 0 then [Effect.deleteLater reply] else [])

/-- The function `runReplyHandler`: when the handle is still pending, calls
its handler (unless it is the empty function) and then `cleanupReply`. -/
def runReplyHandler (t : Replies) (operationId : Nat) (reply : Nat) : Replies × List Effect :=
  if QHash.contains t reply then
    let handler := (QHash.value t reply).2
    let called :=
      match handler with
      | some f => [Effect.handlerCalled f operationId reply]
      | none => []
    let c := cleanupReply t reply
    (c.1, called ++ c.2)
  else
    (t, [])

/-- Lines 195-208 of abstractrestapi.cpp: the message of a status-based error. -/
def replyFinished.message (fromJson : JsonParser) (reply : QNetworkReply) : String :=
  let contentType := (QString.split reply.contentTypeHeader ';').map QString.trimmed
  let message :=
    if "text/plain" ∈ contentType then
      QByteArray.trimmed reply.body
    else if "application/json" ∈ contentType then
      let parsed := fromJson reply.body
      if parsed.1.error = 0 ∧ parsed.2.isObject = true then
        (QJsonObject.value parsed.2.object "message").toString
      else ""
    else ""
  if message = "" then QString.trimmed reply.httpReasonPhrase else message

/-- The function `replyFinished`. -/
def replyFinished (g : NetworkGlobal) (fromJson : JsonParser) (t : Replies) (operationId : Nat)
    (reply : QNetworkReply) (forceUserFriendly : Bool) : Replies × List Effect :=
  let checked : Replies × List Effect :=
    if reply.error = QNetworkReply.NoError ∨
        (reply.error ≥ 100 ∧ reply.error.tmod 100 ≠ 99) then
      let errorCode := reply.httpStatusCode
      if ¬ errorCode ∈ ALLOWED_HTTP_STATUSES then
        let message := replyFinished.message fromJson reply
        let c := cleanupReply t reply.ptr
        (c.1, Effect.apiErrorOccurred operationId
                { level := Level.ServerError, code := errorCode,
                  proofModuleCode := g.NETWORK_MODULE_CODE, proofErrorCode := g.ServerError,
                  message := message, userFriendly := forceUserFriendly } :: c.2)
      else (t, [])
    else (t, [])
  let handled := runReplyHandler checked.1 operationId reply.ptr
  (handled.1, checked.2 ++ handled.2)

/-- The function `replyErrorOccurred`. -/
def replyErrorOccurred (g : NetworkGlobal) (t : Replies) (operationId : Nat)
    (reply : QNetworkReply) (forceUserFriendly : Bool) : Replies × List Effect :=
  if reply.error ≠ QNetworkReply.NoError ∧ (reply.error < 200 ∨ reply.error.tmod 100 = 99) then
    let status := reply.httpStatusCode
    let errorCode := if status = 0 then NETWORK_ERROR_OFFSET + reply.error else status
    let rewritten : String × Int × Bool :=
      if reply.error = QNetworkReply.HostNotFoundError then
        ("Host " ++ reply.urlHost ++ " not found. Try again later", g.ServiceUnavailable, true)
      else if reply.error = QNetworkReply.ConnectionRefusedError ∨
          reply.error = QNetworkReply.RemoteHostClosedError ∨
          reply.error = QNetworkReply.TimeoutError ∨
          reply.error = QNetworkReply.OperationCanceledError then
        ("Host " ++ reply.urlHost ++ " is unavailable. Try again later", g.ServiceUnavailable, true)
      else
        (reply.errorString, g.ServerError, forceUserFriendly)
    let c := cleanupReply t reply.ptr
    (c.1, Effect.apiErrorOccurred operationId
            { level := Level.ClientError, code := errorCode,
              proofModuleCode := g.NETWORK_MODULE_CODE, proofErrorCode := rewritten.2.1,
              message := rewritten.1, userFriendly := rewritten.2.2 } :: c.2)
  else
    (t, [])

/-- The loop of `sslErrorsOccurred`, with the flag `firstError`. -/
def sslErrorsOccurred.loop (g : NetworkGlobal) (operationId : Nat) (reply : QNetworkReply)
    (forceUserFriendly : Bool) : List QSslError → Bool → Replies → Replies × List Effect
  | [], _, t => (t, [])
  | error :: rest, firstError, t =>
    if error.error ≠ QSslError.NoError then
      let errorCode := NETWORK_SSL_ERROR_OFFSET + error.error
      if !firstError then
        sslErrorsOccurred.loop g operationId reply forceUserFriendly rest firstError t
      else
        let c := cleanupReply t reply.ptr
        let r := sslErrorsOccurred.loop g operationId reply forceUserFriendly rest false c.1
        (r.1, Effect.apiErrorOccurred operationId
                { level := Level.ClientError, code := errorCode,
                  proofModuleCode := g.NETWORK_MODULE_CODE, proofErrorCode := g.SslError,
                  message := error.errorString, userFriendly := forceUserFriendly }
              :: (c.2 ++ r.2))
    else
      sslErrorsOccurred.loop g operationId reply forceUserFriendly rest firstError t

/-- The function `sslErrorsOccurred`. -/
def sslErrorsOccurred (g : NetworkGlobal) (t : Replies) (operationId : Nat)
    (reply : QNetworkReply) (errors : List QSslError) (forceUserFriendly : Bool) :
    Replies × List Effect :=
  sslErrorsOccurred.loop g operationId reply forceUserFriendly errors true t

/-- The record built at the top of `abortRequest` and of `clearReplies`. -/
def canceledError (g : NetworkGlobal) : RestApiError :=
  { level := Level.ClientError,
    code := NETWORK_ERROR_OFFSET + QNetworkReply.OperationCanceledError,
    proofModuleCode := g.NETWORK_MODULE_CODE, proofErrorCode := g.ServiceUnavailable,
    message := "Request canceled", userFriendly := false }

/-- The loop of `abortRequest` over `replies.keys()`: the table after the
loop and `toAbort` (`none` is `nullptr`). -/
def abortRequest.scan (operationId : Nat) : List Nat → Replies → Replies × Option Nat
  | [], t => (t, none)
  | reply :: rest, t =>
    if operationId ≠ (QHash.value t reply).1 then abortRequest.scan operationId rest t
    else (QHash.remove t reply, some reply)

/-- The function `AbstractRestApi::abortRequest`; `isRunning` is
`QNetworkReply::isRunning` of each handle at the time of the call. -/
def abortRequest (g : NetworkGlobal) (isRunning : Nat → Bool) (t : Replies) (operationId : Nat) :
    Replies × List Effect :=
  let networkReplies := QHash.keys t
  let error := canceledError g
  let scanned := abortRequest.scan operationId networkReplies t
  match scanned.2 with
  | some toAbort =>
    if isRunning toAbort then
      (scanned.1, [Effect.apiErrorOccurred operationId error, Effect.abort toAbort,
                   Effect.deleteLater toAbort])
    else (scanned.1, [])
  | none => (scanned.1, [])

/-- The first loop of `clearReplies`: the table, `toAbort` and the emitted
signals after the remaining keys are visited. -/
def clearReplies.loop (g : NetworkGlobal) :
    List Nat → Replies → List Nat → List Effect → Replies × List Nat × List Effect
  | [], t, toAbort, emitted => (t, toAbort, emitted)
  | reply :: rest, t, toAbort, emitted =>
    let operationId := (QHash.value t reply).1
    clearReplies.loop g rest (QHash.remove t reply) (toAbort ++ [reply])
      (if operationId ≠ 0 then emitted ++ [Effect.apiErrorOccurred operationId (canceledError g)]
       else emitted)

/-- The function `clearReplies`. -/
def clearReplies (g : NetworkGlobal) (t : Replies) : Replies × List Effect :=
  let networkReplies := QHash.keys t
  let looped := clearReplies.loop g networkReplies t [] []
  (looped.1, looped.2.2 ++ looped.2.1.flatMap (fun reply => [Effect.abort reply, Effect.deleteLater reply]))

/-! ## The registry as a step model -/

/-- The lambda `replyFinishedCaller` of `onRestClientChanging`. -/
def replyFinishedCaller (g : NetworkGlobal) (fromJson : JsonParser) (t : Replies)
    (reply : QNetworkReply) : Replies × List Effect :=
  if ¬ QHash.contains t reply.ptr = true then (t, [])
  else
    let operationId := (QHash.value t reply.ptr).1
    replyFinished g fromJson t operationId reply false

/-- The lambda `sslErrorsOccurredCaller` of `onRestClientChanging`. -/
def sslErrorsOccurredCaller (g : NetworkGlobal) (t : Replies) (reply : QNetworkReply)
    (errors : List QSslError) : Replies × List Effect :=
  if ¬ QHash.contains t reply.ptr = true then (t, [])
  else
    let operationId := (QHash.value t reply.ptr).1
    sslErrorsOccurred g t operationId reply errors false

/-- The lambda that `setupReply` connects to `QNetworkReply::error`, with its
captured `operationId`. -/
def replyErrorCaller (g : NetworkGlobal) (t : Replies) (operationId : Nat)
    (reply : QNetworkReply) : Replies × List Effect :=
  if ¬ QHash.contains t reply.ptr = true then (t, [])
  else replyErrorOccurred g t operationId reply false

/-- What can happen to the registry. -/
inductive Event where
  | issue (request : Request) (reply : Nat) (handler : RestAnswerHandler)
  | finished (reply : QNetworkReply)
  | error (reply : QNetworkReply)
  | sslErrors (reply : QNetworkReply) (errors : List QSslError)
  | abortRequest (operationId : Nat) (isRunning : Nat → Bool)
  | clearReplies

/-- One event. The error lambda of a handle captured the id that `setupReply`
stored under that handle, so it is read from the table here. -/
def step (g : NetworkGlobal) (fromJson : JsonParser) (d : AbstractRestApiPrivate) :
    Event → AbstractRestApiPrivate × List Effect
  | .issue request reply handler => ((issue d request reply handler).1, [])
  | .finished reply =>
    let r := replyFinishedCaller g fromJson d.replies reply
    ({ d with replies := r.1 }, r.2)
  | .error reply =>
    let r := replyErrorCaller g d.replies (QHash.value d.replies reply.ptr).1 reply
    ({ d with replies := r.1 }, r.2)
  | .sslErrors reply errors =>
    let r := sslErrorsOccurredCaller g d.replies reply errors
    ({ d with replies := r.1 }, r.2)
  | .abortRequest operationId isRunning =>
    let r := abortRequest g isRunning d.replies operationId
    ({ d with replies := r.1 }, r.2)
  | .clearReplies =>
    let r := clearReplies g d.replies
    ({ d with replies := r.1 }, r.2)

/-- A sequence of events; the effects of all of them, in order. -/
def run (g : NetworkGlobal) (fromJson : JsonParser) (d : AbstractRestApiPrivate) :
    List Event → AbstractRestApiPrivate × List Effect
  | [] => (d, [])
  | e :: es =>
    let r := step g fromJson d e
    let rs := run g fromJson r.1 es
    (rs.1, r.2 ++ rs.2)

/-- Whether an effect is a terminal outcome delivered to the caller for
operation `id`: a call of its completion handler, or an error record (the
classifier records and the cancellation record all travel through
`apiErrorOccurred`). -/
def Effect.isOutcomeOf (id : Nat) : Effect → Bool
  | .apiErrorOccurred operationId _ => operationId == id
  | .handlerCalled _ operationId _ => operationId == id
  | .abort _ => false
  | .deleteLater _ => false

/-- The number of terminal outcomes for operation `id` in a list of effects. -/
def outcomes (id : Nat) (effects : List Effect) : Nat :=
  effects.countP (Effect.isOutcomeOf id)

/-- The error records in a list of effects, with their operation ids. -/
def errorRecords : List Effect → List (Nat × RestApiError)
  | [] => []
  | .apiErrorOccurred operationId error :: rest => (operationId, error) :: errorRecords rest
  | _ :: rest => errorRecords rest

/-- The handler calls in a list of effects: handler and operation id. -/
def handlerCalls : List Effect → List (Nat × Nat)
  | [] => []
  | .handlerCalled handler operationId _ :: rest => (handler, operationId) :: handlerCalls rest
  | _ :: rest => handlerCalls rest

/-- The handles aborted in a list of effects. -/
def aborted : List Effect → List Nat
  | [] => []
  | .abort reply :: rest => reply :: aborted rest
  | _ :: rest => aborted rest

/-- The invariant of the registry together with the effects produced so far:
handles and operation ids of the pending table are pairwise distinct, no
pending operation has had an outcome, no operation has had two, and no id
beyond the counter has been used. -/
def RegistryInvariant (d : AbstractRestApiPrivate) (log : List Effect) : Prop :=
  (QHash.keys d.replies).Nodup ∧ (operationIds d.replies).Nodup ∧
  (∀ id ∈ operationIds d.replies, id ≤ d.lastUsedOperationId ∧ outcomes id log = 0) ∧
  (∀ id, outcomes id log ≤ 1) ∧
  (∀ id, d.lastUsedOperationId < id → outcomes id log = 0)

/-- What every table operation other than `setupReply` does: it only removes
entries, gives each operation at most one outcome, and an operation that gets
an outcome was pending before and is not pending afterwards. -/
def TableStep (t t' : Replies) (effects : List Effect) : Prop :=
  t'.Sublist t ∧
  ∀ id, outcomes id effects ≤ 1 ∧
    (0 < outcomes id effects → id ∈ operationIds t ∧ id ∉ operationIds t')

/-- Whether the Content-Type header lists `mime`: the test
`contentType.contains(mime)` of `replyFinished` on the trimmed parts of the
header split at `;`. -/
def contentTypeLists (reply : QNetworkReply) (mime : String) : Prop :=
  mime ∈ (QString.split reply.contentTypeHeader ';').map QString.trimmed

instance (reply : QNetworkReply) (mime : String) : Decidable (contentTypeLists reply mime) :=
  inferInstanceAs (Decidable (mime ∈ (QString.split reply.contentTypeHeader ';').map QString.trimmed))

/-! ## Entity decoder (abstractrestapi_p.h) -/

/-- Qt: `QJsonValue::isUndefined`. -/
def QJsonValue.isUndefined : QJsonValue → Bool
  | .undefined => true
  | _ => false

/-- Qt: `QJsonValue::isArray`. -/
def QJsonValue.isArray : QJsonValue → Bool
  | .array _ => true
  | _ => false

/-- Qt: `QJsonValue::toArray`: empty unless the value is an array. -/
def QJsonValue.toArray : QJsonValue → List QJsonValue
  | .array a => a
  | _ => []

/-- Qt: `QJsonValue::toObject`: empty unless the value is an object. -/
def QJsonValue.toObject : QJsonValue → QJsonObject
  | .object o => o
  | _ => []

/-- Qt: `QJsonDocument::isArray`. -/
def QJsonDocument.isArray : QJsonDocument → Bool
  | .arrayDocument _ => true
  | _ => false

/-- Qt: `QJsonDocument::array`: empty unless the document is an array. -/
def QJsonDocument.array : QJsonDocument → List QJsonValue
  | .arrayDocument a => a
  | _ => []

/-- What the entity decoder does to the outside world, in program order: the
signal `apiErrorOccurred`, a call of `Entity::fromJson`, a call of the
`jsonParser` callback, a call of `updateFrom` on the instance `fromCache` with
the instance `entity`. -/
inductive DecoderEffect where
  | apiErrorOccurred (operationId : Nat) (error : RestApiError)
  | fromJson (jsonObject : QJsonObject)
  | jsonParser (jsonArray : List QJsonValue)
  | updateFrom (fromCache : Nat) (entity : Nat)

/-- The error records in a list of decoder effects, with their operation ids. -/
def decoderRecords : List DecoderEffect → List (Nat × RestApiError)
  | [] => []
  | .apiErrorOccurred operationId error :: rest => (operationId, error) :: decoderRecords rest
  | _ :: rest => decoderRecords rest

/-- The objects handed to `Entity::fromJson` in a list of decoder effects. -/
def factoryCalls : List DecoderEffect → List QJsonObject
  | [] => []
  | .fromJson jsonObject :: rest => jsonObject :: factoryCalls rest
  | _ :: rest => factoryCalls rest

/-- The arrays handed to the `jsonParser` callback in a list of decoder
effects. -/
def parserCalls : List DecoderEffect → List (List QJsonValue)
  | [] => []
  | .jsonParser jsonArray :: rest => jsonArray :: parserCalls rest
  | _ :: rest => parserCalls rest

/-- The calls of `updateFrom` in a list of decoder effects. -/
def updateCalls : List DecoderEffect → List (Nat × Nat)
  | [] => []
  | .updateFrom fromCache entity :: rest => (fromCache, entity) :: updateCalls rest
  | _ :: rest => updateCalls rest

/-- The function `notifyAboutJsonParseError`. -/
def notifyAboutJsonParseError (g : NetworkGlobal) (operationId : Nat) (error : QJsonParseError) :
    List DecoderEffect :=
  [DecoderEffect.apiErrorOccurred operationId
    { level := Level.JsonParseError, code := error.error,
      proofModuleCode := g.NETWORK_MODULE_CODE, proofErrorCode := g.InvalidReply,
      message := "JSON error: " ++ error.errorString, userFriendly := false }]

/-- The function `RestApiError::reset`. -/
def RestApiError.reset (e : RestApiError) : RestApiError :=
  { e with level := Level.NoError, code := 0, message := "" }

/-- The function `parseEntityObject`: the returned object and the signals. -/
def parseEntityObject (g : NetworkGlobal) (fromJson : JsonParser) (reply : QNetworkReply)
    (operationId : Nat) : QJsonObject × List DecoderEffect :=
  let parsed := fromJson reply.body
  let jsonError := parsed.1
  let doc := parsed.2
  if jsonError.error ≠ 0 then
    ([], [DecoderEffect.apiErrorOccurred operationId
            { level := Level.JsonParseError, code := jsonError.error,
              proofModuleCode := g.NETWORK_MODULE_CODE, proofErrorCode := g.InvalidReply,
              message := "JSON error: " ++ jsonError.errorString, userFriendly := false }])
  else if doc.object.isEmpty then
    (doc.object, [DecoderEffect.apiErrorOccurred operationId
            { level := Level.JsonParseError, code := 0,
              proofModuleCode := g.NETWORK_MODULE_CODE, proofErrorCode := g.InvalidReply,
              message := "JSON error: empty entity data", userFriendly := false }])
  else
    (doc.object, [])

/-- The loop over `serverErrorAttributes` in `parseEntity` and in
`parseEntitiesListPrivate`: the message of the first attribute whose value in
the object is not undefined, if there is one. -/
def serverErrorScan (jsonObject : QJsonObject) : List String → Option String
  | [] => none
  | name :: rest =>
    if (QJsonObject.value jsonObject name).isUndefined = false then
      some (QJsonObject.value jsonObject name).toString
    else serverErrorScan jsonObject rest

/-- The function `parseEntity<Entity>(jsonObject, operationId)`. `factory` is
`Entity::fromJson`; `none` is the null pointer. -/
def parseEntity {Entity : Type} (g : NetworkGlobal) (serverErrorAttributes : List String)
    (factory : QJsonObject → Option Entity) (jsonObject : QJsonObject) (operationId : Nat) :
    Option Entity × List DecoderEffect :=
  let entity := factory jsonObject
  match entity with
  | some e => (some e, [DecoderEffect.fromJson jsonObject])
  | none =>
    match serverErrorScan jsonObject serverErrorAttributes with
    | some jsonErrorMessage =>
      (none, [DecoderEffect.fromJson jsonObject,
              DecoderEffect.apiErrorOccurred operationId
                { level := Level.JsonServerError, code := 0,
                  proofModuleCode := g.NETWORK_MODULE_CODE, proofErrorCode := g.InvalidReply,
                  message := jsonErrorMessage, userFriendly := false }])
    | none =>
      (none, [DecoderEffect.fromJson jsonObject,
              DecoderEffect.apiErrorOccurred operationId
                { level := Level.JsonDataError, code := 0,
                  proofModuleCode := g.NETWORK_MODULE_CODE, proofErrorCode := g.InvalidReply,
                  message := "Can't create entity from server response",
                  userFriendly := false }])

/-- The function `parseEntity<Entity>(reply, operationId)`. -/
def parseEntity.ofReply {Entity : Type} (g : NetworkGlobal) (serverErrorAttributes : List String)
    (fromJson : JsonParser) (factory : QJsonObject → Option Entity) (reply : QNetworkReply)
    (operationId : Nat) : Option Entity × List DecoderEffect :=
  let obj := parseEntityObject g fromJson reply operationId
  if obj.1.isEmpty then (none, obj.2)
  else
    let parsed := parseEntity g serverErrorAttributes factory obj.1 operationId
    (parsed.1, obj.2 ++ parsed.2)

/-- The loop of `parseEntitiesList<Entity>(entityList, jsonArray, operationId)`:
the list and the effects after the remaining values. -/
def parseEntitiesList.loop {Entity : Type} (g : NetworkGlobal)
    (serverErrorAttributes : List String) (factory : QJsonObject → Option Entity)
    (operationId : Nat) : List QJsonValue → List Entity → List Entity × List DecoderEffect
  | [], entityList => (entityList, [])
  | value :: rest, entityList =>
    let parsed := parseEntity g serverErrorAttributes factory value.toObject operationId
    let appended :=
      match parsed.1 with
      | some entity => entityList ++ [entity]
      | none => entityList
    let looped := parseEntitiesList.loop g serverErrorAttributes factory operationId rest appended
    (looped.1, parsed.2 ++ looped.2)

/-- The function `parseEntitiesList<Entity>(entityList, jsonArray, operationId)`:
the returned flag, the list and the effects. -/
def parseEntitiesList {Entity : Type} (g : NetworkGlobal) (serverErrorAttributes : List String)
    (factory : QJsonObject → Option Entity) (entityList : List Entity)
    (jsonArray : List QJsonValue) (operationId : Nat) :
    Bool × List Entity × List DecoderEffect :=
  let looped := parseEntitiesList.loop g serverErrorAttributes factory operationId jsonArray
    entityList
  (true, looped.1, looped.2)

/-- The function `parseEntitiesListPrivate`. The callback `jsonParser` works on
what it captured by reference (`captured`, the entity list of the caller). -/
def parseEntitiesListPrivate {σ : Type} (g : NetworkGlobal) (serverErrorAttributes : List String)
    (fromJson : JsonParser) (reply : QNetworkReply)
    (jsonParser : List QJsonValue → σ → Bool × σ × List DecoderEffect) (operationId : Nat)
    (attributeName : String) (captured : σ) : Bool × σ × List DecoderEffect :=
  let parsed := fromJson reply.body
  let jsonError := parsed.1
  let doc := parsed.2
  if jsonError.error ≠ 0 then
    (false, captured,
      [DecoderEffect.apiErrorOccurred operationId
        { level := Level.JsonParseError, code := jsonError.error,
          proofModuleCode := g.NETWORK_MODULE_CODE, proofErrorCode := g.InvalidReply,
          message := "JSON error: " ++ jsonError.errorString, userFriendly := false }])
  else if doc.isArray = false then
    if doc.isObject then
      let jsonObject := doc.object
      if (QJsonObject.value jsonObject attributeName).isUndefined = false ∧
          (QJsonObject.value jsonObject attributeName).isArray = true then
        let called := jsonParser (QJsonObject.value jsonObject attributeName).toArray captured
        (called.1, called.2.1,
          DecoderEffect.jsonParser (QJsonObject.value jsonObject attributeName).toArray
            :: called.2.2)
      else
        match serverErrorScan jsonObject serverErrorAttributes with
        | some jsonErrorMessage =>
          (false, captured,
            [DecoderEffect.apiErrorOccurred operationId
              { level := Level.JsonServerError, code := 0,
                proofModuleCode := g.NETWORK_MODULE_CODE, proofErrorCode := g.InvalidReply,
                message := jsonErrorMessage, userFriendly := false }])
        | none => (true, captured, [])
    else
      (false, captured,
        [DecoderEffect.apiErrorOccurred operationId
          { level := Level.JsonDataError, code := 0,
            proofModuleCode := g.NETWORK_MODULE_CODE, proofErrorCode := g.InvalidReply,
            message := "Can't create list of entities from server response",
            userFriendly := false }])
  else
    let called := jsonParser doc.array captured
    (called.1, called.2.1, DecoderEffect.jsonParser doc.array :: called.2.2)

/-- The function `parseEntitiesList<Entity>(entityList, reply, operationId,
attributeName)`: `parseEntitiesListPrivate` with the array overload as the
callback. -/
def parseEntitiesList.ofReply {Entity : Type} (g : NetworkGlobal)
    (serverErrorAttributes : List String) (fromJson : JsonParser)
    (factory : QJsonObject → Option Entity) (entityList : List Entity) (reply : QNetworkReply)
    (operationId : Nat) (attributeName : String) : Bool × List Entity × List DecoderEffect :=
  parseEntitiesListPrivate g serverErrorAttributes fromJson reply
    (fun jsonArray captured =>
      parseEntitiesList g serverErrorAttributes factory captured jsonArray operationId)
    operationId attributeName entityList

/-! ## Entity cache merge -/

/-- Modelled from the spec: `ObjectsCache<Key, Entity>` of
`proofcore/objectscache.h`, which is not among the sources at hand: a table
from keys to the canonical instance. An instance (a `QSharedPointer<Entity>`)
is a position in the list of live instances of `EntityStore`. -/
abbrev ObjectsCache (Key : Type) := List (Key × Nat)

/-- Modelled from the spec: `ObjectsCache::add(key, entity)` returns the
instance already stored for `key` when there is one, and otherwise stores
`entity` and returns it. -/
def ObjectsCache.add {Key : Type} [DecidableEq Key] (cache : ObjectsCache Key) (key : Key)
    (entity : Nat) : ObjectsCache Key × Nat :=
  match cache.find? (fun c => decide (c.1 = key)) with
  | some c => (cache, c.2)
  | none => ((key, entity) :: cache, entity)

/-- The entity instances that exist (the field values of each, by position)
and the cache. -/
structure EntityStore (Key : Type) (Fields : Type) where
  instances : List Fields
  cache : ObjectsCache Key

/-- Every cached instance exists. -/
def EntityStore.WellFormed {Key Fields : Type} (store : EntityStore Key Fields) : Prop :=
  ∀ c ∈ store.cache, c.2 < store.instances.length

/-- The function `parseEntity<EntityKey, Entity>(jsonObject, cache, cacheKey,
operationId)`. `factory` gives the field values of the instance that
`Entity::fromJson` creates, which becomes the last instance of the store;
`updateFrom old other` gives the field values of an instance with values
`old` after `updateFrom` was called on it with an instance with values
`other`. -/
def parseEntity.withCache {Key Fields : Type} [DecidableEq Key] (g : NetworkGlobal)
    (serverErrorAttributes : List String) (factory : QJsonObject → Option Fields)
    (cacheKey : Fields → Key) (updateFrom : Fields → Fields → Fields)
    (store : EntityStore Key Fields) (jsonObject : QJsonObject) (operationId : Nat) :
    Option Nat × EntityStore Key Fields × List DecoderEffect :=
  let parsed := parseEntity g serverErrorAttributes factory jsonObject operationId
  match parsed.1 with
  | none => (none, store, parsed.2)
  | some fields =>
    let entity := store.instances.length
    let instances := store.instances ++ [fields]
    let added := ObjectsCache.add store.cache (cacheKey fields) entity
    let fromCache := added.2
    if entity ≠ fromCache then
      match instances[fromCache]? with
      | some old =>
        (some fromCache,
          { instances := instances.set fromCache (updateFrom old fields), cache := added.1 },
          parsed.2 ++ [DecoderEffect.updateFrom fromCache entity])
      | none =>
        (some fromCache, { instances := instances, cache := added.1 },
          parsed.2 ++ [DecoderEffect.updateFrom fromCache entity])
    else
      (some entity, { instances := instances, cache := added.1 }, parsed.2)

/-! ## Auth token manager (restclient.cpp) -/

/-- Qt: `QNetworkReply::SslHandshakeFailedError`. -/
def QNetworkReply.SslHandshakeFailedError : Int := 6

/-- Qt: `QNetworkReply::TemporaryNetworkFailureError`. -/
def QNetworkReply.TemporaryNetworkFailureError : Int := 7

/-- Qt: `QNetworkReply::NetworkSessionFailedError`. -/
def QNetworkReply.NetworkSessionFailedError : Int := 8

/-- Qt: `QNetworkReply::ProxyConnectionRefusedError`. -/
def QNetworkReply.ProxyConnectionRefusedError : Int := 101

/-- Qt: `QNetworkReply::ProxyConnectionClosedError`. -/
def QNetworkReply.ProxyConnectionClosedError : Int := 102

/-- Qt: `QNetworkReply::ProxyNotFoundError`. -/
def QNetworkReply.ProxyNotFoundError : Int := 103

/-- Qt: `QNetworkReply::UnknownProxyError`. -/
def QNetworkReply.UnknownProxyError : Int := 199

/-- Line 25 of restclient.cpp, in milliseconds. -/
def OAUTH_TOKEN_RETRY_TIMEOUT : Int := 1000 * 2

/-- Lines 26-36 of restclient.cpp. -/
def RETRIABLE_NETWORK_ERRORS : List Int :=
  [QNetworkReply.ConnectionRefusedError, QNetworkReply.RemoteHostClosedError,
   QNetworkReply.HostNotFoundError, QNetworkReply.SslHandshakeFailedError,
   QNetworkReply.TemporaryNetworkFailureError, QNetworkReply.NetworkSessionFailedError,
   QNetworkReply.ProxyConnectionRefusedError, QNetworkReply.ProxyConnectionClosedError,
   QNetworkReply.UnknownNetworkError, QNetworkReply.UnknownProxyError,
   QNetworkReply.ProxyNotFoundError]

/-- Qt: `QJsonValue::toInt()`: the number when it is whole and fits an `int`,
otherwise 0. -/
def QJsonValue.toInt : QJsonValue → Int
  | .double d => if d.den = 1 ∧ -(2 ^ 31) ≤ d.num ∧ d.num < 2 ^ 31 then d.num else 0
  | _ => 0

/-- The token state of `RestClientPrivate`; the expiry is in seconds. -/
structure RestClientPrivate where
  quasiOAuth2Token : String
  quasiOAuth2TokenExpiredDateTime : Int
deriving DecidableEq, Repr

/-- What the transport reports for one token request: `reply->error()` (also
the code of the `error` signal) and `reply->readAll()`. -/
structure TokenReply where
  error : Int
  body : String
deriving DecidableEq, Repr

/-- What token acquisition does to the outside world, in program order: the
`post` of a token request by `requestQuasiOAuth2token(retries)`, the single
shot that will call `requestQuasiOAuth2token(retries)` after `msec`
milliseconds, and the two signals. -/
inductive AuthEffect where
  | post (retries : Int)
  | singleShot (msec : Int) (retries : Int)
  | authenticationErrorOccurred (message : String)
  | authenticationSucceed
deriving DecidableEq, Repr

/-- The lambda that `requestQuasiOAuth2token` connects to
`QNetworkReply::error`. -/
def requestQuasiOAuth2token.onError (retries : Int) (code : Int) : List AuthEffect :=
  if code ∈ RETRIABLE_NETWORK_ERRORS ∧ retries > 0 then
    [AuthEffect.singleShot OAUTH_TOKEN_RETRY_TIMEOUT (retries - 1)]
  else
    [AuthEffect.authenticationErrorOccurred
      "Can't connect to Scissorhands service.\nPlease try again."]

/-- The lambda that `requestQuasiOAuth2token` connects to
`QNetworkReply::finished`; `expiredTime` is the time at which the request was
issued. -/
def requestQuasiOAuth2token.onFinished (fromJson : JsonParser) (d : RestClientPrivate)
    (reply : TokenReply) (expiredTime : Int) : RestClientPrivate × List AuthEffect :=
  if reply.error = QNetworkReply.NoError then
    let parsed := fromJson reply.body
    let response := parsed.2.object
    if parsed.1.error = 0 then
      let token := (QJsonObject.value response "access_token").toString
      let expiresInSeconds := (QJsonObject.value response "expires_in").toInt
      let updated : RestClientPrivate :=
        { quasiOAuth2Token := token,
          quasiOAuth2TokenExpiredDateTime := expiredTime + expiresInSeconds }
      if token = "" then
        (updated, [AuthEffect.authenticationErrorOccurred
          "Wrong Scissorhands service authentication.\nPlease check your authentication settings."])
      else
        (updated, [AuthEffect.authenticationSucceed])
    else
      (d, [AuthEffect.authenticationErrorOccurred
        "Wrong Scissorhands service answer.\nPlease check your host settings."])
  else
    (d, [])

/-- The function `requestQuasiOAuth2token(retries)` together with the retries
it schedules. The request is the `n`-th token request: the transport answers
it with `transport n` and it is issued at time `now n`. A reply with an error
raises `error` and then `finished`; a scheduled single shot fires and calls
`requestQuasiOAuth2token(retries - 1)`. -/
def requestQuasiOAuth2token (fromJson : JsonParser) (transport : Nat → TokenReply)
    (now : Nat → Int) (retries : Int) (n : Nat) (d : RestClientPrivate) :
    RestClientPrivate × List AuthEffect :=
  let reply := transport n
  let signalled :=
    if reply.error ≠ QNetworkReply.NoError then
      requestQuasiOAuth2token.onError retries reply.error
    else []
  let finished := requestQuasiOAuth2token.onFinished fromJson d reply (now n)
  if reply.error ≠ QNetworkReply.NoError ∧
      reply.error ∈ RETRIABLE_NETWORK_ERRORS ∧ retries > 0 then
    let rest := requestQuasiOAuth2token fromJson transport now (retries - 1) (n + 1) finished.1
    (rest.1, AuthEffect.post retries :: (signalled ++ finished.2 ++ rest.2))
  else
    (finished.1, AuthEffect.post retries :: (signalled ++ finished.2))
termination_by retries.toNat
decreasing_by omega

/-- The number of token requests issued in a list of effects. -/
def tokenRequests (effects : List AuthEffect) : Nat :=
  effects.countP (fun e => match e with | .post _ => true | _ => false)

/-- The number of `authenticationErrorOccurred` signals in a list of effects. -/
def authenticationErrors (effects : List AuthEffect) : Nat :=
  effects.countP (fun e => match e with | .authenticationErrorOccurred _ => true | _ => false)

/-- One call of `requestQuasiOAuth2token(retries)`: the `post` of the token
request and what its two lambdas do when the reply arrives, without the retry
that a scheduled single shot starts later. `expiredTime` is the time of the
call. -/
def requestQuasiOAuth2token.once (fromJson : JsonParser) (retries : Int) (reply : TokenReply)
    (expiredTime : Int) (d : RestClientPrivate) : RestClientPrivate × List AuthEffect :=
  let signalled :=
    if reply.error ≠ QNetworkReply.NoError then
      requestQuasiOAuth2token.onError retries reply.error
    else []
  let finished := requestQuasiOAuth2token.onFinished fromJson d reply expiredTime
  (finished.1, AuthEffect.post retries :: (signalled ++ finished.2))

/-- The single shots scheduled in a list of effects: the budget each passes. -/
def scheduledRetries : List AuthEffect → List Int
  | [] => []
  | .singleShot _ retries :: rest => retries :: scheduledRetries rest
  | _ :: rest => scheduledRetries rest

/-- The signals `authenticationErrorOccurred` and `authenticationSucceed` in a
list of effects. -/
def authenticationEvents (effects : List AuthEffect) : List AuthEffect :=
  effects.filter (fun e =>
    match e with
    | .authenticationErrorOccurred _ => true
    | .authenticationSucceed => true
    | _ => false)

/-! ## Numeric code bands and `RestApiError` accessors (abstractrestapi.cpp) -/

/-- The function `AbstractRestApi::clientNetworkErrorOffset`. -/
def clientNetworkErrorOffset : Int := NETWORK_ERROR_OFFSET

/-- The function `AbstractRestApi::clientSslErrorOffset`. -/
def clientSslErrorOffset : Int := NETWORK_SSL_ERROR_OFFSET

/-- The function `RestApiError::isNetworkError`. -/
def RestApiError.isNetworkError (e : RestApiError) : Bool :=
  decide (e.level = Level.ClientError ∧ e.code > NETWORK_ERROR_OFFSET)

/-- The function `RestApiError::toNetworkError`; the result is the value of
the enum `QNetworkReply::NetworkError`. -/
def RestApiError.toNetworkError (e : RestApiError) : Int :=
  if e.isNetworkError then e.code - NETWORK_ERROR_OFFSET
  else QNetworkReply.UnknownNetworkError

/-! ## String lists (abstractrestapi_p.h) -/

/-- Qt: `QJsonValue::isString`. -/
def QJsonValue.isString : QJsonValue → Bool
  | .string _ => true
  | _ => false

/-- The loop of `parseEntitiesList(QStringList &, const QJsonArray &,
operationId)`. -/
def parseEntitiesList.stringsLoop : List QJsonValue → List String → List String
  | [], entityList => entityList
  | value :: rest, entityList =>
    let string := value.toString
    parseEntitiesList.stringsLoop rest
      (if string ≠ "" then entityList ++ [string] else entityList)

/-- The function `parseEntitiesList(QStringList &entityList, const QJsonArray
&jsonArray, operationId)`: the returned flag, the list and the effects. -/
def parseEntitiesList.ofStrings (entityList : List String) (jsonArray : List QJsonValue)
    (_operationId : Nat) : Bool × List String × List DecoderEffect :=
  (true, parseEntitiesList.stringsLoop jsonArray entityList, [])

/-! ## Mutex discipline of the registry (abstractrestapi.cpp) -/

/-- What matters for the mutex `repliesMutex`: locking, unlocking (also by the
destructor of a `QMutexLocker`), emitting `apiErrorOccurred` and calling a
completion handler. -/
inductive LockAction where
  | lock
  | unlock
  | emitApiErrorOccurred (operationId : Nat)
  | callHandler (operationId : Nat)
deriving DecidableEq, Repr

/-- Whether every emit and every handler call of a sequence of actions happens
while the mutex is released; `held` says whether it is held at the start. -/
def callbacksOutsideLock : Bool → List LockAction → Bool
  | _, [] => true
  | _, .lock :: rest => callbacksOutsideLock true rest
  | _, .unlock :: rest => callbacksOutsideLock false rest
  | held, .emitApiErrorOccurred _ :: rest => !held && callbacksOutsideLock held rest
  | held, .callHandler _ :: rest => !held && callbacksOutsideLock held rest

/-- The operation ids of the emits and handler calls of a sequence of
actions, in order. -/
def callbackIds : List LockAction → List Nat
  | [] => []
  | .emitApiErrorOccurred operationId :: rest => operationId :: callbackIds rest
  | .callHandler operationId :: rest => operationId :: callbackIds rest
  | _ :: rest => callbackIds rest

/-- The actions of `setupReply` (lines 318-320). -/
def setupReply.actions : List LockAction := [LockAction.lock, LockAction.unlock]

/-- The actions of `cleanupReply` (lines 298-300). -/
def cleanupReply.actions : List LockAction := [LockAction.lock, LockAction.unlock]

/-- The actions of `runReplyHandler`: the locker is released by `lock.unlock()`
before the handler is called, or by its destructor when the handle is not
pending. -/
def runReplyHandler.actions (t : Replies) (operationId : Nat) (reply : Nat) : List LockAction :=
  if QHash.contains t reply then
    [LockAction.lock, LockAction.unlock] ++
      (match (QHash.value t reply).2 with
       | some _ => [LockAction.callHandler operationId]
       | none => []) ++
      cleanupReply.actions
  else
    [LockAction.lock, LockAction.unlock]

/-- The actions of `replyFinished`. -/
def replyFinished.actions (t : Replies) (operationId : Nat) (reply : QNetworkReply) :
    List LockAction :=
  if (reply.error = QNetworkReply.NoError ∨
        (reply.error ≥ 100 ∧ reply.error.tmod 100 ≠ 99)) ∧
      ¬ reply.httpStatusCode ∈ ALLOWED_HTTP_STATUSES then
    [LockAction.emitApiErrorOccurred operationId] ++ cleanupReply.actions ++
      runReplyHandler.actions (cleanupReply t reply.ptr).1 operationId reply.ptr
  else
    runReplyHandler.actions t operationId reply.ptr

/-- The actions of `replyErrorOccurred`. -/
def replyErrorOccurred.actions (operationId : Nat) (reply : QNetworkReply) : List LockAction :=
  if reply.error ≠ QNetworkReply.NoError ∧ (reply.error < 200 ∨ reply.error.tmod 100 = 99) then
    [LockAction.emitApiErrorOccurred operationId] ++ cleanupReply.actions
  else []

/-- The actions of the loop of `sslErrorsOccurred`, with the flag `firstError`. -/
def sslErrorsOccurred.actions (operationId : Nat) : List QSslError → Bool → List LockAction
  | [], _ => []
  | error :: rest, firstError =>
    if error.error ≠ QSslError.NoError then
      if !firstError then sslErrorsOccurred.actions operationId rest firstError
      else
        [LockAction.emitApiErrorOccurred operationId] ++ cleanupReply.actions ++
          sslErrorsOccurred.actions operationId rest false
    else sslErrorsOccurred.actions operationId rest firstError

/-- The actions of the lambda `replyFinishedCaller`. -/
def replyFinishedCaller.actions (t : Replies) (reply : QNetworkReply) : List LockAction :=
  if ¬ QHash.contains t reply.ptr = true then [LockAction.lock, LockAction.unlock]
  else
    [LockAction.lock, LockAction.unlock] ++
      replyFinished.actions t (QHash.value t reply.ptr).1 reply

/-- The actions of the lambda `sslErrorsOccurredCaller`. -/
def sslErrorsOccurredCaller.actions (t : Replies) (reply : QNetworkReply)
    (errors : List QSslError) : List LockAction :=
  if ¬ QHash.contains t reply.ptr = true then [LockAction.lock, LockAction.unlock]
  else
    [LockAction.lock, LockAction.unlock] ++
      sslErrorsOccurred.actions (QHash.value t reply.ptr).1 errors true

/-- The actions of the lambda that `setupReply` connects to
`QNetworkReply::error`. -/
def replyErrorCaller.actions (t : Replies) (operationId : Nat) (reply : QNetworkReply) :
    List LockAction :=
  if ¬ QHash.contains t reply.ptr = true then [LockAction.lock, LockAction.unlock]
  else [LockAction.lock, LockAction.unlock] ++ replyErrorOccurred.actions operationId reply

/-- The actions of `abortRequest`: the scan runs between `lock()` and
`unlock()`, the emit comes after. -/
def abortRequest.actions (isRunning : Nat → Bool) (t : Replies) (operationId : Nat) :
    List LockAction :=
  [LockAction.lock, LockAction.unlock] ++
    (match (abortRequest.scan operationId (QHash.keys t) t).2 with
     | some toAbort =>
       if isRunning toAbort then [LockAction.emitApiErrorOccurred operationId] else []
     | none => [])

/-- The actions of the first loop of `clearReplies`. -/
def clearReplies.loopActions : List Nat → Replies → List LockAction
  | [], _ => []
  | reply :: rest, t =>
    let operationId := (QHash.value t reply).1
    (if operationId ≠ 0 then [LockAction.emitApiErrorOccurred operationId] else []) ++
      clearReplies.loopActions rest (QHash.remove t reply)

/-- The actions of `clearReplies`: `lock()` (line 334), the first loop,
`unlock()` (line 349). -/
def clearReplies.actions (t : Replies) : List LockAction :=
  [LockAction.lock] ++ clearReplies.loopActions (QHash.keys t) t ++ [LockAction.unlock]

/-! ## Host parsing (restclient.cpp) -/

/-- Qt: `QString::endsWith(QChar)`. -/
def QString.endsWith (s : String) (c : Char) : Bool :=
  s.data.getLast? == some c

/-- Joins character lists with `sep` between them. -/
def QStringList.joinChars (sep : Char) : List (List Char) → List Char
  | [] => []
  | [part] => part
  | part :: next :: rest => part ++ sep :: QStringList.joinChars sep (next :: rest)

/-- Qt: `QStringList::join(QChar)`. -/
def QStringList.join (parts : List String) (sep : Char) : String :=
  String.mk (QStringList.joinChars sep (parts.map String.data))

/-- The function `RestClientPrivate::parseHost`: the host and the path that
follows it (the second component of the returned pair). `none` stands for an
index out of range in `parts[hostIndex]`, on which `QList::operator[]` has no
defined result. -/
def parseHost (host : String) : Option (String × String) :=
  let parts := QString.split host '/'
  match parts with
  | [] => some (host, "")
  | first :: _ =>
    let hostIndex := if QString.endsWith first ':' then 1 else 0
    match parts[hostIndex]? with
    | none => none
    | some newHost =>
      let parts := parts.tail
      let parts := if hostIndex > 0 then parts.tail else parts
      let path := if !parts.isEmpty then "/" ++ QStringList.join parts '/' else ""
      some (newHost, path)

/-! ## Sample data -/

/-- Sample values for the constants of `proofnetwork_global.h`. -/
def sampleGlobal : NetworkGlobal :=
  { NETWORK_MODULE_CODE := 300, ServerError := 1, ServiceUnavailable := 2, SslError := 3,
    InvalidReply := 4 }

/-- A pending table with three entries: handles 7, 8, 9 with operation ids
1, 2, 3; the second has an empty handler. -/
def sampleTable : Replies :=
  [(7, (1, some 50)), (8, (2, none)), (9, (3, some 60))]

/-- Three requests. -/
def sampleRequests : List (Request × Nat × RestAnswerHandler) :=
  [(Request.get, 7, some 50), (Request.post, 8, none), (Request.put, 9, some 60)]

/-- A reply with status 404 and the JSON body `{"message":"not found"}`, on
handle 7. -/
def sampleReply404 : QNetworkReply :=
  { ptr := 7, error := 0, httpStatusCode := 404, httpReasonPhrase := "Not Found",
    contentTypeHeader := "application/json; charset=utf-8",
    body := "\x7b\"message\":\"not found\"\x7d", errorString := "",
    urlHost := "example.com" }

/-- A JSON parser that knows the body of `sampleReply404` and rejects every
other text. -/
def sampleParser : JsonParser := fun text =>
  if text = "\x7b\"message\":\"not found\"\x7d" then
    ({ error := 0, errorString := "no error occurred" },
      QJsonDocument.objectDocument [("message", QJsonValue.string "not found")])
  else
    ({ error := 5, errorString := "illegal value" }, QJsonDocument.nullDocument)

/-- A reply with status 404, Content-Type `text/plain` and an empty body, on
handle 7. -/
def sampleReplyEmptyText : QNetworkReply :=
  { ptr := 7, error := 0, httpStatusCode := 404, httpReasonPhrase := "Not Found",
    contentTypeHeader := "text/plain", body := "", errorString := "",
    urlHost := "example.com" }

/-- A reply that failed with `HostNotFoundError` for host `example.com`, on
handle 7; there is no HTTP status. -/
def sampleReplyHostNotFound : QNetworkReply :=
  { ptr := 7, error := 3, httpStatusCode := 0, httpReasonPhrase := "",
    contentTypeHeader := "", body := "", errorString := "Host example.com not found",
    urlHost := "example.com" }

/-- A reply with HTTP status 418, which Qt reports as `UnknownContentError`
(299), on handle 7. -/
def sampleReplyTeapot : QNetworkReply :=
  { ptr := 7, error := 299, httpStatusCode := 418, httpReasonPhrase := "I am a teapot",
    contentTypeHeader := "", body := "",
    errorString := "Error transferring - server replied: I am a teapot",
    urlHost := "example.com" }

/-- A batch of TLS problems: a `NoError` item, then two genuine errors. -/
def sampleSslErrors : List QSslError :=
  [{ error := 0, errorString := "No error" },
   { error := 9, errorString := "The certificate is self-signed" },
   { error := 22, errorString := "The host name did not match" }]

/-- A batch of TLS problems without a genuine error. -/
def sampleSslNoErrors : List QSslError :=
  [{ error := 0, errorString := "No error" }]

/-- A run of the registry: two requests are issued on handles 7 and 8; the
first fails with host-not-found and then reports finished; the second is
aborted twice while running; at the end the client is torn down. -/
def sampleEvents : List Event :=
  [Event.issue Request.get 7 (some 50),
   Event.issue Request.post 8 (some 60),
   Event.error sampleReplyHostNotFound,
   Event.finished sampleReplyHostNotFound,
   Event.abortRequest 2 (fun _ => true),
   Event.abortRequest 2 (fun _ => true),
   Event.finished { sampleReply404 with ptr := 8 },
   Event.clearReplies]

/-- A decoded entity with two fields, for the samples. -/
structure SampleEntity where
  id : Int
  name : String
deriving DecidableEq, Repr

/-- A factory for `SampleEntity`: it succeeds on the objects that have a
numeric `id`. -/
def sampleFactory (jsonObject : QJsonObject) : Option SampleEntity :=
  match QJsonObject.value jsonObject "id" with
  | .double d => some { id := d.num, name := (QJsonObject.value jsonObject "name").toString }
  | _ => none

/-- The body `{}`. -/
def sampleBodyEmptyObject : String := "\x7b\x7d"

/-- The body `{"errorMessage":"quota exceeded"}`. -/
def sampleBodyQuota : String := "\x7b\"errorMessage\":\"quota exceeded\"\x7d"

/-- The body `{"total":0}`. -/
def sampleBodyNoItems : String := "\x7b\"total\":0\x7d"

/-- The body `[{"id":1,"name":"a"},{"name":"b"},7,{"id":3,"name":"c"}]`. -/
def sampleBodyMixed : String :=
  "[\x7b\"id\":1,\"name\":\"a\"\x7d,\x7b\"name\":\"b\"\x7d,7,\x7b\"id\":3,\"name\":\"c\"\x7d]"

/-- The array of `sampleBodyMixed`: the second and third elements are
malformed for `sampleFactory`. -/
def sampleArrayMixed : List QJsonValue :=
  [QJsonValue.object [("id", QJsonValue.double 1), ("name", QJsonValue.string "a")],
   QJsonValue.object [("name", QJsonValue.string "b")],
   QJsonValue.double 7,
   QJsonValue.object [("id", QJsonValue.double 3), ("name", QJsonValue.string "c")]]

/-- A JSON parser that knows the four sample bodies and rejects every other
text with `IllegalValue` (5). -/
def sampleDecoderParser : JsonParser := fun text =>
  if text = sampleBodyEmptyObject then
    ({ error := 0, errorString := "no error occurred" }, QJsonDocument.objectDocument [])
  else if text = sampleBodyQuota then
    ({ error := 0, errorString := "no error occurred" },
      QJsonDocument.objectDocument [("errorMessage", QJsonValue.string "quota exceeded")])
  else if text = sampleBodyNoItems then
    ({ error := 0, errorString := "no error occurred" },
      QJsonDocument.objectDocument [("total", QJsonValue.double 0)])
  else if text = sampleBodyMixed then
    ({ error := 0, errorString := "no error occurred" },
      QJsonDocument.arrayDocument sampleArrayMixed)
  else
    ({ error := 5, errorString := "illegal value" }, QJsonDocument.nullDocument)

/-- A reply with status 200 and the given body, on handle 7. -/
def sampleReplyWithBody (body : String) : QNetworkReply :=
  { ptr := 7, error := 0, httpStatusCode := 200, httpReasonPhrase := "OK",
    contentTypeHeader := "application/json", body := body, errorString := "",
    urlHost := "example.com" }

/-- The key of a `SampleEntity`: its `id`. -/
def sampleCacheKey (entity : SampleEntity) : Int := entity.id

/-- An `updateFrom` for `SampleEntity` that takes over every field. -/
def sampleUpdateFrom (_old : SampleEntity) (other : SampleEntity) : SampleEntity := other

/-- An empty store. -/
def sampleStore : EntityStore Int SampleEntity := { instances := [], cache := [] }

/-- The object `{"id":7,"name":"old"}`. -/
def sampleObjectOld : QJsonObject :=
  [("id", QJsonValue.double 7), ("name", QJsonValue.string "old")]

/-- The object `{"id":7,"name":"new"}`. -/
def sampleObjectNew : QJsonObject :=
  [("id", QJsonValue.double 7), ("name", QJsonValue.string "new")]

/-- A transport on which every token request is refused. -/
def sampleRefusingTransport : Nat → TokenReply :=
  fun _ => { error := QNetworkReply.ConnectionRefusedError, body := "" }

/-- A token state before any token was obtained. -/
def sampleTokenState : RestClientPrivate :=
  { quasiOAuth2Token := "", quasiOAuth2TokenExpiredDateTime := 0 }

/-- The token response `{"access_token":"abc","expires_in":3600}`. -/
def sampleBodyToken : String := "\x7b\"access_token\":\"abc\",\"expires_in\":3600\x7d"

/-- A JSON parser that knows `sampleBodyToken` and rejects every other text. -/
def sampleTokenParser : JsonParser := fun text =>
  if text = sampleBodyToken then
    ({ error := 0, errorString := "no error occurred" },
      QJsonDocument.objectDocument
        [("access_token", QJsonValue.string "abc"), ("expires_in", QJsonValue.double 3600)])
  else
    ({ error := 5, errorString := "illegal value" }, QJsonDocument.nullDocument)

/-- A reply that failed with `UnknownServerError` (499) and carries no HTTP
status, on handle 7. -/
def sampleReplyUnknownServer : QNetworkReply :=
  { ptr := 7, error := 499, httpStatusCode := 0, httpReasonPhrase := "",
    contentTypeHeader := "", body := "", errorString := "Unknown error",
    urlHost := "example.com" }

/-- A batch with the one TLS problem `QSslError::UnspecifiedError` (-1). -/
def sampleSslUnspecified : List QSslError :=
  [{ error := -1, errorString := "Unknown error" }]

/-- An array with two non-empty strings, an empty string and a number. -/
def sampleArrayStrings : List QJsonValue :=
  [QJsonValue.string "a", QJsonValue.string "", QJsonValue.double 7, QJsonValue.string "b"]

/-! ## Theorems -/

theorem issue_eq_setupReply (d : AbstractRestApiPrivate) (request : Request) (reply : Nat)
    (handler : RestAnswerHandler) : issue d request reply handler = setupReply d reply handler := by
  cases request <;> rfl

theorem issueAll_ids (reqs : List (Request × Nat × RestAnswerHandler)) :
    ∀ d : AbstractRestApiPrivate, d.lastUsedOperationId + reqs.length < 2 ^ 64 →
      (issueAll d reqs).2 = List.range' (d.lastUsedOperationId + 1) reqs.length ∧
      (issueAll d reqs).1.lastUsedOperationId = d.lastUsedOperationId + reqs.length := by
  induction reqs with
  | nil => intro d _; simp [issueAll]
  | cons r rest ih =>
    intro d h
    obtain ⟨request, reply, handler⟩ := r
    simp only [List.length_cons] at h
    have hlt : (d.lastUsedOperationId + 1) % 2 ^ 64 = d.lastUsedOperationId + 1 :=
      Nat.mod_eq_of_lt (by omega)
    have hstep : (issue d request reply handler).1.lastUsedOperationId
        = d.lastUsedOperationId + 1 := by
      rw [issue_eq_setupReply]; simp only [setupReply]; exact hlt
    have hid : (issue d request reply handler).2 = d.lastUsedOperationId + 1 := by
      rw [issue_eq_setupReply]; simp only [setupReply]; exact hlt
    have ih2 := ih (issue d request reply handler).1 (by rw [hstep]; omega)
    simp only [issueAll, List.length_cons, List.range']
    rw [ih2.1, ih2.2, hstep, hid]
    constructor
    · rfl
    · omega

/-- C1: operation ids handed out by any sequence of requests (as long as the
64-bit counter does not wrap: fewer than `2 ^ 64` ids in total) are strictly
increasing in issue order and never zero, and from the initial counter value
`0` the first id issued is `1`. -/
theorem C1_operation_ids_increasing (d : AbstractRestApiPrivate)
    (reqs : List (Request × Nat × RestAnswerHandler))
    (h : d.lastUsedOperationId + reqs.length < 2 ^ 64) :
    (issueAll d reqs).2.Pairwise (fun a b => a < b) ∧
    (∀ id ∈ (issueAll d reqs).2, id ≠ 0) ∧
    (issueAll d reqs).2.length = reqs.length ∧
    AbstractRestApiPrivate.initial.lastUsedOperationId = 0 ∧
    (∀ request reply handler,
      (issue AbstractRestApiPrivate.initial request reply handler).2 = 1) := by
  have hids := (issueAll_ids reqs d h).1
  refine ⟨?_, ?_, ?_, rfl, ?_⟩
  · rw [hids]
    exact List.pairwise_lt_range' _ _
  · intro id hid
    rw [hids, List.mem_range'_1] at hid
    omega
  · rw [hids, List.length_range']
  · intro request reply handler
    rw [issue_eq_setupReply]
    rfl

theorem C1_operation_ids_increasing_witness :
    AbstractRestApiPrivate.initial.lastUsedOperationId + sampleRequests.length < 2 ^ 64 ∧
    (issueAll AbstractRestApiPrivate.initial sampleRequests).2 = [1, 2, 3] ∧
    (issueAll AbstractRestApiPrivate.initial sampleRequests).2.Pairwise (fun a b => a < b) :=
  ⟨by decide, by decide,
   (C1_operation_ids_increasing AbstractRestApiPrivate.initial sampleRequests (by decide)).1⟩

theorem QHash.remove_sublist (t : Replies) (reply : Nat) : (QHash.remove t reply).Sublist t :=
  List.filter_sublist t

theorem QHash.contains_iff (t : Replies) (reply : Nat) :
    QHash.contains t reply = true ↔ reply ∈ QHash.keys t := by
  simp [QHash.contains, QHash.keys]

theorem QHash.contains_remove (t : Replies) (reply : Nat) :
    QHash.contains (QHash.remove t reply) reply = false := by
  simp [QHash.contains, QHash.remove]

theorem QHash.value_mem (t : Replies) (reply : Nat) (h : reply ∈ QHash.keys t) :
    (reply, QHash.value t reply) ∈ t := by
  induction t with
  | nil => simp [QHash.keys] at h
  | cons e t ih =>
    obtain ⟨k, v⟩ := e
    by_cases hk : k = reply
    · subst hk
      simp [QHash.value, List.find?]
    · have h2 : reply ∈ QHash.keys t := by
        simp only [QHash.keys, List.map_cons, List.mem_cons] at h
        rcases h with h | h
        · exact absurd h.symm hk
        · exact h
      have hb : (k == reply) = false := by simpa using hk
      have hv : QHash.value ((k, v) :: t) reply = QHash.value t reply := by
        simp [QHash.value, List.find?, hb]
      rw [hv]
      exact List.mem_cons_of_mem _ (ih h2)

theorem QHash.value_of_mem (t : Replies) (reply : Nat) (v : Nat × RestAnswerHandler)
    (hk : (QHash.keys t).Nodup) (h : (reply, v) ∈ t) : QHash.value t reply = v := by
  induction t with
  | nil => simp at h
  | cons e t ih =>
    obtain ⟨k, w⟩ := e
    simp only [QHash.keys, List.map_cons, List.nodup_cons] at hk
    rcases List.mem_cons.mp h with h | h
    · cases h
      simp [QHash.value, List.find?]
    · have hne : k ≠ reply := by
        intro hkr
        subst hkr
        exact hk.1 (List.mem_map_of_mem (fun e => e.1) h)
      have hb : (k == reply) = false := by simpa using hne
      have hv : QHash.value ((k, w) :: t) reply = QHash.value t reply := by
        simp [QHash.value, List.find?, hb]
      rw [hv]
      exact ih hk.2 h

theorem QHash.value_id_mem (t : Replies) (reply : Nat) (h : reply ∈ QHash.keys t) :
    (QHash.value t reply).1 ∈ operationIds t :=
  List.mem_map_of_mem (fun e => e.2.1) (QHash.value_mem t reply h)

theorem QHash.remove_of_not_mem (t : Replies) (reply : Nat) (h : reply ∉ QHash.keys t) :
    QHash.remove t reply = t := by
  simp only [QHash.remove, List.filter_eq_self]
  intro e he
  have : e.1 ≠ reply := fun hr => h (hr ▸ List.mem_map_of_mem (fun e => e.1) he)
  simpa using this

theorem operationIds_remove_sublist (t : Replies) (reply : Nat) :
    (operationIds (QHash.remove t reply)).Sublist (operationIds t) :=
  (QHash.remove_sublist t reply).map _

theorem keys_remove_sublist (t : Replies) (reply : Nat) :
    (QHash.keys (QHash.remove t reply)).Sublist (QHash.keys t) :=
  (QHash.remove_sublist t reply).map _

theorem id_not_mem_remove (t : Replies) (reply : Nat) (v : Nat × RestAnswerHandler)
    (hi : (operationIds t).Nodup) (h : (reply, v) ∈ t) :
    v.1 ∉ operationIds (QHash.remove t reply) := by
  intro hmem
  obtain ⟨e, he, hev⟩ := List.mem_map.mp hmem
  have het : e ∈ t := (QHash.remove_sublist t reply).subset he
  have hne : e.1 ≠ reply := by
    have := (List.mem_filter.mp he).2
    simpa using this
  have heq : e = (reply, v) :=
    List.inj_on_of_nodup_map hi het h hev
  exact hne (by rw [heq])

theorem abortRequest.scan_none (operationId : Nat) (t : Replies) :
    ∀ keys : List Nat, (∀ reply ∈ keys, (QHash.value t reply).1 ≠ operationId) →
      abortRequest.scan operationId keys t = (t, none) := by
  intro keys
  induction keys with
  | nil => intro _; rfl
  | cons reply rest ih =>
    intro h
    have h1 : operationId ≠ (QHash.value t reply).1 :=
      fun hh => h reply (List.mem_cons_self _ _) hh.symm
    simp only [abortRequest.scan, h1, ne_eq, not_false_eq_true, if_true]
    exact ih (fun r hr => h r (List.mem_cons_of_mem _ hr))

theorem abortRequest.scan_some (operationId : Nat) (t : Replies) :
    ∀ keys : List Nat, (∃ reply ∈ keys, (QHash.value t reply).1 = operationId) →
      ∃ reply ∈ keys, (QHash.value t reply).1 = operationId ∧
        abortRequest.scan operationId keys t = (QHash.remove t reply, some reply) := by
  intro keys
  induction keys with
  | nil => rintro ⟨r, hr, _⟩; simp at hr
  | cons reply rest ih =>
    intro h
    by_cases h1 : (QHash.value t reply).1 = operationId
    · refine ⟨reply, List.mem_cons_self _ _, h1, ?_⟩
      simp [abortRequest.scan, h1]
    · have hrest : ∃ r ∈ rest, (QHash.value t r).1 = operationId := by
        obtain ⟨r, hr, hv⟩ := h
        rcases List.mem_cons.mp hr with hr | hr
        · subst hr; exact absurd hv h1
        · exact ⟨r, hr, hv⟩
      obtain ⟨r, hr, hv, hs⟩ := ih hrest
      refine ⟨r, List.mem_cons_of_mem _ hr, hv, ?_⟩
      have h2 : operationId ≠ (QHash.value t reply).1 := fun hh => h1 hh.symm
      simp only [abortRequest.scan, h2, ne_eq, not_false_eq_true, if_true]
      exact hs

theorem abortRequest_absent (g : NetworkGlobal) (isRunning : Nat → Bool) (t : Replies)
    (operationId : Nat) (h : operationId ∉ operationIds t) :
    abortRequest g isRunning t operationId = (t, []) := by
  have hs : abortRequest.scan operationId (QHash.keys t) t = (t, none) :=
    abortRequest.scan_none operationId t (QHash.keys t)
      (fun reply hr hv => h (hv ▸ QHash.value_id_mem t reply hr))
  simp [abortRequest, hs]

theorem abortRequest_present (g : NetworkGlobal) (isRunning : Nat → Bool) (t : Replies)
    (operationId : Nat) (hk : (QHash.keys t).Nodup) (h : operationId ∈ operationIds t) :
    ∃ reply handler, (reply, (operationId, handler)) ∈ t ∧
      abortRequest g isRunning t operationId =
        (QHash.remove t reply,
          if isRunning reply = true then
            [Effect.apiErrorOccurred operationId (canceledError g), Effect.abort reply,
             Effect.deleteLater reply]
          else []) := by
  obtain ⟨e, he, hev⟩ := List.mem_map.mp h
  obtain ⟨k, id, handler⟩ := e
  simp only at hev
  subst hev
  have hval : QHash.value t k = (id, handler) := QHash.value_of_mem t k _ hk he
  obtain ⟨reply, hr, hv, hs⟩ := abortRequest.scan_some id t (QHash.keys t)
    ⟨k, List.mem_map_of_mem (fun e => e.1) he, by rw [hval]⟩
  have hmem := QHash.value_mem t reply hr
  refine ⟨reply, (QHash.value t reply).2, ?_, ?_⟩
  · rw [← hv]; exact hmem
  · simp only [abortRequest, hs]
    by_cases hrun : isRunning reply = true <;> simp [hrun]

/-- C3 (as stated) fails: the entry of operation 1 is pending on a handle that
is no longer running; `abortRequest 1` removes the entry and emits no record. -/
theorem C3_counterexample_not_running :
    1 ∈ operationIds sampleTable ∧
    abortRequest sampleGlobal (fun _ => false) sampleTable 1
      = ([(8, (2, none)), (9, (3, some 60))], []) ∧
    errorRecords (abortRequest sampleGlobal (fun _ => false) sampleTable 1).2
      ≠ [(1, canceledError sampleGlobal)] := by
  decide

/-- C3 (amended): when the pending table has an entry with operation id `i`,
`abortRequest i` removes that entry whether or not the handle is running; the
one "Request canceled" record for `i` and the abort of the handle both happen
exactly when the handle is still running, and nothing is emitted otherwise. -/
theorem C3_abortRequest_present (g : NetworkGlobal) (isRunning : Nat → Bool) (t : Replies)
    (i : Nat) (hk : (QHash.keys t).Nodup) (h : i ∈ operationIds t) :
    ∃ reply handler, (reply, (i, handler)) ∈ t ∧
      (abortRequest g isRunning t i).1 = QHash.remove t reply ∧
      QHash.contains (abortRequest g isRunning t i).1 reply = false ∧
      (isRunning reply = true →
        errorRecords (abortRequest g isRunning t i).2 = [(i, canceledError g)] ∧
        (canceledError g).message = "Request canceled" ∧
        aborted (abortRequest g isRunning t i).2 = [reply]) ∧
      (isRunning reply = false → (abortRequest g isRunning t i).2 = []) := by
  obtain ⟨reply, handler, hmem, heq⟩ := abortRequest_present g isRunning t i hk h
  refine ⟨reply, handler, hmem, ?_, ?_, ?_, ?_⟩
  · rw [heq]
  · rw [heq]; exact QHash.contains_remove t reply
  · intro hrun
    rw [heq]
    simp [hrun, errorRecords, aborted, canceledError]
  · intro hrun
    rw [heq]
    simp [hrun]

theorem C3_abortRequest_present_witness :
    (QHash.keys sampleTable).Nodup ∧ 2 ∈ operationIds sampleTable ∧
    ∃ reply handler, (reply, (2, handler)) ∈ sampleTable ∧
      (abortRequest sampleGlobal (fun _ => true) sampleTable 2).1
        = QHash.remove sampleTable reply ∧
      QHash.contains (abortRequest sampleGlobal (fun _ => true) sampleTable 2).1 reply = false ∧
      ((fun _ => true) reply = true →
        errorRecords (abortRequest sampleGlobal (fun _ => true) sampleTable 2).2
          = [(2, canceledError sampleGlobal)] ∧
        (canceledError sampleGlobal).message = "Request canceled" ∧
        aborted (abortRequest sampleGlobal (fun _ => true) sampleTable 2).2 = [reply]) ∧
      ((fun _ => true) reply = false →
        (abortRequest sampleGlobal (fun _ => true) sampleTable 2).2 = []) :=
  ⟨by decide, by decide,
   C3_abortRequest_present sampleGlobal (fun _ => true) sampleTable 2 (by decide) (by decide)⟩

/-- C4: `abortRequest i` for an id that no entry of the pending table carries
leaves the table unchanged, emits nothing and aborts nothing; hence, on a
table whose handles and operation ids are pairwise distinct, a second
`abortRequest i` right after the first changes nothing and emits nothing. -/
theorem C4_abortRequest_absent_idempotent (g : NetworkGlobal) (t : Replies) (i : Nat) :
    (i ∉ operationIds t → ∀ isRunning, abortRequest g isRunning t i = (t, [])) ∧
    ((QHash.keys t).Nodup → (operationIds t).Nodup → ∀ isRunning isRunningAfter,
      abortRequest g isRunningAfter (abortRequest g isRunning t i).1 i
        = ((abortRequest g isRunning t i).1, [])) := by
  constructor
  · intro h isRunning
    exact abortRequest_absent g isRunning t i h
  · intro hk hi isRunning isRunningAfter
    by_cases h : i ∈ operationIds t
    · obtain ⟨reply, handler, hmem, heq⟩ := abortRequest_present g isRunning t i hk h
      have hgone : i ∉ operationIds (QHash.remove t reply) :=
        id_not_mem_remove t reply (i, handler) hi hmem
      rw [heq]
      exact abortRequest_absent g isRunningAfter _ i hgone
    · rw [abortRequest_absent g isRunning t i h]
      exact abortRequest_absent g isRunningAfter t i h

theorem C4_abortRequest_absent_idempotent_witness :
    (5 ∉ operationIds sampleTable ∧
      abortRequest sampleGlobal (fun _ => true) sampleTable 5 = (sampleTable, [])) ∧
    ((QHash.keys sampleTable).Nodup ∧ (operationIds sampleTable).Nodup ∧
      abortRequest sampleGlobal (fun _ => false)
          (abortRequest sampleGlobal (fun _ => true) sampleTable 2).1 2
        = ((abortRequest sampleGlobal (fun _ => true) sampleTable 2).1, [])) :=
  ⟨⟨by decide,
    (C4_abortRequest_absent_idempotent sampleGlobal sampleTable 5).1 (by decide) (fun _ => true)⟩,
   ⟨by decide, by decide,
    (C4_abortRequest_absent_idempotent sampleGlobal sampleTable 2).2 (by decide) (by decide)
      (fun _ => true) (fun _ => false)⟩⟩

theorem clearReplies.loop_eq (g : NetworkGlobal) (t : Replies) :
    (QHash.keys t).Nodup → ∀ (toAbort : List Nat) (emitted : List Effect),
      clearReplies.loop g (QHash.keys t) t toAbort emitted =
        ([], toAbort ++ QHash.keys t,
          emitted ++ (t.filter (fun e => e.2.1 != 0)).map
            (fun e => Effect.apiErrorOccurred e.2.1 (canceledError g))) := by
  induction t with
  | nil => intro _ toAbort emitted; simp [QHash.keys, clearReplies.loop]
  | cons e t ih =>
    obtain ⟨k, v⟩ := e
    intro hk toAbort emitted
    have hk2 : k ∉ QHash.keys t ∧ (QHash.keys t).Nodup := by
      simpa [QHash.keys] using hk
    have hval : QHash.value ((k, v) :: t) k = v := by
      simp [QHash.value, List.find?]
    have hrem : QHash.remove ((k, v) :: t) k = t := by
      have h1 : QHash.remove ((k, v) :: t) k = QHash.remove t k := by
        simp [QHash.remove]
      rw [h1]
      exact QHash.remove_of_not_mem t k hk2.1
    have hkeys : QHash.keys ((k, v) :: t) = k :: QHash.keys t := rfl
    rw [hkeys]
    simp only [clearReplies.loop, hval, hrem]
    rw [ih hk2.2]
    by_cases hz : v.1 = 0
    · simp [hz]
    · simp [hz]

theorem clearReplies_eq (g : NetworkGlobal) (t : Replies) (hk : (QHash.keys t).Nodup) :
    clearReplies g t =
      ([], (t.filter (fun e => e.2.1 != 0)).map
              (fun e => Effect.apiErrorOccurred e.2.1 (canceledError g)) ++
            (QHash.keys t).flatMap (fun reply => [Effect.abort reply, Effect.deleteLater reply])) := by
  simp [clearReplies, clearReplies.loop_eq g t hk]

theorem errorRecords_append (a b : List Effect) :
    errorRecords (a ++ b) = errorRecords a ++ errorRecords b := by
  induction a with
  | nil => rfl
  | cons e a ih => cases e <;> simp [errorRecords, ih]

theorem aborted_append (a b : List Effect) : aborted (a ++ b) = aborted a ++ aborted b := by
  induction a with
  | nil => rfl
  | cons e a ih => cases e <;> simp [aborted, ih]

theorem handlerCalls_append (a b : List Effect) :
    handlerCalls (a ++ b) = handlerCalls a ++ handlerCalls b := by
  induction a with
  | nil => rfl
  | cons e a ih => cases e <;> simp [handlerCalls, ih]

theorem errorRecords_emits (g : NetworkGlobal) (t : Replies) :
    errorRecords (t.map (fun e => Effect.apiErrorOccurred e.2.1 (canceledError g)))
      = (operationIds t).map (fun id => (id, canceledError g)) := by
  induction t with
  | nil => rfl
  | cons e t ih => simp [errorRecords, operationIds] at ih ⊢; exact ih

theorem errorRecords_aborts (keys : List Nat) :
    errorRecords (keys.flatMap (fun reply => [Effect.abort reply, Effect.deleteLater reply])) = [] := by
  induction keys with
  | nil => rfl
  | cons k keys ih => simp [errorRecords] at ih ⊢; exact ih

theorem aborted_emits (g : NetworkGlobal) (t : Replies) :
    aborted (t.map (fun e => Effect.apiErrorOccurred e.2.1 (canceledError g))) = [] := by
  induction t with
  | nil => rfl
  | cons e t ih => simp [aborted] at ih ⊢; exact ih

theorem aborted_aborts (keys : List Nat) :
    aborted (keys.flatMap (fun reply => [Effect.abort reply, Effect.deleteLater reply])) = keys := by
  induction keys with
  | nil => rfl
  | cons k keys ih => simp [aborted] at ih ⊢; exact ih

/-- C5: on a pending table with `n` entries, all with non-zero operation ids,
`clearReplies` emits exactly `n` error records, one per entry and for that
entry's operation id (in `keys()` order), each equal to the "Request canceled"
record (level ClientError, code 1005, module code `NETWORK_MODULE_CODE`, domain
code ServiceUnavailable, not user friendly), aborts the handle of every entry
and leaves the table empty. -/
theorem C5_clearReplies (g : NetworkGlobal) (t : Replies) (hk : (QHash.keys t).Nodup)
    (hz : ∀ id ∈ operationIds t, id ≠ 0) :
    (clearReplies g t).1 = [] ∧
    errorRecords (clearReplies g t).2 = (operationIds t).map (fun id => (id, canceledError g)) ∧
    (errorRecords (clearReplies g t).2).length = t.length ∧
    canceledError g =
      { level := Level.ClientError, code := 1005, proofModuleCode := g.NETWORK_MODULE_CODE,
        proofErrorCode := g.ServiceUnavailable, message := "Request canceled",
        userFriendly := false } ∧
    NETWORK_ERROR_OFFSET + QNetworkReply.OperationCanceledError = 1005 ∧
    aborted (clearReplies g t).2 = QHash.keys t := by
  have hfilter : t.filter (fun e => e.2.1 != 0) = t := by
    rw [List.filter_eq_self]
    intro e he
    have := hz e.2.1 (List.mem_map_of_mem (fun e => e.2.1) he)
    simpa using this
  have hrec : errorRecords (clearReplies g t).2
      = (operationIds t).map (fun id => (id, canceledError g)) := by
    rw [clearReplies_eq g t hk, hfilter]
    simp only [errorRecords_append, errorRecords_emits, errorRecords_aborts, List.append_nil]
  refine ⟨?_, hrec, ?_, ?_, ?_, ?_⟩
  · rw [clearReplies_eq g t hk]
  · rw [hrec]; simp [operationIds]
  · simp [canceledError, NETWORK_ERROR_OFFSET, QNetworkReply.OperationCanceledError]
  · decide
  · rw [clearReplies_eq g t hk, hfilter]
    simp only [aborted_append, aborted_emits, aborted_aborts, List.nil_append]

theorem C5_clearReplies_witness :
    (QHash.keys sampleTable).Nodup ∧ (∀ id ∈ operationIds sampleTable, id ≠ 0) ∧
    (clearReplies sampleGlobal sampleTable).1 = [] ∧
    errorRecords (clearReplies sampleGlobal sampleTable).2
      = [(1, canceledError sampleGlobal), (2, canceledError sampleGlobal),
         (3, canceledError sampleGlobal)] ∧
    aborted (clearReplies sampleGlobal sampleTable).2 = [7, 8, 9] :=
  have h := C5_clearReplies sampleGlobal sampleTable (by decide) (by decide)
  ⟨by decide, by decide, h.1, h.2.1, h.2.2.2.2.2⟩

theorem cleanupReply_fst (t : Replies) (reply : Nat) :
    (cleanupReply t reply).1 = QHash.remove t reply := rfl

theorem errorRecords_cleanupReply (t : Replies) (reply : Nat) :
    errorRecords (cleanupReply t reply).2 = [] := by
  simp only [cleanupReply]
  split <;> rfl

theorem handlerCalls_cleanupReply (t : Replies) (reply : Nat) :
    handlerCalls (cleanupReply t reply).2 = [] := by
  simp only [cleanupReply]
  split <;> rfl

theorem runReplyHandler_absent (t : Replies) (operationId reply : Nat)
    (h : QHash.contains t reply = false) : runReplyHandler t operationId reply = (t, []) := by
  simp [runReplyHandler, h]

theorem runReplyHandler_present (t : Replies) (operationId reply : Nat)
    (h : QHash.contains t reply = true) :
    (runReplyHandler t operationId reply).1 = QHash.remove t reply ∧
    errorRecords (runReplyHandler t operationId reply).2 = [] ∧
    handlerCalls (runReplyHandler t operationId reply).2
      = (QHash.value t reply).2.toList.map (fun f => (f, operationId)) := by
  simp only [runReplyHandler, h, if_true]
  refine ⟨rfl, ?_, ?_⟩
  · rw [errorRecords_append, errorRecords_cleanupReply]
    cases (QHash.value t reply).2 <;> rfl
  · rw [handlerCalls_append, handlerCalls_cleanupReply]
    cases (QHash.value t reply).2 <;> rfl

theorem replyFinished_rejected (g : NetworkGlobal) (fromJson : JsonParser) (t : Replies)
    (operationId : Nat) (reply : QNetworkReply) (forceUserFriendly : Bool)
    (hgate : reply.error = QNetworkReply.NoError ∨
      (reply.error ≥ 100 ∧ reply.error.tmod 100 ≠ 99))
    (hstatus : reply.httpStatusCode ∉ ALLOWED_HTTP_STATUSES) :
    replyFinished g fromJson t operationId reply forceUserFriendly =
      (QHash.remove t reply.ptr,
        Effect.apiErrorOccurred operationId
          { level := Level.ServerError, code := reply.httpStatusCode,
            proofModuleCode := g.NETWORK_MODULE_CODE, proofErrorCode := g.ServerError,
            message := replyFinished.message fromJson reply,
            userFriendly := forceUserFriendly } :: (cleanupReply t reply.ptr).2) := by
  have hrun := runReplyHandler_absent (QHash.remove t reply.ptr) operationId reply.ptr
    (QHash.contains_remove t reply.ptr)
  simp only [replyFinished, hgate, hstatus, if_true, not_false_eq_true, cleanupReply_fst, hrun,
    List.append_nil]

theorem replyFinished_accepted (g : NetworkGlobal) (fromJson : JsonParser) (t : Replies)
    (operationId : Nat) (reply : QNetworkReply) (forceUserFriendly : Bool)
    (hstatus : reply.httpStatusCode ∈ ALLOWED_HTTP_STATUSES) :
    replyFinished g fromJson t operationId reply forceUserFriendly =
      runReplyHandler t operationId reply.ptr := by
  by_cases hgate : reply.error = QNetworkReply.NoError ∨
      (reply.error ≥ 100 ∧ reply.error.tmod 100 ≠ 99)
  · simp [replyFinished, hgate, hstatus]
  · simp [replyFinished, hgate]

/-- C6: for a reply whose transport error is `NoError` or in the benign band,
`replyFinished` emits an error record exactly when the HTTP status is not one
of 200..206 (207, 304 and the missing status 0 are errors). A rejected reply
gets exactly one record (level ServerError, code the raw status, domain code
ServerError, `userFriendly` as passed in), its pending entry is removed and
the completion handler is not called. An accepted reply gets no record, and
when it is pending its completion handler is called once and the entry is
removed. -/
theorem C6_replyFinished_status (g : NetworkGlobal) (fromJson : JsonParser) (t : Replies)
    (operationId : Nat) (reply : QNetworkReply) (forceUserFriendly : Bool)
    (hgate : reply.error = QNetworkReply.NoError ∨
      (reply.error ≥ 100 ∧ reply.error.tmod 100 ≠ 99)) :
    (errorRecords (replyFinished g fromJson t operationId reply forceUserFriendly).2 ≠ [] ↔
      reply.httpStatusCode ∉ [200, 201, 202, 203, 204, 205, 206]) ∧
    (reply.httpStatusCode ∉ ALLOWED_HTTP_STATUSES →
      errorRecords (replyFinished g fromJson t operationId reply forceUserFriendly).2 =
        [(operationId,
          { level := Level.ServerError, code := reply.httpStatusCode,
            proofModuleCode := g.NETWORK_MODULE_CODE, proofErrorCode := g.ServerError,
            message := replyFinished.message fromJson reply,
            userFriendly := forceUserFriendly })] ∧
      handlerCalls (replyFinished g fromJson t operationId reply forceUserFriendly).2 = [] ∧
      QHash.contains (replyFinished g fromJson t operationId reply forceUserFriendly).1
        reply.ptr = false) ∧
    (reply.httpStatusCode ∈ ALLOWED_HTTP_STATUSES →
      errorRecords (replyFinished g fromJson t operationId reply forceUserFriendly).2 = [] ∧
      (QHash.contains t reply.ptr = true →
        handlerCalls (replyFinished g fromJson t operationId reply forceUserFriendly).2
          = (QHash.value t reply.ptr).2.toList.map (fun f => (f, operationId)) ∧
        (∀ f, (QHash.value t reply.ptr).2 = some f →
          handlerCalls (replyFinished g fromJson t operationId reply forceUserFriendly).2
            = [(f, operationId)]) ∧
        QHash.contains (replyFinished g fromJson t operationId reply forceUserFriendly).1
          reply.ptr = false)) ∧
    ((207 : Int) ∉ ALLOWED_HTTP_STATUSES ∧ (304 : Int) ∉ ALLOWED_HTTP_STATUSES ∧
      (0 : Int) ∉ ALLOWED_HTTP_STATUSES) := by
  have hrej : reply.httpStatusCode ∉ ALLOWED_HTTP_STATUSES →
      errorRecords (replyFinished g fromJson t operationId reply forceUserFriendly).2 =
        [(operationId,
          { level := Level.ServerError, code := reply.httpStatusCode,
            proofModuleCode := g.NETWORK_MODULE_CODE, proofErrorCode := g.ServerError,
            message := replyFinished.message fromJson reply,
            userFriendly := forceUserFriendly })] ∧
      handlerCalls (replyFinished g fromJson t operationId reply forceUserFriendly).2 = [] ∧
      QHash.contains (replyFinished g fromJson t operationId reply forceUserFriendly).1
        reply.ptr = false := by
    intro hstatus
    rw [replyFinished_rejected g fromJson t operationId reply forceUserFriendly hgate hstatus]
    refine ⟨?_, ?_, QHash.contains_remove t reply.ptr⟩
    · simp [errorRecords, errorRecords_cleanupReply]
    · simp [handlerCalls, handlerCalls_cleanupReply]
  have hacc : reply.httpStatusCode ∈ ALLOWED_HTTP_STATUSES →
      errorRecords (replyFinished g fromJson t operationId reply forceUserFriendly).2 = [] := by
    intro hstatus
    rw [replyFinished_accepted g fromJson t operationId reply forceUserFriendly hstatus]
    by_cases hc : QHash.contains t reply.ptr = true
    · exact (runReplyHandler_present t operationId reply.ptr hc).2.1
    · rw [runReplyHandler_absent t operationId reply.ptr (by simpa using hc)]
      rfl
  refine ⟨?_, hrej, ?_, by decide⟩
  · constructor
    · intro hne hin
      exact hne (hacc hin)
    · intro hnot
      rw [(hrej hnot).1]
      exact List.cons_ne_nil _ _
  · intro hstatus
    refine ⟨hacc hstatus, ?_⟩
    intro hc
    rw [replyFinished_accepted g fromJson t operationId reply forceUserFriendly hstatus]
    have hp := runReplyHandler_present t operationId reply.ptr hc
    refine ⟨hp.2.2, ?_, ?_⟩
    · intro f hf
      rw [hp.2.2, hf]
      rfl
    · rw [hp.1]
      exact QHash.contains_remove t reply.ptr

theorem replyFinished.message_textPlain (fromJson : JsonParser) (reply : QNetworkReply)
    (htp : contentTypeLists reply "text/plain") (hbody : QByteArray.trimmed reply.body ≠ "") :
    replyFinished.message fromJson reply = QByteArray.trimmed reply.body := by
  unfold contentTypeLists at htp
  unfold replyFinished.message
  simp only [htp, if_true, hbody, if_false]

theorem replyFinished.message_json (fromJson : JsonParser) (reply : QNetworkReply)
    (htp : ¬ contentTypeLists reply "text/plain")
    (hjson : contentTypeLists reply "application/json")
    (o : QJsonObject) (s : String)
    (herr : (fromJson reply.body).1.error = 0)
    (hdoc : (fromJson reply.body).2 = QJsonDocument.objectDocument o)
    (hmsg : QJsonObject.value o "message" = QJsonValue.string s) (hs : s ≠ "") :
    replyFinished.message fromJson reply = s := by
  unfold contentTypeLists at htp hjson
  unfold replyFinished.message
  simp only [htp, hjson, if_true, if_false, herr, hdoc, QJsonDocument.isObject,
    QJsonDocument.object, hmsg, QJsonValue.toString, hs, and_self]

theorem replyFinished.message_fallback (fromJson : JsonParser) (reply : QNetworkReply)
    (htp : ¬ (contentTypeLists reply "text/plain" ∧ QByteArray.trimmed reply.body ≠ ""))
    (hjson : ¬ (¬ contentTypeLists reply "text/plain" ∧
      contentTypeLists reply "application/json" ∧ (fromJson reply.body).1.error = 0 ∧
      (fromJson reply.body).2.isObject = true ∧
      (QJsonObject.value (fromJson reply.body).2.object "message").toString ≠ "")) :
    replyFinished.message fromJson reply = QString.trimmed reply.httpReasonPhrase := by
  unfold contentTypeLists at htp hjson
  unfold replyFinished.message
  by_cases h1 : "text/plain" ∈ (QString.split reply.contentTypeHeader ';').map QString.trimmed
  · have hb : QByteArray.trimmed reply.body = "" := by
      by_contra hb
      exact htp ⟨h1, hb⟩
    simp only [h1, if_true, hb]
  · by_cases h2 :
      "application/json" ∈ (QString.split reply.contentTypeHeader ';').map QString.trimmed
    · by_cases h3 : (fromJson reply.body).1.error = 0 ∧ (fromJson reply.body).2.isObject = true
      · have hm : (QJsonObject.value (fromJson reply.body).2.object "message").toString = "" := by
          by_contra hm
          exact hjson ⟨h1, h2, h3.1, h3.2, hm⟩
        simp only [h1, h2, h3, if_true, if_false, hm, and_self]
      · simp only [h1, h2, h3, if_true, if_false]
    · simp only [h1, h2, if_true, if_false]

theorem C6_replyFinished_status_witness :
    (sampleReply404.error = QNetworkReply.NoError ∨
      (sampleReply404.error ≥ 100 ∧ sampleReply404.error.tmod 100 ≠ 99)) ∧
    (errorRecords (replyFinished sampleGlobal sampleParser sampleTable 1 sampleReply404 false).2
        ≠ [] ↔ sampleReply404.httpStatusCode ∉ [200, 201, 202, 203, 204, 205, 206]) ∧
    handlerCalls (replyFinished sampleGlobal sampleParser sampleTable 1
      { sampleReply404 with httpStatusCode := 200 } false).2 = [(50, 1)] :=
  ⟨by decide,
   (C6_replyFinished_status sampleGlobal sampleParser sampleTable 1 sampleReply404 false
      (by decide)).1,
   by decide⟩

/-- C7 (as stated) fails: a 404 reply with Content-Type `text/plain` and an
empty body does not get the (empty) trimmed body as its message but the
reason phrase. -/
theorem C7_counterexample_empty_text_body :
    contentTypeLists sampleReplyEmptyText "text/plain" ∧
    QByteArray.trimmed sampleReplyEmptyText.body = "" ∧
    errorRecords (replyFinished sampleGlobal sampleParser sampleTable 1 sampleReplyEmptyText
        false).2
      = [(1, { level := Level.ServerError, code := 404, proofModuleCode := 300,
               proofErrorCode := 1, message := "Not Found", userFriendly := false })] := by
  decide

/-- C7 (amended): for a reply rejected by the status-based check the message
of the one ServerError record is the trimmed body when the Content-Type lists
text/plain and that trimmed body is not empty; the string value of the
top-level `message` member of the parsed body when the Content-Type lists
application/json (and not text/plain), the body parses to an object and that
string is not empty; and in every other case, an empty candidate included,
the trimmed reason phrase. A 404 whose JSON body parses to an object with
`message` = "not found" gives ServerError, code 404, message "not found". -/
theorem C7_replyFinished_message (g : NetworkGlobal) (fromJson : JsonParser) (t : Replies)
    (operationId : Nat) (reply : QNetworkReply) (forceUserFriendly : Bool)
    (hgate : reply.error = QNetworkReply.NoError ∨
      (reply.error ≥ 100 ∧ reply.error.tmod 100 ≠ 99))
    (hstatus : reply.httpStatusCode ∉ ALLOWED_HTTP_STATUSES) :
    ∃ message,
      errorRecords (replyFinished g fromJson t operationId reply forceUserFriendly).2 =
        [(operationId,
          { level := Level.ServerError, code := reply.httpStatusCode,
            proofModuleCode := g.NETWORK_MODULE_CODE, proofErrorCode := g.ServerError,
            message := message, userFriendly := forceUserFriendly })] ∧
      (contentTypeLists reply "text/plain" → QByteArray.trimmed reply.body ≠ "" →
        message = QByteArray.trimmed reply.body) ∧
      (¬ contentTypeLists reply "text/plain" → contentTypeLists reply "application/json" →
        ∀ o s, (fromJson reply.body).1.error = 0 →
          (fromJson reply.body).2 = QJsonDocument.objectDocument o →
          QJsonObject.value o "message" = QJsonValue.string s → s ≠ "" → message = s) ∧
      (¬ (contentTypeLists reply "text/plain" ∧ QByteArray.trimmed reply.body ≠ "") →
        ¬ (¬ contentTypeLists reply "text/plain" ∧
            contentTypeLists reply "application/json" ∧ (fromJson reply.body).1.error = 0 ∧
            (fromJson reply.body).2.isObject = true ∧
            (QJsonObject.value (fromJson reply.body).2.object "message").toString ≠ "") →
        message = QString.trimmed reply.httpReasonPhrase) ∧
      (reply.httpStatusCode = 404 → ¬ contentTypeLists reply "text/plain" →
        contentTypeLists reply "application/json" →
        (fromJson reply.body).1.error = 0 →
        (fromJson reply.body).2
          = QJsonDocument.objectDocument [("message", QJsonValue.string "not found")] →
        errorRecords (replyFinished g fromJson t operationId reply forceUserFriendly).2 =
          [(operationId,
            { level := Level.ServerError, code := 404,
              proofModuleCode := g.NETWORK_MODULE_CODE, proofErrorCode := g.ServerError,
              message := "not found", userFriendly := forceUserFriendly })]) := by
  have hrec : errorRecords (replyFinished g fromJson t operationId reply forceUserFriendly).2 =
      [(operationId,
        { level := Level.ServerError, code := reply.httpStatusCode,
          proofModuleCode := g.NETWORK_MODULE_CODE, proofErrorCode := g.ServerError,
          message := replyFinished.message fromJson reply,
          userFriendly := forceUserFriendly })] := by
    rw [replyFinished_rejected g fromJson t operationId reply forceUserFriendly hgate hstatus]
    simp [errorRecords, errorRecords_cleanupReply]
  refine ⟨replyFinished.message fromJson reply, hrec, ?_, ?_, ?_, ?_⟩
  · exact replyFinished.message_textPlain fromJson reply
  · intro htp hjson o s herr hdoc hmsg hs
    exact replyFinished.message_json fromJson reply htp hjson o s herr hdoc hmsg hs
  · exact replyFinished.message_fallback fromJson reply
  · intro h404 htp hjson herr hdoc
    have hm : replyFinished.message fromJson reply = "not found" :=
      replyFinished.message_json fromJson reply htp hjson
        [("message", QJsonValue.string "not found")] "not found" herr hdoc rfl (by decide)
    rw [hrec, hm, h404]

theorem C7_replyFinished_message_witness :
    (sampleReply404.error = QNetworkReply.NoError ∨
      (sampleReply404.error ≥ 100 ∧ sampleReply404.error.tmod 100 ≠ 99)) ∧
    sampleReply404.httpStatusCode ∉ ALLOWED_HTTP_STATUSES ∧
    errorRecords (replyFinished sampleGlobal sampleParser sampleTable 1 sampleReply404 false).2
      = [(1, { level := Level.ServerError, code := 404, proofModuleCode := 300,
               proofErrorCode := 1, message := "not found", userFriendly := false })] :=
  ⟨by decide, by decide,
   (C7_replyFinished_message sampleGlobal sampleParser sampleTable 1 sampleReply404 false
      (by decide) (by decide)).elim
     (fun _ h => h.2.2.2.2 (by decide) (by decide) (by decide) (by decide) rfl)⟩

theorem replyErrorOccurred_fired (g : NetworkGlobal) (t : Replies) (operationId : Nat)
    (reply : QNetworkReply) (forceUserFriendly : Bool)
    (hgate : reply.error ≠ QNetworkReply.NoError ∧
      (reply.error < 200 ∨ reply.error.tmod 100 = 99)) :
    replyErrorOccurred g t operationId reply forceUserFriendly =
      (QHash.remove t reply.ptr,
        Effect.apiErrorOccurred operationId
          { level := Level.ClientError,
            code := if reply.httpStatusCode = 0 then NETWORK_ERROR_OFFSET + reply.error
                    else reply.httpStatusCode,
            proofModuleCode := g.NETWORK_MODULE_CODE,
            proofErrorCode :=
              if reply.error = QNetworkReply.HostNotFoundError ∨
                  reply.error = QNetworkReply.ConnectionRefusedError ∨
                  reply.error = QNetworkReply.RemoteHostClosedError ∨
                  reply.error = QNetworkReply.TimeoutError ∨
                  reply.error = QNetworkReply.OperationCanceledError then g.ServiceUnavailable
              else g.ServerError,
            message :=
              if reply.error = QNetworkReply.HostNotFoundError then
                "Host " ++ reply.urlHost ++ " not found. Try again later"
              else if reply.error = QNetworkReply.ConnectionRefusedError ∨
                  reply.error = QNetworkReply.RemoteHostClosedError ∨
                  reply.error = QNetworkReply.TimeoutError ∨
                  reply.error = QNetworkReply.OperationCanceledError then
                "Host " ++ reply.urlHost ++ " is unavailable. Try again later"
              else reply.errorString,
            userFriendly :=
              if reply.error = QNetworkReply.HostNotFoundError ∨
                  reply.error = QNetworkReply.ConnectionRefusedError ∨
                  reply.error = QNetworkReply.RemoteHostClosedError ∨
                  reply.error = QNetworkReply.TimeoutError ∨
                  reply.error = QNetworkReply.OperationCanceledError then true
              else forceUserFriendly } :: (cleanupReply t reply.ptr).2) := by
  unfold replyErrorOccurred
  rw [if_pos hgate]
  simp only [cleanupReply_fst]
  by_cases h3 : reply.error = QNetworkReply.HostNotFoundError
  · simp [h3]
  · by_cases h4 : reply.error = QNetworkReply.ConnectionRefusedError ∨
        reply.error = QNetworkReply.RemoteHostClosedError ∨
        reply.error = QNetworkReply.TimeoutError ∨
        reply.error = QNetworkReply.OperationCanceledError
    · simp [h3, h4]
    · simp [h3, h4]

theorem replyErrorOccurred_quiet (g : NetworkGlobal) (t : Replies) (operationId : Nat)
    (reply : QNetworkReply) (forceUserFriendly : Bool)
    (hgate : ¬ (reply.error ≠ QNetworkReply.NoError ∧
      (reply.error < 200 ∨ reply.error.tmod 100 = 99))) :
    replyErrorOccurred g t operationId reply forceUserFriendly = (t, []) := by
  unfold replyErrorOccurred
  rw [if_neg hgate]

theorem host_infix (before host after : String) :
    host.data <:+: (before ++ host ++ after).data :=
  ⟨before.data, after.data, by simp⟩

/-- C8: for a reply that passes the transport-error gate, `replyErrorOccurred`
emits exactly one record, of level ClientError. For HostNotFound,
ConnectionRefused, RemoteHostClosed, Timeout and OperationCanceled the record
is user friendly whatever `forceUserFriendly` is, has domain code
ServiceUnavailable and a rewritten message that contains the host of the
request URL; for every other error the domain code is ServerError, the message
is the error string of the transport and `userFriendly` is the argument.
Host-not-found for example.com gives a user friendly record whose message
contains "example.com", with domain code ServiceUnavailable. -/
theorem C8_replyErrorOccurred_record (g : NetworkGlobal) (t : Replies) (operationId : Nat)
    (reply : QNetworkReply) (forceUserFriendly : Bool)
    (hgate : reply.error ≠ QNetworkReply.NoError ∧
      (reply.error < 200 ∨ reply.error.tmod 100 = 99)) :
    ∃ record,
      errorRecords (replyErrorOccurred g t operationId reply forceUserFriendly).2
        = [(operationId, record)] ∧
      record.level = Level.ClientError ∧
      (reply.error = QNetworkReply.HostNotFoundError →
        record.userFriendly = true ∧ record.proofErrorCode = g.ServiceUnavailable ∧
        record.message = "Host " ++ reply.urlHost ++ " not found. Try again later" ∧
        reply.urlHost.data <:+: record.message.data) ∧
      (reply.error = QNetworkReply.ConnectionRefusedError ∨
        reply.error = QNetworkReply.RemoteHostClosedError ∨
        reply.error = QNetworkReply.TimeoutError ∨
        reply.error = QNetworkReply.OperationCanceledError →
        record.userFriendly = true ∧ record.proofErrorCode = g.ServiceUnavailable ∧
        record.message = "Host " ++ reply.urlHost ++ " is unavailable. Try again later" ∧
        reply.urlHost.data <:+: record.message.data) ∧
      (reply.error ∉ [QNetworkReply.HostNotFoundError, QNetworkReply.ConnectionRefusedError,
          QNetworkReply.RemoteHostClosedError, QNetworkReply.TimeoutError,
          QNetworkReply.OperationCanceledError] →
        record.userFriendly = forceUserFriendly ∧ record.proofErrorCode = g.ServerError ∧
        record.message = reply.errorString) ∧
      (reply.error = QNetworkReply.HostNotFoundError → reply.urlHost = "example.com" →
        record.userFriendly = true ∧ "example.com".data <:+: record.message.data ∧
        record.proofErrorCode = g.ServiceUnavailable) := by
  rw [replyErrorOccurred_fired g t operationId reply forceUserFriendly hgate]
  simp only [errorRecords, errorRecords_cleanupReply]
  refine ⟨_, rfl, ?_, ?_, ?_, ?_, ?_⟩
  · rfl
  · intro h
    simp only [h, true_or, if_true]
    exact ⟨trivial, trivial, trivial, host_infix _ _ _⟩
  · intro h
    have h3 : reply.error ≠ QNetworkReply.HostNotFoundError := by
      rcases h with h | h | h | h <;> rw [h] <;> decide
    simp only [h, h3, or_true, if_true, if_false]
    exact ⟨trivial, trivial, trivial, host_infix _ _ _⟩
  · intro h
    simp only [List.mem_cons, List.mem_singleton, List.not_mem_nil, or_false, not_or] at h
    obtain ⟨h3, h1, h2, h4, h5⟩ := h
    simp only [h3, h1, h2, h4, h5, or_self, if_false]
    exact ⟨trivial, trivial, trivial⟩
  · intro h hhost
    simp only [h, true_or, if_true]
    refine ⟨trivial, ?_, trivial⟩
    rw [hhost]
    exact host_infix "Host " "example.com" " not found. Try again later"

theorem C8_replyErrorOccurred_record_witness :
    (sampleReplyHostNotFound.error ≠ QNetworkReply.NoError ∧
      (sampleReplyHostNotFound.error < 200 ∨ sampleReplyHostNotFound.error.tmod 100 = 99)) ∧
    errorRecords (replyErrorOccurred sampleGlobal sampleTable 1 sampleReplyHostNotFound false).2
      = [(1, { level := Level.ClientError, code := 1003, proofModuleCode := 300,
               proofErrorCode := 2,
               message := "Host example.com not found. Try again later",
               userFriendly := true })] ∧
    ∃ record,
      errorRecords (replyErrorOccurred sampleGlobal sampleTable 1 sampleReplyHostNotFound
        false).2 = [(1, record)] ∧ record.level = Level.ClientError :=
  ⟨by decide, by decide,
   (C8_replyErrorOccurred_record sampleGlobal sampleTable 1 sampleReplyHostNotFound false
      (by decide)).elim (fun record h => ⟨record, h.1, h.2.1⟩)⟩

/-- C9 (as stated) fails: a reply with transport error 299
(`UnknownContentError`) that carries HTTP status 418 gets a record with code
418, not 1000 + 299. -/
theorem C9_counterexample_status_wins :
    (sampleReplyTeapot.error ≠ QNetworkReply.NoError ∧
      (sampleReplyTeapot.error < 200 ∨ sampleReplyTeapot.error.tmod 100 = 99)) ∧
    errorRecords (replyErrorOccurred sampleGlobal sampleTable 1 sampleReplyTeapot false).2
      = [(1, { level := Level.ClientError, code := 418, proofModuleCode := 300,
               proofErrorCode := 1,
               message := "Error transferring - server replied: I am a teapot",
               userFriendly := false })] ∧
    (418 : Int) ≠ 1000 + sampleReplyTeapot.error := by
  decide

/-- C9 (amended): the record emitted by `replyErrorOccurred` for a reply with
transport error code `t` has numeric code `1000 + t` when the reply carries no
HTTP status (the attribute reads 0), and the HTTP status itself otherwise. -/
theorem C9_replyErrorOccurred_code (g : NetworkGlobal) (t : Replies) (operationId : Nat)
    (reply : QNetworkReply) (forceUserFriendly : Bool)
    (hgate : reply.error ≠ QNetworkReply.NoError ∧
      (reply.error < 200 ∨ reply.error.tmod 100 = 99)) :
    ∃ record,
      errorRecords (replyErrorOccurred g t operationId reply forceUserFriendly).2
        = [(operationId, record)] ∧
      (reply.httpStatusCode = 0 → record.code = 1000 + reply.error) ∧
      (reply.httpStatusCode ≠ 0 → record.code = reply.httpStatusCode) := by
  rw [replyErrorOccurred_fired g t operationId reply forceUserFriendly hgate]
  simp only [errorRecords, errorRecords_cleanupReply]
  refine ⟨_, rfl, ?_, ?_⟩
  · intro h
    simp only [h, if_true, NETWORK_ERROR_OFFSET]
  · intro h
    simp only [h, if_false]

theorem C9_replyErrorOccurred_code_witness :
    (sampleReplyHostNotFound.error ≠ QNetworkReply.NoError ∧
      (sampleReplyHostNotFound.error < 200 ∨ sampleReplyHostNotFound.error.tmod 100 = 99)) ∧
    ∃ record,
      errorRecords (replyErrorOccurred sampleGlobal sampleTable 1 sampleReplyHostNotFound
        false).2 = [(1, record)] ∧ record.code = 1003 :=
  ⟨by decide,
   (C9_replyErrorOccurred_code sampleGlobal sampleTable 1 sampleReplyHostNotFound false
      (by decide)).elim (fun record h => ⟨record, h.1, h.2.1 (by decide)⟩)⟩

theorem sslErrorsOccurred.loop_reported (g : NetworkGlobal) (operationId : Nat)
    (reply : QNetworkReply) (forceUserFriendly : Bool) (t : Replies) :
    ∀ errors : List QSslError,
      sslErrorsOccurred.loop g operationId reply forceUserFriendly errors false t = (t, []) := by
  intro errors
  induction errors with
  | nil => rfl
  | cons error rest ih =>
    simp only [sslErrorsOccurred.loop, Bool.not_false, if_true, ih]
    split <;> rfl

theorem sslErrorsOccurred_eq (g : NetworkGlobal) (t : Replies) (operationId : Nat)
    (reply : QNetworkReply) (forceUserFriendly : Bool) :
    ∀ errors : List QSslError,
      sslErrorsOccurred g t operationId reply errors forceUserFriendly =
        match errors.find? (fun e => decide (e.error ≠ QSslError.NoError)) with
        | none => (t, [])
        | some error =>
          (QHash.remove t reply.ptr,
            Effect.apiErrorOccurred operationId
              { level := Level.ClientError, code := NETWORK_SSL_ERROR_OFFSET + error.error,
                proofModuleCode := g.NETWORK_MODULE_CODE, proofErrorCode := g.SslError,
                message := error.errorString, userFriendly := forceUserFriendly }
            :: (cleanupReply t reply.ptr).2) := by
  intro errors
  unfold sslErrorsOccurred
  induction errors with
  | nil => rfl
  | cons error rest ih =>
    by_cases h : error.error ≠ QSslError.NoError
    · have hd : decide (error.error ≠ QSslError.NoError) = true := decide_eq_true h
      simp only [sslErrorsOccurred.loop, Bool.not_true, Bool.false_eq_true, if_false,
        sslErrorsOccurred.loop_reported, cleanupReply_fst, List.append_nil, List.find?, hd]
      rw [if_pos h]
    · have hd : decide (error.error ≠ QSslError.NoError) = false := decide_eq_false h
      simp only [sslErrorsOccurred.loop, List.find?, hd]
      rw [if_neg h, ih]

/-- C10: `sslErrorsOccurred` emits no record when every TLS problem in the list
is `NoError`; otherwise it emits exactly one record, built from the first
element of the list whose error is not `NoError` (level ClientError, code
1500 + its TLS error code, domain code SslError, message its error string,
`userFriendly` as passed in), whatever genuine errors follow it; and a pending
entry is removed exactly when a record was emitted. -/
theorem C10_sslErrorsOccurred (g : NetworkGlobal) (t : Replies) (operationId : Nat)
    (reply : QNetworkReply) (errors : List QSslError) (forceUserFriendly : Bool) :
    ((∀ e ∈ errors, e.error = QSslError.NoError) →
      sslErrorsOccurred g t operationId reply errors forceUserFriendly = (t, [])) ∧
    (∀ before error after, errors = before ++ error :: after →
      (∀ e ∈ before, e.error = QSslError.NoError) → error.error ≠ QSslError.NoError →
      errorRecords (sslErrorsOccurred g t operationId reply errors forceUserFriendly).2 =
        [(operationId,
          { level := Level.ClientError, code := 1500 + error.error,
            proofModuleCode := g.NETWORK_MODULE_CODE, proofErrorCode := g.SslError,
            message := error.errorString, userFriendly := forceUserFriendly })] ∧
      (sslErrorsOccurred g t operationId reply errors forceUserFriendly).1
        = QHash.remove t reply.ptr) ∧
    (QHash.contains t reply.ptr = true →
      (QHash.contains (sslErrorsOccurred g t operationId reply errors forceUserFriendly).1
          reply.ptr = false ↔
        errorRecords (sslErrorsOccurred g t operationId reply errors forceUserFriendly).2
          ≠ [])) := by
  have heq := sslErrorsOccurred_eq g t operationId reply forceUserFriendly errors
  refine ⟨?_, ?_, ?_⟩
  · intro hall
    have hnone : errors.find? (fun e => decide (e.error ≠ QSslError.NoError)) = none := by
      rw [List.find?_eq_none]
      intro e he
      simpa using hall e he
    rw [heq, hnone]
  · intro before error after hsplit hbefore herror
    have hsome : errors.find? (fun e => decide (e.error ≠ QSslError.NoError)) = some error := by
      rw [hsplit, List.find?_append]
      have hnone : before.find? (fun e => decide (e.error ≠ QSslError.NoError)) = none := by
        rw [List.find?_eq_none]
        intro e he
        simpa using hbefore e he
      rw [hnone]
      simp [List.find?, herror]
    rw [heq, hsome]
    simp only [errorRecords, errorRecords_cleanupReply, NETWORK_SSL_ERROR_OFFSET, and_self]
  · intro hc
    rw [heq]
    cases errors.find? (fun e => decide (e.error ≠ QSslError.NoError)) with
    | none => simp [hc, errorRecords]
    | some error => simp [QHash.contains_remove, errorRecords]

theorem C10_sslErrorsOccurred_witness :
    (∀ e ∈ sampleSslNoErrors, e.error = QSslError.NoError) ∧
    sslErrorsOccurred sampleGlobal sampleTable 1 sampleReply404 sampleSslNoErrors false
      = (sampleTable, []) ∧
    errorRecords (sslErrorsOccurred sampleGlobal sampleTable 1 sampleReply404 sampleSslErrors
        false).2
      = [(1, { level := Level.ClientError, code := 1509, proofModuleCode := 300,
               proofErrorCode := 3, message := "The certificate is self-signed",
               userFriendly := false })] :=
  ⟨by decide,
   (C10_sslErrorsOccurred sampleGlobal sampleTable 1 sampleReply404 sampleSslNoErrors
      false).1 (by decide),
   ((C10_sslErrorsOccurred sampleGlobal sampleTable 1 sampleReply404 sampleSslErrors
      false).2.1 [{ error := 0, errorString := "No error" }]
      { error := 9, errorString := "The certificate is self-signed" }
      [{ error := 22, errorString := "The host name did not match" }]
      rfl (by decide) (by decide)).1⟩

theorem outcomes_append (id : Nat) (a b : List Effect) :
    outcomes id (a ++ b) = outcomes id a + outcomes id b := by
  simp [outcomes, List.countP_append]

theorem outcomes_nil (id : Nat) : outcomes id [] = 0 := rfl

theorem outcomes_cleanupReply (id : Nat) (t : Replies) (reply : Nat) :
    outcomes id (cleanupReply t reply).2 = 0 := by
  simp only [cleanupReply]
  split <;> rfl

theorem outcomes_apiError_cons (id operationId : Nat) (error : RestApiError)
    (rest : List Effect) :
    outcomes id (Effect.apiErrorOccurred operationId error :: rest) =
      (if operationId = id then 1 else 0) + outcomes id rest := by
  by_cases h : operationId = id
  · simp [outcomes, List.countP_cons, Effect.isOutcomeOf, h]; omega
  · simp [outcomes, List.countP_cons, Effect.isOutcomeOf, h]

theorem tableStep_refl (t : Replies) : TableStep t t [] :=
  ⟨List.Sublist.refl t, fun id => ⟨by simp [outcomes], by simp [outcomes]⟩⟩

theorem tableStep_remove (t : Replies) (reply : Nat) (v : Nat × RestAnswerHandler)
    (effects : List Effect) (hi : (operationIds t).Nodup) (hmem : (reply, v) ∈ t)
    (heff : ∀ id, outcomes id effects ≤ 1 ∧ (0 < outcomes id effects → id = v.1)) :
    TableStep t (QHash.remove t reply) effects := by
  refine ⟨QHash.remove_sublist t reply, fun id => ⟨(heff id).1, fun hpos => ?_⟩⟩
  have hid := (heff id).2 hpos
  subst hid
  exact ⟨List.mem_map_of_mem (fun e => e.2.1) hmem, id_not_mem_remove t reply v hi hmem⟩

theorem tableStep_replyFinishedCaller (g : NetworkGlobal) (fromJson : JsonParser) (t : Replies)
    (reply : QNetworkReply) (hi : (operationIds t).Nodup) :
    TableStep t (replyFinishedCaller g fromJson t reply).1
      (replyFinishedCaller g fromJson t reply).2 := by
  unfold replyFinishedCaller
  by_cases hc : QHash.contains t reply.ptr = true
  · rw [if_neg (not_not.mpr hc)]
    have hmem := QHash.value_mem t reply.ptr ((QHash.contains_iff t reply.ptr).mp hc)
    by_cases hstatus : reply.httpStatusCode ∈ ALLOWED_HTTP_STATUSES
    · simp only [replyFinished_accepted g fromJson t _ reply false hstatus]
      simp only [runReplyHandler, hc, if_true, cleanupReply_fst]
      apply tableStep_remove t reply.ptr (QHash.value t reply.ptr) _ hi hmem
      intro id
      rw [outcomes_append, outcomes_cleanupReply]
      cases (QHash.value t reply.ptr).2 with
      | none => simp [outcomes]
      | some f =>
        by_cases hid : (QHash.value t reply.ptr).1 = id
        · simp [outcomes, List.countP_cons, Effect.isOutcomeOf, hid]
        · simp [outcomes, List.countP_cons, Effect.isOutcomeOf, hid]
    · by_cases hgate : reply.error = QNetworkReply.NoError ∨
          (reply.error ≥ 100 ∧ reply.error.tmod 100 ≠ 99)
      · simp only [replyFinished_rejected g fromJson t _ reply false hgate hstatus]
        apply tableStep_remove t reply.ptr (QHash.value t reply.ptr) _ hi hmem
        intro id
        rw [outcomes_apiError_cons, outcomes_cleanupReply]
        by_cases hid : (QHash.value t reply.ptr).1 = id
        · simp [hid]
        · simp [hid]
      · have hq : replyFinished g fromJson t (QHash.value t reply.ptr).1 reply false
            = runReplyHandler t (QHash.value t reply.ptr).1 reply.ptr := by
          simp [replyFinished, hgate]
        simp only [hq]
        simp only [runReplyHandler, hc, if_true, cleanupReply_fst]
        apply tableStep_remove t reply.ptr (QHash.value t reply.ptr) _ hi hmem
        intro id
        rw [outcomes_append, outcomes_cleanupReply]
        cases (QHash.value t reply.ptr).2 with
        | none => simp [outcomes]
        | some f =>
          by_cases hid : (QHash.value t reply.ptr).1 = id
          · simp [outcomes, List.countP_cons, Effect.isOutcomeOf, hid]
          · simp [outcomes, List.countP_cons, Effect.isOutcomeOf, hid]
  · rw [if_pos hc]
    exact tableStep_refl t

theorem tableStep_replyErrorCaller (g : NetworkGlobal) (t : Replies) (reply : QNetworkReply)
    (hi : (operationIds t).Nodup) :
    TableStep t (replyErrorCaller g t (QHash.value t reply.ptr).1 reply).1
      (replyErrorCaller g t (QHash.value t reply.ptr).1 reply).2 := by
  unfold replyErrorCaller
  by_cases hc : QHash.contains t reply.ptr = true
  · rw [if_neg (not_not.mpr hc)]
    have hmem := QHash.value_mem t reply.ptr ((QHash.contains_iff t reply.ptr).mp hc)
    by_cases hgate : reply.error ≠ QNetworkReply.NoError ∧
        (reply.error < 200 ∨ reply.error.tmod 100 = 99)
    · rw [replyErrorOccurred_fired g t _ reply false hgate]
      apply tableStep_remove t reply.ptr (QHash.value t reply.ptr) _ hi hmem
      intro id
      rw [outcomes_apiError_cons, outcomes_cleanupReply]
      by_cases hid : (QHash.value t reply.ptr).1 = id
      · simp [hid]
      · simp [hid]
    · rw [replyErrorOccurred_quiet g t _ reply false hgate]
      exact tableStep_refl t
  · rw [if_pos hc]
    exact tableStep_refl t

theorem tableStep_sslErrorsOccurredCaller (g : NetworkGlobal) (t : Replies)
    (reply : QNetworkReply) (errors : List QSslError) (hi : (operationIds t).Nodup) :
    TableStep t (sslErrorsOccurredCaller g t reply errors).1
      (sslErrorsOccurredCaller g t reply errors).2 := by
  unfold sslErrorsOccurredCaller
  by_cases hc : QHash.contains t reply.ptr = true
  · rw [if_neg (not_not.mpr hc)]
    have hmem := QHash.value_mem t reply.ptr ((QHash.contains_iff t reply.ptr).mp hc)
    simp only [sslErrorsOccurred_eq g t _ reply false errors]
    cases errors.find? (fun e => decide (e.error ≠ QSslError.NoError)) with
    | none => exact tableStep_refl t
    | some error =>
      apply tableStep_remove t reply.ptr (QHash.value t reply.ptr) _ hi hmem
      intro id
      rw [outcomes_apiError_cons, outcomes_cleanupReply]
      by_cases hid : (QHash.value t reply.ptr).1 = id
      · simp [hid]
      · simp [hid]
  · rw [if_pos hc]
    exact tableStep_refl t

theorem tableStep_abortRequest (g : NetworkGlobal) (isRunning : Nat → Bool) (t : Replies)
    (operationId : Nat) (hk : (QHash.keys t).Nodup) (hi : (operationIds t).Nodup) :
    TableStep t (abortRequest g isRunning t operationId).1
      (abortRequest g isRunning t operationId).2 := by
  by_cases h : operationId ∈ operationIds t
  · obtain ⟨reply, handler, hmem, heq⟩ := abortRequest_present g isRunning t operationId hk h
    rw [heq]
    apply tableStep_remove t reply (operationId, handler) _ hi hmem
    intro id
    by_cases hrun : isRunning reply = true
    · by_cases hid : operationId = id
      · simp [hrun, outcomes, List.countP_cons, Effect.isOutcomeOf, hid]
      · simp [hrun, outcomes, List.countP_cons, Effect.isOutcomeOf, hid]
    · simp [hrun, outcomes]
  · rw [abortRequest_absent g isRunning t operationId h]
    exact tableStep_refl t

theorem outcomes_aborts (id : Nat) (keys : List Nat) :
    outcomes id (keys.flatMap (fun reply => [Effect.abort reply, Effect.deleteLater reply]))
      = 0 := by
  induction keys with
  | nil => rfl
  | cons k keys ih =>
    simp only [outcomes, List.flatMap_cons, List.countP_append] at ih ⊢
    rw [ih]
    simp [List.countP_cons, Effect.isOutcomeOf]

theorem outcomes_emits (g : NetworkGlobal) (id : Nat) (t : Replies) :
    outcomes id (t.map (fun e => Effect.apiErrorOccurred e.2.1 (canceledError g)))
      = (operationIds t).count id := by
  induction t with
  | nil => rfl
  | cons e t ih =>
    simp only [List.map_cons, outcomes_apiError_cons, ih, operationIds, List.count_cons]
    by_cases h : e.2.1 = id
    · simp [h]; omega
    · simp [h]

theorem tableStep_clearReplies (g : NetworkGlobal) (t : Replies)
    (hk : (QHash.keys t).Nodup) (hi : (operationIds t).Nodup) :
    TableStep t (clearReplies g t).1 (clearReplies g t).2 := by
  rw [clearReplies_eq g t hk]
  have hsub : (operationIds (t.filter (fun e => e.2.1 != 0))).Sublist (operationIds t) :=
    (List.filter_sublist t).map _
  have hcount : ∀ id, outcomes id
      ((t.filter (fun e => e.2.1 != 0)).map
          (fun e => Effect.apiErrorOccurred e.2.1 (canceledError g)) ++
        (QHash.keys t).flatMap (fun reply => [Effect.abort reply, Effect.deleteLater reply]))
      = (operationIds (t.filter (fun e => e.2.1 != 0))).count id := by
    intro id
    rw [outcomes_append, outcomes_aborts, outcomes_emits, Nat.add_zero]
  refine ⟨List.nil_sublist t, fun id => ⟨?_, fun hpos => ⟨?_, ?_⟩⟩⟩
  · rw [hcount]
    exact List.nodup_iff_count_le_one.mp (hi.sublist hsub) id
  · rw [hcount] at hpos
    exact hsub.subset (List.count_pos_iff.mp hpos)
  · simp [operationIds]

theorem invariant_tableStep (d : AbstractRestApiPrivate) (log : List Effect) (t' : Replies)
    (effects : List Effect) (hinv : RegistryInvariant d log)
    (hstep : TableStep d.replies t' effects) :
    RegistryInvariant { d with replies := t' } (log ++ effects) := by
  obtain ⟨hk, hi, hpending, hone, hfresh⟩ := hinv
  obtain ⟨hsub, heff⟩ := hstep
  have hidsub : (operationIds t').Sublist (operationIds d.replies) := hsub.map _
  refine ⟨hk.sublist (hsub.map _), hi.sublist hidsub, ?_, ?_, ?_⟩
  · intro id hid
    have hold := hpending id (hidsub.subset hid)
    refine ⟨hold.1, ?_⟩
    rw [outcomes_append, hold.2]
    have hzero : ¬ 0 < outcomes id effects := fun hpos => ((heff id).2 hpos).2 hid
    omega
  · intro id
    rw [outcomes_append]
    by_cases hpos : 0 < outcomes id effects
    · have hold := hpending id ((heff id).2 hpos).1
      have := (heff id).1
      omega
    · have := hone id
      omega
  · intro id hlt
    rw [outcomes_append, hfresh id hlt]
    have hzero : ¬ 0 < outcomes id effects := by
      intro hpos
      have hold := hpending id ((heff id).2 hpos).1
      have hlt2 : d.lastUsedOperationId < id := hlt
      omega
    omega

theorem invariant_issue (d : AbstractRestApiPrivate) (log : List Effect) (request : Request)
    (reply : Nat) (handler : RestAnswerHandler) (hinv : RegistryInvariant d log)
    (hbound : d.lastUsedOperationId + 1 < 2 ^ 64) :
    RegistryInvariant (issue d request reply handler).1 log ∧
    (issue d request reply handler).1.lastUsedOperationId = d.lastUsedOperationId + 1 := by
  obtain ⟨hk, hi, hpending, hone, hfresh⟩ := hinv
  have hmod : (d.lastUsedOperationId + 1) % 2 ^ 64 = d.lastUsedOperationId + 1 :=
    Nat.mod_eq_of_lt hbound
  rw [issue_eq_setupReply]
  simp only [setupReply, hmod, QHash.insert]
  have hnew : d.lastUsedOperationId + 1 ∉ operationIds (QHash.remove d.replies reply) := by
    intro hmem
    have := (hpending _ ((operationIds_remove_sublist d.replies reply).subset hmem)).1
    omega
  have hkey : reply ∉ QHash.keys (QHash.remove d.replies reply) := by
    have := QHash.contains_remove d.replies reply
    intro hmem
    rw [(QHash.contains_iff _ _).mpr hmem] at this
    exact Bool.noConfusion this
  refine ⟨⟨?_, ?_, ?_, hone, ?_⟩, trivial⟩
  · exact List.nodup_cons.mpr ⟨hkey, hk.sublist (keys_remove_sublist d.replies reply)⟩
  · exact List.nodup_cons.mpr ⟨hnew, hi.sublist (operationIds_remove_sublist d.replies reply)⟩
  · intro id hid
    rcases List.mem_cons.mp hid with hid | hid
    · have hid2 : id = d.lastUsedOperationId + 1 := hid
      refine ⟨by simp only; omega, hfresh id (by omega)⟩
    · have hold := hpending id ((operationIds_remove_sublist d.replies reply).subset hid)
      refine ⟨by simp only; omega, hold.2⟩
  · intro id hlt
    exact hfresh id (by simp only at hlt; omega)

theorem invariant_step (g : NetworkGlobal) (fromJson : JsonParser) (d : AbstractRestApiPrivate)
    (log : List Effect) (e : Event) (hinv : RegistryInvariant d log)
    (hbound : d.lastUsedOperationId + 1 < 2 ^ 64) :
    RegistryInvariant (step g fromJson d e).1 (log ++ (step g fromJson d e).2) ∧
    (step g fromJson d e).1.lastUsedOperationId ≤ d.lastUsedOperationId + 1 := by
  cases e with
  | issue request reply handler =>
    have h := invariant_issue d log request reply handler hinv hbound
    simp only [step, List.append_nil]
    exact ⟨h.1, le_of_eq h.2⟩
  | finished reply =>
    exact ⟨invariant_tableStep d log _ _ hinv
      (tableStep_replyFinishedCaller g fromJson d.replies reply hinv.2.1), Nat.le_succ _⟩
  | error reply =>
    exact ⟨invariant_tableStep d log _ _ hinv
      (tableStep_replyErrorCaller g d.replies reply hinv.2.1), Nat.le_succ _⟩
  | sslErrors reply errors =>
    exact ⟨invariant_tableStep d log _ _ hinv
      (tableStep_sslErrorsOccurredCaller g d.replies reply errors hinv.2.1), Nat.le_succ _⟩
  | abortRequest operationId isRunning =>
    exact ⟨invariant_tableStep d log _ _ hinv
      (tableStep_abortRequest g isRunning d.replies operationId hinv.1 hinv.2.1), Nat.le_succ _⟩
  | clearReplies =>
    exact ⟨invariant_tableStep d log _ _ hinv
      (tableStep_clearReplies g d.replies hinv.1 hinv.2.1), Nat.le_succ _⟩

theorem invariant_run (g : NetworkGlobal) (fromJson : JsonParser) (events : List Event) :
    ∀ (d : AbstractRestApiPrivate) (log : List Effect), RegistryInvariant d log →
      d.lastUsedOperationId + events.length < 2 ^ 64 →
      RegistryInvariant (run g fromJson d events).1 (log ++ (run g fromJson d events).2) := by
  induction events with
  | nil =>
    intro d log hinv _
    simpa [run] using hinv
  | cons e es ih =>
    intro d log hinv hbound
    simp only [List.length_cons] at hbound
    have hs := invariant_step g fromJson d log e hinv (by omega)
    have hrest := ih (step g fromJson d e).1 (log ++ (step g fromJson d e).2) hs.1 (by omega)
    simp only [run]
    rw [← List.append_assoc]
    exact hrest

theorem invariant_initial : RegistryInvariant AbstractRestApiPrivate.initial [] := by
  refine ⟨List.nodup_nil, List.nodup_nil, ?_, ?_, ?_⟩
  · intro id hid
    simp [AbstractRestApiPrivate.initial, operationIds] at hid
  · intro id
    simp [outcomes]
  · intro id _
    rfl

/-- C2: in the step model of the registry (issue, transport finished,
transport error, TLS problems, `abortRequest` and `clearReplies`, the three
transport events going through the dispatching lambdas that look the handle
up in the pending table), started from the initial state and for every run
short enough that the 64-bit counter does not wrap, every operation id gets at
most one terminal outcome (a completion-handler call, a classifier error
record or a cancellation record); around any outcome of an operation there is
no other outcome of it, neither before nor after, so a handler is never called
twice nor after an error or cancellation record of its operation. -/
theorem C2_at_most_one_outcome (g : NetworkGlobal) (fromJson : JsonParser)
    (events : List Event) (hbound : events.length < 2 ^ 64) (id : Nat) :
    outcomes id (run g fromJson AbstractRestApiPrivate.initial events).2 ≤ 1 ∧
    (∀ before e after,
      (run g fromJson AbstractRestApiPrivate.initial events).2 = before ++ e :: after →
      Effect.isOutcomeOf id e = true → outcomes id before = 0 ∧ outcomes id after = 0) := by
  have hinv := invariant_run g fromJson events AbstractRestApiPrivate.initial []
    invariant_initial (by simpa [AbstractRestApiPrivate.initial] using hbound)
  have hone : outcomes id (run g fromJson AbstractRestApiPrivate.initial events).2 ≤ 1 := by
    have := hinv.2.2.2.1 id
    simpa using this
  refine ⟨hone, ?_⟩
  intro before e after hsplit he
  rw [hsplit] at hone
  have hcons : outcomes id (e :: after) = 1 + outcomes id after := by
    simp [outcomes, List.countP_cons, he]
    omega
  rw [outcomes_append, hcons] at hone
  omega

theorem C2_at_most_one_outcome_witness :
    sampleEvents.length < 2 ^ 64 ∧
    outcomes 1 (run sampleGlobal sampleParser AbstractRestApiPrivate.initial sampleEvents).2 = 1 ∧
    outcomes 2 (run sampleGlobal sampleParser AbstractRestApiPrivate.initial sampleEvents).2
      ≤ 1 :=
  ⟨by decide, by decide,
   (C2_at_most_one_outcome sampleGlobal sampleParser sampleEvents (by decide) 2).1⟩

/-- C12: when the body parses without syntax error to an empty JSON object
(such as `{}`), `parseEntityObject` emits exactly one record, of level
JsonParseError with code 0 and message "JSON error: empty entity data", and
returns the empty object; `parseEntity` on that reply returns no entity, does
not call the entity factory and emits nothing besides that one record. -/
theorem C12_empty_object (g : NetworkGlobal) (fromJson : JsonParser) (reply : QNetworkReply)
    (operationId : Nat) (herr : (fromJson reply.body).1.error = 0)
    (hdoc : (fromJson reply.body).2 = QJsonDocument.objectDocument []) :
    parseEntityObject g fromJson reply operationId =
      ([], [DecoderEffect.apiErrorOccurred operationId
              { level := Level.JsonParseError, code := 0,
                proofModuleCode := g.NETWORK_MODULE_CODE, proofErrorCode := g.InvalidReply,
                message := "JSON error: empty entity data", userFriendly := false }]) ∧
    (∀ (Entity : Type) (serverErrorAttributes : List String)
        (factory : QJsonObject → Option Entity),
      (parseEntity.ofReply g serverErrorAttributes fromJson factory reply operationId).1 = none ∧
      factoryCalls
        (parseEntity.ofReply g serverErrorAttributes fromJson factory reply operationId).2 = [] ∧
      decoderRecords
        (parseEntity.ofReply g serverErrorAttributes fromJson factory reply operationId).2 =
          [(operationId,
            { level := Level.JsonParseError, code := 0,
              proofModuleCode := g.NETWORK_MODULE_CODE, proofErrorCode := g.InvalidReply,
              message := "JSON error: empty entity data", userFriendly := false })]) := by
  have hobj : parseEntityObject g fromJson reply operationId =
      ([], [DecoderEffect.apiErrorOccurred operationId
              { level := Level.JsonParseError, code := 0,
                proofModuleCode := g.NETWORK_MODULE_CODE, proofErrorCode := g.InvalidReply,
                message := "JSON error: empty entity data", userFriendly := false }]) := by
    simp [parseEntityObject, herr, hdoc, QJsonDocument.object]
  refine ⟨hobj, ?_⟩
  intro Entity serverErrorAttributes factory
  simp [parseEntity.ofReply, hobj, factoryCalls, decoderRecords]

theorem C12_empty_object_witness :
    (sampleDecoderParser (sampleReplyWithBody sampleBodyEmptyObject).body).1.error = 0 ∧
    (sampleDecoderParser (sampleReplyWithBody sampleBodyEmptyObject).body).2
      = QJsonDocument.objectDocument [] ∧
    (parseEntity.ofReply sampleGlobal ["errorMessage"] sampleDecoderParser sampleFactory
      (sampleReplyWithBody sampleBodyEmptyObject) 1).1 = none ∧
    decoderRecords (parseEntityObject sampleGlobal sampleDecoderParser
      (sampleReplyWithBody sampleBodyEmptyObject) 1).2
      = [(1, { level := Level.JsonParseError, code := 0, proofModuleCode := 300,
               proofErrorCode := 4, message := "JSON error: empty entity data",
               userFriendly := false })] :=
  ⟨by decide, rfl,
   ((C12_empty_object sampleGlobal sampleDecoderParser
      (sampleReplyWithBody sampleBodyEmptyObject) 1 (by decide) rfl).2
        SampleEntity ["errorMessage"] sampleFactory).1,
   by decide⟩

/-- C13: when the body is not valid JSON, with parser error code `c` (not 0)
and parser message `m`, `parseEntityObject` emits exactly one record (level
JsonParseError, code `c`, domain code InvalidReply, message "JSON error: " +
`m`) and returns the empty object; `parseEntitiesListPrivate` emits exactly
that record, returns false and does not invoke the element parser, so what the
parser captured (the entity list of the caller) is unchanged. -/
theorem C13_syntax_error (g : NetworkGlobal) (fromJson : JsonParser) (reply : QNetworkReply)
    (operationId : Nat) (herr : (fromJson reply.body).1.error ≠ 0) :
    parseEntityObject g fromJson reply operationId =
      ([], [DecoderEffect.apiErrorOccurred operationId
              { level := Level.JsonParseError, code := (fromJson reply.body).1.error,
                proofModuleCode := g.NETWORK_MODULE_CODE, proofErrorCode := g.InvalidReply,
                message := "JSON error: " ++ (fromJson reply.body).1.errorString,
                userFriendly := false }]) ∧
    (∀ (σ : Type) (serverErrorAttributes : List String)
        (jsonParser : List QJsonValue → σ → Bool × σ × List DecoderEffect)
        (attributeName : String) (captured : σ),
      parseEntitiesListPrivate g serverErrorAttributes fromJson reply jsonParser operationId
          attributeName captured =
        (false, captured,
          [DecoderEffect.apiErrorOccurred operationId
            { level := Level.JsonParseError, code := (fromJson reply.body).1.error,
              proofModuleCode := g.NETWORK_MODULE_CODE, proofErrorCode := g.InvalidReply,
              message := "JSON error: " ++ (fromJson reply.body).1.errorString,
              userFriendly := false }]) ∧
      parserCalls (parseEntitiesListPrivate g serverErrorAttributes fromJson reply jsonParser
        operationId attributeName captured).2.2 = []) ∧
    (∀ (Entity : Type) (serverErrorAttributes : List String)
        (factory : QJsonObject → Option Entity) (entityList : List Entity)
        (attributeName : String),
      (parseEntitiesList.ofReply g serverErrorAttributes fromJson factory entityList reply
        operationId attributeName).1 = false ∧
      (parseEntitiesList.ofReply g serverErrorAttributes fromJson factory entityList reply
        operationId attributeName).2.1 = entityList ∧
      factoryCalls (parseEntitiesList.ofReply g serverErrorAttributes fromJson factory
        entityList reply operationId attributeName).2.2 = []) := by
  refine ⟨?_, ?_, ?_⟩
  · simp [parseEntityObject, herr]
  · intro σ serverErrorAttributes jsonParser attributeName captured
    have h : parseEntitiesListPrivate g serverErrorAttributes fromJson reply jsonParser
        operationId attributeName captured =
        (false, captured,
          [DecoderEffect.apiErrorOccurred operationId
            { level := Level.JsonParseError, code := (fromJson reply.body).1.error,
              proofModuleCode := g.NETWORK_MODULE_CODE, proofErrorCode := g.InvalidReply,
              message := "JSON error: " ++ (fromJson reply.body).1.errorString,
              userFriendly := false }]) := by
      simp [parseEntitiesListPrivate, herr]
    exact ⟨h, by rw [h]; rfl⟩
  · intro Entity serverErrorAttributes factory entityList attributeName
    simp [parseEntitiesList.ofReply, parseEntitiesListPrivate, herr, factoryCalls]

theorem C13_syntax_error_witness :
    (sampleDecoderParser (sampleReplyWithBody "[1,").body).1.error ≠ 0 ∧
    decoderRecords (parseEntityObject sampleGlobal sampleDecoderParser
      (sampleReplyWithBody "[1,") 1).2
      = [(1, { level := Level.JsonParseError, code := 5, proofModuleCode := 300,
               proofErrorCode := 4, message := "JSON error: illegal value",
               userFriendly := false })] ∧
    (parseEntitiesList.ofReply sampleGlobal ["errorMessage"] sampleDecoderParser sampleFactory
      [{ id := 9, name := "z" }] (sampleReplyWithBody "[1,") 1 "items").2.1
      = [{ id := 9, name := "z" }] :=
  ⟨by decide, by decide,
   ((C13_syntax_error sampleGlobal sampleDecoderParser (sampleReplyWithBody "[1,") 1
      (by decide)).2.2 SampleEntity ["errorMessage"] sampleFactory [{ id := 9, name := "z" }]
      "items").2.1⟩

theorem serverErrorScan_none (jsonObject : QJsonObject) (attributes : List String) :
    serverErrorScan jsonObject attributes = none ↔
      ∀ a ∈ attributes, (QJsonObject.value jsonObject a).isUndefined = true := by
  induction attributes with
  | nil => simp [serverErrorScan]
  | cons a rest ih =>
    by_cases h : (QJsonObject.value jsonObject a).isUndefined = true
    · simp [serverErrorScan, h, ih]
    · simp [serverErrorScan, h]

theorem serverErrorScan_first (jsonObject : QJsonObject) (before : List String) (a : String)
    (after : List String)
    (hbefore : ∀ b ∈ before, (QJsonObject.value jsonObject b).isUndefined = true)
    (ha : (QJsonObject.value jsonObject a).isUndefined = false) :
    serverErrorScan jsonObject (before ++ a :: after)
      = some (QJsonObject.value jsonObject a).toString := by
  induction before with
  | nil => simp [serverErrorScan, ha]
  | cons b rest ih =>
    have hb := hbefore b (List.mem_cons_self _ _)
    simp only [List.cons_append, serverErrorScan, hb]
    exact ih (fun c hc => hbefore c (List.mem_cons_of_mem _ hc))

theorem serverErrorScan_some (jsonObject : QJsonObject) (attributes : List String)
    (h : ∃ a ∈ attributes, (QJsonObject.value jsonObject a).isUndefined = false) :
    ∃ before a after, attributes = before ++ a :: after ∧
      (∀ b ∈ before, (QJsonObject.value jsonObject b).isUndefined = true) ∧
      (QJsonObject.value jsonObject a).isUndefined = false ∧
      serverErrorScan jsonObject attributes = some (QJsonObject.value jsonObject a).toString := by
  induction attributes with
  | nil => obtain ⟨a, ha, _⟩ := h; simp at ha
  | cons c rest ih =>
    by_cases hc : (QJsonObject.value jsonObject c).isUndefined = false
    · exact ⟨[], c, rest, rfl, by simp, hc, by simp [serverErrorScan, hc]⟩
    · have hc2 : (QJsonObject.value jsonObject c).isUndefined = true := by simpa using hc
      have hrest : ∃ a ∈ rest, (QJsonObject.value jsonObject a).isUndefined = false := by
        obtain ⟨a, ha, hdef⟩ := h
        rcases List.mem_cons.mp ha with ha | ha
        · subst ha; rw [hc2] at hdef; exact Bool.noConfusion hdef
        · exact ⟨a, ha, hdef⟩
      obtain ⟨before, a, after, hsplit, hbefore, ha, hscan⟩ := ih hrest
      refine ⟨c :: before, a, after, by rw [hsplit]; rfl, ?_, ha, ?_⟩
      · intro b hb
        rcases List.mem_cons.mp hb with hb | hb
        · subst hb; exact hc2
        · exact hbefore b hb
      · simp only [serverErrorScan, hc2]
        exact hscan

/-- C18: `parseEntity(jsonObject)` returns the entity and emits no record when
the factory succeeds. When the factory fails it returns no entity and emits
exactly one record: a JsonServerError whose message is the string value of the
first attribute of the configured list that is present in the object, if any
is present, and otherwise a JsonDataError with message "Can't create entity
from server response"; so the two are never emitted for the same object. -/
theorem C18_parseEntity (Entity : Type) (g : NetworkGlobal) (serverErrorAttributes : List String)
    (factory : QJsonObject → Option Entity) (jsonObject : QJsonObject) (operationId : Nat) :
    (∀ entity, factory jsonObject = some entity →
      (parseEntity g serverErrorAttributes factory jsonObject operationId).1 = some entity ∧
      decoderRecords (parseEntity g serverErrorAttributes factory jsonObject operationId).2
        = []) ∧
    (factory jsonObject = none →
      (parseEntity g serverErrorAttributes factory jsonObject operationId).1 = none ∧
      (decoderRecords
        (parseEntity g serverErrorAttributes factory jsonObject operationId).2).length = 1 ∧
      (∀ before a after, serverErrorAttributes = before ++ a :: after →
        (∀ b ∈ before, (QJsonObject.value jsonObject b).isUndefined = true) →
        (QJsonObject.value jsonObject a).isUndefined = false →
        decoderRecords (parseEntity g serverErrorAttributes factory jsonObject operationId).2 =
          [(operationId,
            { level := Level.JsonServerError, code := 0,
              proofModuleCode := g.NETWORK_MODULE_CODE, proofErrorCode := g.InvalidReply,
              message := (QJsonObject.value jsonObject a).toString, userFriendly := false })]) ∧
      ((∀ a ∈ serverErrorAttributes, (QJsonObject.value jsonObject a).isUndefined = true) →
        decoderRecords (parseEntity g serverErrorAttributes factory jsonObject operationId).2 =
          [(operationId,
            { level := Level.JsonDataError, code := 0,
              proofModuleCode := g.NETWORK_MODULE_CODE, proofErrorCode := g.InvalidReply,
              message := "Can't create entity from server response",
              userFriendly := false })])) := by
  constructor
  · intro entity h
    simp [parseEntity, h, decoderRecords]
  · intro h
    refine ⟨?_, ?_, ?_, ?_⟩
    · simp only [parseEntity, h]
      cases serverErrorScan jsonObject serverErrorAttributes <;> rfl
    · simp only [parseEntity, h]
      cases serverErrorScan jsonObject serverErrorAttributes <;> rfl
    · intro before a after hsplit hbefore ha
      have hscan := serverErrorScan_first jsonObject before a after hbefore ha
      rw [← hsplit] at hscan
      simp [parseEntity, h, hscan, decoderRecords]
    · intro hall
      have hscan := (serverErrorScan_none jsonObject serverErrorAttributes).mpr hall
      simp [parseEntity, h, hscan, decoderRecords]

theorem C18_parseEntity_witness :
    sampleFactory [("errorMessage", QJsonValue.string "quota exceeded")] = none ∧
    (parseEntity sampleGlobal ["error", "errorMessage"] sampleFactory
      [("errorMessage", QJsonValue.string "quota exceeded")] 1).1 = none ∧
    decoderRecords (parseEntity sampleGlobal ["error", "errorMessage"] sampleFactory
      [("errorMessage", QJsonValue.string "quota exceeded")] 1).2 =
        [(1, { level := Level.JsonServerError, code := 0, proofModuleCode := 300,
               proofErrorCode := 4, message := "quota exceeded", userFriendly := false })] :=
  have h := (C18_parseEntity SampleEntity sampleGlobal ["error", "errorMessage"] sampleFactory
    [("errorMessage", QJsonValue.string "quota exceeded")] 1).2 (by decide)
  ⟨by decide, h.1, h.2.2.1 ["error"] "errorMessage" [] rfl (by decide) (by decide)⟩

theorem decoderRecords_append (a b : List DecoderEffect) :
    decoderRecords (a ++ b) = decoderRecords a ++ decoderRecords b := by
  induction a with
  | nil => rfl
  | cons e a ih => cases e <;> simp [decoderRecords, ih]

theorem factoryCalls_append (a b : List DecoderEffect) :
    factoryCalls (a ++ b) = factoryCalls a ++ factoryCalls b := by
  induction a with
  | nil => rfl
  | cons e a ih => cases e <;> simp [factoryCalls, ih]

theorem parseEntity_fst {Entity : Type} (g : NetworkGlobal) (serverErrorAttributes : List String)
    (factory : QJsonObject → Option Entity) (jsonObject : QJsonObject) (operationId : Nat) :
    (parseEntity g serverErrorAttributes factory jsonObject operationId).1 = factory jsonObject := by
  simp only [parseEntity]
  cases factory jsonObject with
  | some e => rfl
  | none => cases serverErrorScan jsonObject serverErrorAttributes <;> rfl

theorem parseEntity_factoryCalls {Entity : Type} (g : NetworkGlobal)
    (serverErrorAttributes : List String) (factory : QJsonObject → Option Entity)
    (jsonObject : QJsonObject) (operationId : Nat) :
    factoryCalls (parseEntity g serverErrorAttributes factory jsonObject operationId).2
      = [jsonObject] := by
  simp only [parseEntity]
  cases factory jsonObject with
  | some e => rfl
  | none => cases serverErrorScan jsonObject serverErrorAttributes <;> rfl

theorem parseEntity_records_some {Entity : Type} (g : NetworkGlobal)
    (serverErrorAttributes : List String) (factory : QJsonObject → Option Entity)
    (jsonObject : QJsonObject) (operationId : Nat) (entity : Entity)
    (h : factory jsonObject = some entity) :
    decoderRecords (parseEntity g serverErrorAttributes factory jsonObject operationId).2 = [] := by
  simp [parseEntity, h, decoderRecords]

theorem parseEntity_records_none {Entity : Type} (g : NetworkGlobal)
    (serverErrorAttributes : List String) (factory : QJsonObject → Option Entity)
    (jsonObject : QJsonObject) (operationId : Nat) (h : factory jsonObject = none) :
    ∃ record,
      decoderRecords (parseEntity g serverErrorAttributes factory jsonObject operationId).2
        = [(operationId, record)] ∧
      (record.level = Level.JsonServerError ∨ record.level = Level.JsonDataError) ∧
      record.code = 0 := by
  simp only [parseEntity, h]
  cases serverErrorScan jsonObject serverErrorAttributes with
  | some m => exact ⟨_, rfl, Or.inl rfl, rfl⟩
  | none => exact ⟨_, rfl, Or.inr rfl, rfl⟩

theorem parseEntitiesList.loop_result {Entity : Type} (g : NetworkGlobal)
    (serverErrorAttributes : List String) (factory : QJsonObject → Option Entity)
    (operationId : Nat) (jsonArray : List QJsonValue) :
    ∀ entityList : List Entity,
      (parseEntitiesList.loop g serverErrorAttributes factory operationId jsonArray
          entityList).1 = entityList ++ jsonArray.filterMap (fun value => factory value.toObject) ∧
      factoryCalls (parseEntitiesList.loop g serverErrorAttributes factory operationId jsonArray
          entityList).2 = jsonArray.map (fun value => value.toObject) ∧
      decoderRecords (parseEntitiesList.loop g serverErrorAttributes factory operationId
          jsonArray entityList).2 =
        (jsonArray.filter (fun value => (factory value.toObject).isNone)).flatMap
          (fun value => decoderRecords
            (parseEntity g serverErrorAttributes factory value.toObject operationId).2) := by
  induction jsonArray with
  | nil => intro entityList; simp [parseEntitiesList.loop, factoryCalls, decoderRecords]
  | cons value rest ih =>
    intro entityList
    simp only [parseEntitiesList.loop, parseEntity_fst, factoryCalls_append,
      decoderRecords_append, parseEntity_factoryCalls]
    cases hf : factory value.toObject with
    | some entity =>
      have ih2 := ih (entityList ++ [entity])
      simp only [ih2.1, ih2.2.1, ih2.2.2,
        parseEntity_records_some g serverErrorAttributes factory value.toObject operationId
          entity hf]
      simp [List.filterMap_cons, hf, List.filter_cons]
    | none =>
      have ih2 := ih entityList
      simp only [ih2.1, ih2.2.1, ih2.2.2]
      simp [List.filterMap_cons, hf, List.filter_cons]

/-- C14: for every JSON array and every entity factory, `parseEntitiesList`
(array overload) returns true and leaves the list as its previous contents
followed by exactly the entities the factory produces, in the order of the
array, one for each element on which it succeeds; every element is handed to
the factory through `toObject`, so an element that is not an object goes in as
the empty object. -/
theorem C14_parseEntitiesList_array (Entity : Type) (g : NetworkGlobal)
    (serverErrorAttributes : List String) (factory : QJsonObject → Option Entity)
    (entityList : List Entity) (jsonArray : List QJsonValue) (operationId : Nat) :
    (parseEntitiesList g serverErrorAttributes factory entityList jsonArray operationId).1
      = true ∧
    (parseEntitiesList g serverErrorAttributes factory entityList jsonArray operationId).2.1
      = entityList ++ jsonArray.filterMap (fun value => factory value.toObject) ∧
    factoryCalls
      (parseEntitiesList g serverErrorAttributes factory entityList jsonArray operationId).2.2
      = jsonArray.map (fun value => value.toObject) ∧
    (QJsonValue.double 7).toObject = [] ∧ (QJsonValue.string "x").toObject = [] ∧
    QJsonValue.null.toObject = [] := by
  have h := parseEntitiesList.loop_result g serverErrorAttributes factory operationId jsonArray
    entityList
  exact ⟨rfl, h.1, h.2.1, rfl, rfl, rfl⟩

/-- C15 (as stated) fails: `parseEntitiesList` over an array with two
malformed elements (an object without `id`, and a number) emits two
JsonDataError records, one for each of them. -/
theorem C15_counterexample_records_emitted :
    sampleArrayMixed.countP (fun value => (sampleFactory value.toObject).isNone) = 2 ∧
    decoderRecords
      (parseEntitiesList sampleGlobal ["errorMessage"] sampleFactory [] sampleArrayMixed 1).2.2
      = [(1, { level := Level.JsonDataError, code := 0, proofModuleCode := 300,
               proofErrorCode := 4, message := "Can't create entity from server response",
               userFriendly := false }),
         (1, { level := Level.JsonDataError, code := 0, proofModuleCode := 300,
               proofErrorCode := 4, message := "Can't create entity from server response",
               userFriendly := false })] := by
  decide

/-- C15 (amended): `parseEntitiesList` over an array in which the factory fails
on `k` elements still returns true and skips those elements, but it emits
exactly `k` error records, one per malformed element in array order: the
record `parseEntity` emits for that element, a JsonServerError or a
JsonDataError with code 0. -/
theorem C15_parseEntitiesList_records (Entity : Type) (g : NetworkGlobal)
    (serverErrorAttributes : List String) (factory : QJsonObject → Option Entity)
    (entityList : List Entity) (jsonArray : List QJsonValue) (operationId : Nat) :
    (parseEntitiesList g serverErrorAttributes factory entityList jsonArray operationId).1
      = true ∧
    decoderRecords
      (parseEntitiesList g serverErrorAttributes factory entityList jsonArray operationId).2.2 =
        (jsonArray.filter (fun value => (factory value.toObject).isNone)).flatMap
          (fun value => decoderRecords
            (parseEntity g serverErrorAttributes factory value.toObject operationId).2) ∧
    (decoderRecords
      (parseEntitiesList g serverErrorAttributes factory entityList jsonArray
        operationId).2.2).length
      = jsonArray.countP (fun value => (factory value.toObject).isNone) ∧
    (∀ record ∈ decoderRecords
        (parseEntitiesList g serverErrorAttributes factory entityList jsonArray operationId).2.2,
      record.1 = operationId ∧
      (record.2.level = Level.JsonServerError ∨ record.2.level = Level.JsonDataError) ∧
      record.2.code = 0) := by
  have h := (parseEntitiesList.loop_result g serverErrorAttributes factory operationId jsonArray
    entityList).2.2
  have hrec : decoderRecords
      (parseEntitiesList g serverErrorAttributes factory entityList jsonArray operationId).2.2 =
        (jsonArray.filter (fun value => (factory value.toObject).isNone)).flatMap
          (fun value => decoderRecords
            (parseEntity g serverErrorAttributes factory value.toObject operationId).2) := h
  have hone : ∀ value ∈ jsonArray.filter (fun value => (factory value.toObject).isNone),
      ∃ record, decoderRecords
          (parseEntity g serverErrorAttributes factory value.toObject operationId).2
          = [(operationId, record)] ∧
        (record.level = Level.JsonServerError ∨ record.level = Level.JsonDataError) ∧
        record.code = 0 := by
    intro value hv
    have hnone : factory value.toObject = none := by
      have := (List.mem_filter.mp hv).2
      simpa using this
    exact parseEntity_records_none g serverErrorAttributes factory value.toObject operationId
      hnone
  refine ⟨rfl, hrec, ?_, ?_⟩
  · rw [hrec, List.countP_eq_length_filter]
    generalize jsonArray.filter (fun value => (factory value.toObject).isNone) = bad at hone
    induction bad with
    | nil => rfl
    | cons value rest ih =>
      obtain ⟨record, hr, _⟩ := hone value (List.mem_cons_self _ _)
      simp only [List.flatMap_cons, List.length_append, hr, List.length_cons, List.length_nil]
      rw [ih (fun v hv => hone v (List.mem_cons_of_mem _ hv))]
      omega
  · intro record hmem
    rw [hrec, List.mem_flatMap] at hmem
    obtain ⟨value, hv, hin⟩ := hmem
    obtain ⟨r, hr, hlevel, hcode⟩ := hone value hv
    rw [hr, List.mem_singleton] at hin
    subst hin
    exact ⟨rfl, hlevel, hcode⟩

theorem C14_parseEntitiesList_array_witness :
    (parseEntitiesList sampleGlobal ["errorMessage"] sampleFactory [{ id := 9, name := "z" }]
      sampleArrayMixed 1).2.1
      = [{ id := 9, name := "z" }, { id := 1, name := "a" }, { id := 3, name := "c" }] ∧
    (parseEntitiesList sampleGlobal ["errorMessage"] sampleFactory [{ id := 9, name := "z" }]
      sampleArrayMixed 1).2.1
      = [{ id := 9, name := "z" }] ++
          sampleArrayMixed.filterMap (fun value => sampleFactory value.toObject) :=
  ⟨by decide,
   (C14_parseEntitiesList_array SampleEntity sampleGlobal ["errorMessage"] sampleFactory
      [{ id := 9, name := "z" }] sampleArrayMixed 1).2.1⟩

theorem C15_parseEntitiesList_records_witness :
    (decoderRecords
      (parseEntitiesList sampleGlobal ["errorMessage"] sampleFactory [] sampleArrayMixed
        1).2.2).length = 2 ∧
    (decoderRecords
      (parseEntitiesList sampleGlobal ["errorMessage"] sampleFactory [] sampleArrayMixed
        1).2.2).length
      = sampleArrayMixed.countP (fun value => (sampleFactory value.toObject).isNone) :=
  ⟨by decide,
   (C15_parseEntitiesList_records SampleEntity sampleGlobal ["errorMessage"] sampleFactory []
      sampleArrayMixed 1).2.2.1⟩

theorem parseEntitiesListPrivate_object {σ : Type} (g : NetworkGlobal)
    (serverErrorAttributes : List String) (fromJson : JsonParser) (reply : QNetworkReply)
    (jsonParser : List QJsonValue → σ → Bool × σ × List DecoderEffect) (operationId : Nat)
    (attributeName : String) (captured : σ) (jsonObject : QJsonObject)
    (herr : (fromJson reply.body).1.error = 0)
    (hdoc : (fromJson reply.body).2 = QJsonDocument.objectDocument jsonObject)
    (harray : ¬ ((QJsonObject.value jsonObject attributeName).isUndefined = false ∧
      (QJsonObject.value jsonObject attributeName).isArray = true)) :
    parseEntitiesListPrivate g serverErrorAttributes fromJson reply jsonParser operationId
        attributeName captured =
      match serverErrorScan jsonObject serverErrorAttributes with
      | some jsonErrorMessage =>
        (false, captured,
          [DecoderEffect.apiErrorOccurred operationId
            { level := Level.JsonServerError, code := 0,
              proofModuleCode := g.NETWORK_MODULE_CODE, proofErrorCode := g.InvalidReply,
              message := jsonErrorMessage, userFriendly := false }])
      | none => (true, captured, []) := by
  unfold parseEntitiesListPrivate
  simp only [herr, hdoc, ne_eq, not_true_eq_false, if_false, QJsonDocument.isArray,
    QJsonDocument.isObject, QJsonDocument.object, if_true]
  rw [if_neg harray]

theorem parseEntitiesListPrivate_silent {σ : Type} (g : NetworkGlobal)
    (serverErrorAttributes : List String) (fromJson : JsonParser) (reply : QNetworkReply)
    (jsonParser : List QJsonValue → σ → Bool × σ × List DecoderEffect) (operationId : Nat)
    (attributeName : String) (captured : σ) (jsonObject : QJsonObject)
    (herr : (fromJson reply.body).1.error = 0)
    (hdoc : (fromJson reply.body).2 = QJsonDocument.objectDocument jsonObject)
    (harray : ¬ ((QJsonObject.value jsonObject attributeName).isUndefined = false ∧
      (QJsonObject.value jsonObject attributeName).isArray = true))
    (hnone : ∀ a ∈ serverErrorAttributes, (QJsonObject.value jsonObject a).isUndefined = true) :
    parseEntitiesListPrivate g serverErrorAttributes fromJson reply jsonParser operationId
        attributeName captured = (true, captured, []) := by
  rw [parseEntitiesListPrivate_object g serverErrorAttributes fromJson reply jsonParser
    operationId attributeName captured jsonObject herr hdoc harray,
    (serverErrorScan_none jsonObject serverErrorAttributes).mpr hnone]

/-- C16: the code at the failing input. The body `{"total":0}` is an object
without the array attribute `items` and without the configured server-error
attribute `errorMessage`; list decoding emits no record at all (no
JsonDataError) and returns true, the list unchanged and the element parser
not invoked. -/
theorem C16_object_without_array_is_silent :
    (sampleDecoderParser (sampleReplyWithBody sampleBodyNoItems).body).1.error = 0 ∧
    (QJsonObject.value (sampleDecoderParser (sampleReplyWithBody sampleBodyNoItems).body).2.object
      "items").isUndefined = true ∧
    (QJsonObject.value (sampleDecoderParser (sampleReplyWithBody sampleBodyNoItems).body).2.object
      "errorMessage").isUndefined = true ∧
    (parseEntitiesList.ofReply sampleGlobal ["errorMessage"] sampleDecoderParser sampleFactory
      [] (sampleReplyWithBody sampleBodyNoItems) 1 "items").1 = true ∧
    decoderRecords (parseEntitiesList.ofReply sampleGlobal ["errorMessage"] sampleDecoderParser
      sampleFactory [] (sampleReplyWithBody sampleBodyNoItems) 1 "items").2.2 = [] ∧
    parserCalls (parseEntitiesList.ofReply sampleGlobal ["errorMessage"] sampleDecoderParser
      sampleFactory [] (sampleReplyWithBody sampleBodyNoItems) 1 "items").2.2 = [] ∧
    (parseEntitiesList.ofReply sampleGlobal ["errorMessage"] sampleDecoderParser sampleFactory
      [] (sampleReplyWithBody sampleBodyNoItems) 1 "items").2.1 = [] := by
  have h := parseEntitiesListPrivate_silent sampleGlobal ["errorMessage"] sampleDecoderParser
    (sampleReplyWithBody sampleBodyNoItems)
    (fun jsonArray captured =>
      parseEntitiesList sampleGlobal ["errorMessage"] sampleFactory captured jsonArray 1)
    1 "items" ([] : List SampleEntity) [("total", QJsonValue.double 0)]
    (by decide) rfl (by decide) (by decide)
  refine ⟨by decide, by decide, by decide, ?_, ?_, ?_, ?_⟩
  · exact congrArg (fun r => r.1) h
  · exact congrArg (fun r => decoderRecords r.2.2) h
  · exact congrArg (fun r => parserCalls r.2.2) h
  · exact congrArg (fun r => r.2.1) h

/-- C17: when the top-level value of the body is an object in which
`arrayAttribute` is absent or not an array and at least one configured
server-error attribute is present, list decoding emits exactly one record:
level JsonServerError, code 0, domain code InvalidReply, message the string
value of the first attribute of the configured list that is present in the
object. No JsonDataError is emitted, the result is false, the captured entity
list is unchanged and the element parser is not invoked. The body
`{"errorMessage":"quota exceeded"}` with `errorMessage` configured gives
JsonServerError with message "quota exceeded". -/
theorem C17_server_error_attribute (σ : Type) (g : NetworkGlobal)
    (serverErrorAttributes : List String) (fromJson : JsonParser) (reply : QNetworkReply)
    (jsonParser : List QJsonValue → σ → Bool × σ × List DecoderEffect) (operationId : Nat)
    (attributeName : String) (captured : σ) (jsonObject : QJsonObject)
    (herr : (fromJson reply.body).1.error = 0)
    (hdoc : (fromJson reply.body).2 = QJsonDocument.objectDocument jsonObject)
    (harray : (QJsonObject.value jsonObject attributeName).isUndefined = true ∨
      (QJsonObject.value jsonObject attributeName).isArray = false)
    (hpresent : ∃ a ∈ serverErrorAttributes,
      (QJsonObject.value jsonObject a).isUndefined = false) :
    (∃ before a after, serverErrorAttributes = before ++ a :: after ∧
      (∀ b ∈ before, (QJsonObject.value jsonObject b).isUndefined = true) ∧
      (QJsonObject.value jsonObject a).isUndefined = false ∧
      parseEntitiesListPrivate g serverErrorAttributes fromJson reply jsonParser operationId
          attributeName captured =
        (false, captured,
          [DecoderEffect.apiErrorOccurred operationId
            { level := Level.JsonServerError, code := 0,
              proofModuleCode := g.NETWORK_MODULE_CODE, proofErrorCode := g.InvalidReply,
              message := (QJsonObject.value jsonObject a).toString, userFriendly := false }])) ∧
    (jsonObject = [("errorMessage", QJsonValue.string "quota exceeded")] →
      decoderRecords (parseEntitiesListPrivate g serverErrorAttributes fromJson reply jsonParser
          operationId attributeName captured).2.2 =
        [(operationId,
          { level := Level.JsonServerError, code := 0,
            proofModuleCode := g.NETWORK_MODULE_CODE, proofErrorCode := g.InvalidReply,
            message := "quota exceeded", userFriendly := false })]) := by
  have harray2 : ¬ ((QJsonObject.value jsonObject attributeName).isUndefined = false ∧
      (QJsonObject.value jsonObject attributeName).isArray = true) := by
    rintro ⟨h1, h2⟩
    rcases harray with h | h
    · rw [h] at h1; exact Bool.noConfusion h1
    · rw [h] at h2; exact Bool.noConfusion h2
  have hobj := parseEntitiesListPrivate_object g serverErrorAttributes fromJson reply jsonParser
    operationId attributeName captured jsonObject herr hdoc harray2
  obtain ⟨before, a, after, hsplit, hbefore, ha, hscan⟩ :=
    serverErrorScan_some jsonObject serverErrorAttributes hpresent
  rw [hscan] at hobj
  refine ⟨⟨before, a, after, hsplit, hbefore, ha, hobj⟩, ?_⟩
  intro hquota
  rw [hobj]
  have hmsg : (QJsonObject.value jsonObject a).toString = "quota exceeded" := by
    subst hquota
    by_cases hname : a = "errorMessage"
    · subst hname; rfl
    · have hb : ("errorMessage" == a) = false := by
        simpa using fun h : "errorMessage" = a => hname h.symm
      have hundef : QJsonObject.value
          [("errorMessage", QJsonValue.string "quota exceeded")] a = QJsonValue.undefined := by
        simp [QJsonObject.value, List.find?, hb]
      rw [hundef] at ha
      exact Bool.noConfusion ha
  simp only [decoderRecords, hmsg]

theorem C17_server_error_attribute_witness :
    (sampleDecoderParser (sampleReplyWithBody sampleBodyQuota).body).1.error = 0 ∧
    (parseEntitiesList.ofReply sampleGlobal ["error", "errorMessage"] sampleDecoderParser
      sampleFactory [{ id := 9, name := "z" }] (sampleReplyWithBody sampleBodyQuota) 1
      "items").2.1 = [{ id := 9, name := "z" }] ∧
    decoderRecords (parseEntitiesList.ofReply sampleGlobal ["error", "errorMessage"]
      sampleDecoderParser sampleFactory [{ id := 9, name := "z" }]
      (sampleReplyWithBody sampleBodyQuota) 1 "items").2.2 =
        [(1, { level := Level.JsonServerError, code := 0, proofModuleCode := 300,
               proofErrorCode := 4, message := "quota exceeded", userFriendly := false })] :=
  ⟨by decide, by decide,
   (C17_server_error_attribute (List SampleEntity) sampleGlobal ["error", "errorMessage"]
      sampleDecoderParser (sampleReplyWithBody sampleBodyQuota)
      (fun jsonArray captured =>
        parseEntitiesList sampleGlobal ["error", "errorMessage"] sampleFactory captured
          jsonArray 1)
      1 "items" [{ id := 9, name := "z" }]
      [("errorMessage", QJsonValue.string "quota exceeded")]
      (by decide) rfl (Or.inl (by decide)) ⟨"errorMessage", by decide, by decide⟩).2 rfl⟩

theorem errorRecords_runReplyHandler (t : Replies) (operationId reply : Nat) :
    errorRecords (runReplyHandler t operationId reply).2 = [] := by
  by_cases hc : QHash.contains t reply = true
  · exact (runReplyHandler_present t operationId reply hc).2.1
  · rw [runReplyHandler_absent t operationId reply (by simpa using hc)]
    rfl

theorem replyFinished_levels (g : NetworkGlobal) (fromJson : JsonParser) (t : Replies)
    (operationId : Nat) (reply : QNetworkReply) (forceUserFriendly : Bool) :
    ∀ record ∈ errorRecords (replyFinished g fromJson t operationId reply forceUserFriendly).2,
      record.2.level = Level.ServerError := by
  intro record hmem
  by_cases hstatus : reply.httpStatusCode ∈ ALLOWED_HTTP_STATUSES
  · rw [replyFinished_accepted g fromJson t operationId reply forceUserFriendly hstatus,
      errorRecords_runReplyHandler] at hmem
    simp at hmem
  · by_cases hgate : reply.error = QNetworkReply.NoError ∨
        (reply.error ≥ 100 ∧ reply.error.tmod 100 ≠ 99)
    · rw [replyFinished_rejected g fromJson t operationId reply forceUserFriendly hgate hstatus]
        at hmem
      simp only [errorRecords, errorRecords_cleanupReply, List.mem_singleton] at hmem
      rw [hmem]
    · have hq : replyFinished g fromJson t operationId reply forceUserFriendly
          = runReplyHandler t operationId reply.ptr := by
        simp [replyFinished, hgate]
      rw [hq, errorRecords_runReplyHandler] at hmem
      simp at hmem

theorem replyErrorOccurred_levels (g : NetworkGlobal) (t : Replies) (operationId : Nat)
    (reply : QNetworkReply) (forceUserFriendly : Bool) :
    ∀ record ∈ errorRecords (replyErrorOccurred g t operationId reply forceUserFriendly).2,
      record.2.level = Level.ClientError := by
  intro record hmem
  by_cases hgate : reply.error ≠ QNetworkReply.NoError ∧
      (reply.error < 200 ∨ reply.error.tmod 100 = 99)
  · rw [replyErrorOccurred_fired g t operationId reply forceUserFriendly hgate] at hmem
    simp only [errorRecords, errorRecords_cleanupReply, List.mem_singleton] at hmem
    rw [hmem]
  · rw [replyErrorOccurred_quiet g t operationId reply forceUserFriendly hgate] at hmem
    simp [errorRecords] at hmem

theorem sslErrorsOccurred_levels (g : NetworkGlobal) (t : Replies) (operationId : Nat)
    (reply : QNetworkReply) (errors : List QSslError) (forceUserFriendly : Bool) :
    ∀ record ∈ errorRecords (sslErrorsOccurred g t operationId reply errors forceUserFriendly).2,
      record.2.level = Level.ClientError := by
  intro record hmem
  rw [sslErrorsOccurred_eq g t operationId reply forceUserFriendly errors] at hmem
  cases hfind : errors.find? (fun e => decide (e.error ≠ QSslError.NoError)) with
  | none =>
    rw [hfind] at hmem
    simp [errorRecords] at hmem
  | some error =>
    rw [hfind] at hmem
    simp only [errorRecords, errorRecords_cleanupReply, List.mem_singleton] at hmem
    rw [hmem]

theorem abortRequest_levels (g : NetworkGlobal) (isRunning : Nat → Bool) (t : Replies)
    (operationId : Nat) :
    ∀ record ∈ errorRecords (abortRequest g isRunning t operationId).2,
      record.2 = canceledError g := by
  intro record hmem
  simp only [abortRequest] at hmem
  cases hscan : (abortRequest.scan operationId (QHash.keys t) t).2 with
  | none =>
    rw [hscan] at hmem
    simp [errorRecords] at hmem
  | some toAbort =>
    rw [hscan] at hmem
    by_cases hrun : isRunning toAbort = true
    · simp only [hrun, if_true, errorRecords, List.mem_singleton] at hmem
      rw [hmem]
    · simp [hrun, errorRecords] at hmem

theorem clearReplies.loop_levels (g : NetworkGlobal) (keys : List Nat) :
    ∀ (t : Replies) (toAbort : List Nat) (emitted : List Effect),
      (∀ record ∈ errorRecords emitted, record.2 = canceledError g) →
      ∀ record ∈ errorRecords (clearReplies.loop g keys t toAbort emitted).2.2,
        record.2 = canceledError g := by
  induction keys with
  | nil => intro t toAbort emitted h; exact h
  | cons reply rest ih =>
    intro t toAbort emitted h
    simp only [clearReplies.loop]
    apply ih
    intro record hmem
    by_cases hz : (QHash.value t reply).1 ≠ 0
    · rw [if_pos hz, errorRecords_append] at hmem
      rcases List.mem_append.mp hmem with hmem | hmem
      · exact h record hmem
      · simp only [errorRecords, List.mem_singleton] at hmem
        rw [hmem]
    · rw [if_neg hz] at hmem
      exact h record hmem

theorem clearReplies_levels (g : NetworkGlobal) (t : Replies) :
    ∀ record ∈ errorRecords (clearReplies g t).2, record.2 = canceledError g := by
  intro record hmem
  simp only [clearReplies, errorRecords_append, errorRecords_aborts, List.append_nil] at hmem
  exact clearReplies.loop_levels g (QHash.keys t) t [] [] (by simp [errorRecords]) record hmem

theorem parseEntityObject_levels (g : NetworkGlobal) (fromJson : JsonParser)
    (reply : QNetworkReply) (operationId : Nat) :
    ∀ record ∈ decoderRecords (parseEntityObject g fromJson reply operationId).2,
      record.2.level = Level.JsonParseError := by
  intro record hmem
  simp only [parseEntityObject] at hmem
  split at hmem
  · simp only [decoderRecords, List.mem_singleton] at hmem
    rw [hmem]
  · split at hmem
    · simp only [decoderRecords, List.mem_singleton] at hmem
      rw [hmem]
    · simp [decoderRecords] at hmem

theorem parseEntity_levels {Entity : Type} (g : NetworkGlobal)
    (serverErrorAttributes : List String) (factory : QJsonObject → Option Entity)
    (jsonObject : QJsonObject) (operationId : Nat) :
    ∀ record ∈ decoderRecords
        (parseEntity g serverErrorAttributes factory jsonObject operationId).2,
      record.2.level = Level.JsonServerError ∨ record.2.level = Level.JsonDataError := by
  intro record hmem
  cases hf : factory jsonObject with
  | some entity =>
    rw [parseEntity_records_some g serverErrorAttributes factory jsonObject operationId entity hf]
      at hmem
    simp at hmem
  | none =>
    obtain ⟨r, hr, hlevel, _⟩ :=
      parseEntity_records_none g serverErrorAttributes factory jsonObject operationId hf
    rw [hr, List.mem_singleton] at hmem
    rw [hmem]
    exact hlevel

theorem parseEntitiesListPrivate_levels {σ : Type} (g : NetworkGlobal)
    (serverErrorAttributes : List String) (fromJson : JsonParser) (reply : QNetworkReply)
    (jsonParser : List QJsonValue → σ → Bool × σ × List DecoderEffect) (operationId : Nat)
    (attributeName : String) (captured : σ) :
    ∀ record ∈ decoderRecords (parseEntitiesListPrivate g serverErrorAttributes fromJson reply
        jsonParser operationId attributeName captured).2.2,
      record.2.level ≠ Level.NoError ∨
      ∃ jsonArray, record ∈ decoderRecords (jsonParser jsonArray captured).2.2 := by
  intro record hmem
  simp only [parseEntitiesListPrivate] at hmem
  split at hmem
  · simp only [decoderRecords, List.mem_singleton] at hmem
    rw [hmem]
    exact Or.inl (fun h => Level.noConfusion h)
  · split at hmem
    · split at hmem
      · split at hmem
        · simp only [decoderRecords] at hmem
          exact Or.inr ⟨_, hmem⟩
        · split at hmem
          · simp only [decoderRecords, List.mem_singleton] at hmem
            rw [hmem]
            exact Or.inl (fun h => Level.noConfusion h)
          · simp [decoderRecords] at hmem
      · simp only [decoderRecords, List.mem_singleton] at hmem
        rw [hmem]
        exact Or.inl (fun h => Level.noConfusion h)
    · simp only [decoderRecords] at hmem
      exact Or.inr ⟨_, hmem⟩

/-- C11 (as stated) fails: the record that `parseEntityObject` emits for the
body `{}` has numeric code 0 although its level is JsonParseError and its
message is not empty. -/
theorem C11_counterexample_code_zero :
    decoderRecords (parseEntityObject sampleGlobal sampleDecoderParser
      (sampleReplyWithBody sampleBodyEmptyObject) 1).2
      = [(1, { level := Level.JsonParseError, code := 0, proofModuleCode := 300,
               proofErrorCode := 4, message := "JSON error: empty entity data",
               userFriendly := false })] ∧
    ¬ ((Level.JsonParseError = Level.NoError ↔ (0 : Int) = 0) ∧
       ((0 : Int) = 0 ↔ "JSON error: empty entity data" = "")) := by
  decide

/-- C11 (amended): every error record emitted by `replyFinished`,
`replyErrorOccurred`, `sslErrorsOccurred`, `abortRequest`, `clearReplies`,
`parseEntityObject`, `parseEntity`, `parseEntitiesListPrivate` (the records of
its callback apart) and `notifyAboutJsonParseError` has a level other than
NoError, and `RestApiError::reset` leaves level NoError, code 0 and an empty
message. So for every produced record level NoError implies code 0 and an
empty message; the converse implications are not claimed. -/
theorem C11_emitted_records_have_level (g : NetworkGlobal) :
    (∀ fromJson t operationId reply forceUserFriendly,
      ∀ record ∈ errorRecords (replyFinished g fromJson t operationId reply
        forceUserFriendly).2, record.2.level ≠ Level.NoError) ∧
    (∀ t operationId reply forceUserFriendly,
      ∀ record ∈ errorRecords (replyErrorOccurred g t operationId reply forceUserFriendly).2,
        record.2.level ≠ Level.NoError) ∧
    (∀ t operationId reply errors forceUserFriendly,
      ∀ record ∈ errorRecords (sslErrorsOccurred g t operationId reply errors
        forceUserFriendly).2, record.2.level ≠ Level.NoError) ∧
    (∀ isRunning t operationId,
      ∀ record ∈ errorRecords (abortRequest g isRunning t operationId).2,
        record.2.level ≠ Level.NoError) ∧
    (∀ t, ∀ record ∈ errorRecords (clearReplies g t).2, record.2.level ≠ Level.NoError) ∧
    (∀ fromJson reply operationId,
      ∀ record ∈ decoderRecords (parseEntityObject g fromJson reply operationId).2,
        record.2.level ≠ Level.NoError) ∧
    (∀ (Entity : Type) serverErrorAttributes (factory : QJsonObject → Option Entity) jsonObject
        operationId,
      ∀ record ∈ decoderRecords
          (parseEntity g serverErrorAttributes factory jsonObject operationId).2,
        record.2.level ≠ Level.NoError) ∧
    (∀ (σ : Type) serverErrorAttributes fromJson reply
        (jsonParser : List QJsonValue → σ → Bool × σ × List DecoderEffect) operationId
        attributeName captured,
      ∀ record ∈ decoderRecords (parseEntitiesListPrivate g serverErrorAttributes fromJson reply
          jsonParser operationId attributeName captured).2.2,
        record.2.level ≠ Level.NoError ∨
        ∃ jsonArray, record ∈ decoderRecords (jsonParser jsonArray captured).2.2) ∧
    (∀ operationId error,
      ∀ record ∈ decoderRecords (notifyAboutJsonParseError g operationId error),
        record.2.level ≠ Level.NoError) ∧
    (∀ e : RestApiError,
      e.reset.level = Level.NoError ∧ e.reset.code = 0 ∧ e.reset.message = "") := by
  refine ⟨?_, ?_, ?_, ?_, ?_, ?_, ?_, ?_, ?_, ?_⟩
  · intro fromJson t operationId reply forceUserFriendly record hmem
    rw [replyFinished_levels g fromJson t operationId reply forceUserFriendly record hmem]
    exact fun h => Level.noConfusion h
  · intro t operationId reply forceUserFriendly record hmem
    rw [replyErrorOccurred_levels g t operationId reply forceUserFriendly record hmem]
    exact fun h => Level.noConfusion h
  · intro t operationId reply errors forceUserFriendly record hmem
    rw [sslErrorsOccurred_levels g t operationId reply errors forceUserFriendly record hmem]
    exact fun h => Level.noConfusion h
  · intro isRunning t operationId record hmem
    rw [abortRequest_levels g isRunning t operationId record hmem]
    exact fun h => Level.noConfusion h
  · intro t record hmem
    rw [clearReplies_levels g t record hmem]
    exact fun h => Level.noConfusion h
  · intro fromJson reply operationId record hmem
    rw [parseEntityObject_levels g fromJson reply operationId record hmem]
    exact fun h => Level.noConfusion h
  · intro Entity serverErrorAttributes factory jsonObject operationId record hmem
    rcases parseEntity_levels g serverErrorAttributes factory jsonObject operationId record hmem
      with h | h <;> rw [h] <;> exact fun h => Level.noConfusion h
  · intro σ serverErrorAttributes fromJson reply jsonParser operationId attributeName captured
    exact parseEntitiesListPrivate_levels g serverErrorAttributes fromJson reply jsonParser
      operationId attributeName captured
  · intro operationId error record hmem
    simp only [notifyAboutJsonParseError, decoderRecords, List.mem_singleton] at hmem
    rw [hmem]
    exact fun h => Level.noConfusion h
  · intro e
    exact ⟨rfl, rfl, rfl⟩

theorem C11_emitted_records_have_level_witness :
    ((1, ({ level := Level.JsonParseError, code := 0, proofModuleCode := 300,
            proofErrorCode := 4, message := "JSON error: empty entity data",
            userFriendly := false } : RestApiError)) ∈
      decoderRecords (parseEntityObject sampleGlobal sampleDecoderParser
        (sampleReplyWithBody sampleBodyEmptyObject) 1).2) ∧
    Level.JsonParseError ≠ Level.NoError ∧
    (canceledError sampleGlobal).reset.code = 0 :=
  ⟨by decide,
   (C11_emitted_records_have_level sampleGlobal).2.2.2.2.2.1 sampleDecoderParser
      (sampleReplyWithBody sampleBodyEmptyObject) 1
      (1, { level := Level.JsonParseError, code := 0, proofModuleCode := 300,
            proofErrorCode := 4, message := "JSON error: empty entity data",
            userFriendly := false }) (by decide),
   ((C11_emitted_records_have_level sampleGlobal).2.2.2.2.2.2.2.2.2
      (canceledError sampleGlobal)).2.1⟩

theorem parseEntity.withCache_absent {Key Fields : Type} [DecidableEq Key] (g : NetworkGlobal)
    (serverErrorAttributes : List String) (factory : QJsonObject → Option Fields)
    (cacheKey : Fields → Key) (updateFrom : Fields → Fields → Fields)
    (store : EntityStore Key Fields) (jsonObject : QJsonObject) (operationId : Nat)
    (fields : Fields) (hf : factory jsonObject = some fields)
    (habsent : store.cache.find? (fun c => decide (c.1 = cacheKey fields)) = none) :
    parseEntity.withCache g serverErrorAttributes factory cacheKey updateFrom store jsonObject
        operationId =
      (some store.instances.length,
        { instances := store.instances ++ [fields],
          cache := (cacheKey fields, store.instances.length) :: store.cache },
        [DecoderEffect.fromJson jsonObject]) := by
  simp [parseEntity.withCache, parseEntity, hf, ObjectsCache.add, habsent]

theorem parseEntity.withCache_present {Key Fields : Type} [DecidableEq Key] (g : NetworkGlobal)
    (serverErrorAttributes : List String) (factory : QJsonObject → Option Fields)
    (cacheKey : Fields → Key) (updateFrom : Fields → Fields → Fields)
    (store : EntityStore Key Fields) (jsonObject : QJsonObject) (operationId : Nat)
    (fields old : Fields) (c : Key × Nat) (hf : factory jsonObject = some fields)
    (hpresent : store.cache.find? (fun c => decide (c.1 = cacheKey fields)) = some c)
    (hold : store.instances[c.2]? = some old) :
    parseEntity.withCache g serverErrorAttributes factory cacheKey updateFrom store jsonObject
        operationId =
      (some c.2,
        { instances := (store.instances ++ [fields]).set c.2 (updateFrom old fields),
          cache := store.cache },
        [DecoderEffect.fromJson jsonObject,
         DecoderEffect.updateFrom c.2 store.instances.length]) := by
  have hlt : c.2 < store.instances.length := by
    rcases Nat.lt_or_ge c.2 store.instances.length with h | h
    · exact h
    · rw [List.getElem?_eq_none h] at hold
      exact Option.noConfusion hold
  have hne : store.instances.length ≠ c.2 := by omega
  have hget : (store.instances ++ [fields])[c.2]? = some old := by
    rw [List.getElem?_append_left hlt]
    exact hold
  simp only [parseEntity.withCache, parseEntity, hf, ObjectsCache.add, hpresent]
  rw [if_pos hne]
  simp only [hget]
  rfl

theorem getElem?_set_snoc_self {α : Type} (l : List α) (b u : α) (i : Nat)
    (hi : i < l.length) : ((l ++ [b]).set i u)[i]? = some u := by
  rw [List.getElem?_set_self]
  simp
  omega

theorem getElem?_set_snoc_last {α : Type} (l : List α) (b u : α) (i : Nat)
    (hi : i < l.length) : ((l ++ [b]).set i u)[l.length]? = some b := by
  have hne : i ≠ l.length := by omega
  rw [List.getElem?_set_ne hne]
  simp

/-- C19: two successive successful decodes through `parseEntity` with a cache,
whose freshly decoded entities have the same key, return the same instance
(the one the first decode stored, when the key was not cached before);
`updateFrom` is called on that instance with the second decoded entity, and
afterwards its fields are what `updateFrom` makes of them, which is the fields
of the second decode when `updateFrom` takes over every field. The cache is
`ObjectsCache.add` as described: it returns the instance already stored for
the key when there is one and otherwise stores and returns the new one. -/
theorem C19_cache_merge (Key Fields : Type) [DecidableEq Key] (g : NetworkGlobal)
    (serverErrorAttributes : List String) (factory : QJsonObject → Option Fields)
    (cacheKey : Fields → Key) (updateFrom : Fields → Fields → Fields)
    (store : EntityStore Key Fields) (first second : QJsonObject) (operationId next : Nat)
    (fields fresh : Fields) (hwf : store.WellFormed)
    (hfirst : factory first = some fields) (hsecond : factory second = some fresh)
    (hkey : cacheKey fields = cacheKey fresh) :
    ∃ canonical merged,
      (parseEntity.withCache g serverErrorAttributes factory cacheKey updateFrom store first
        operationId).1 = some canonical ∧
      (parseEntity.withCache g serverErrorAttributes factory cacheKey updateFrom store first
        operationId).2.1.instances[canonical]? = some merged ∧
      (parseEntity.withCache g serverErrorAttributes factory cacheKey updateFrom
        (parseEntity.withCache g serverErrorAttributes factory cacheKey updateFrom store first
          operationId).2.1 second next).1 = some canonical ∧
      updateCalls (parseEntity.withCache g serverErrorAttributes factory cacheKey updateFrom
        (parseEntity.withCache g serverErrorAttributes factory cacheKey updateFrom store first
          operationId).2.1 second next).2.2 = [(canonical, store.instances.length + 1)] ∧
      (parseEntity.withCache g serverErrorAttributes factory cacheKey updateFrom
        (parseEntity.withCache g serverErrorAttributes factory cacheKey updateFrom store first
          operationId).2.1 second next).2.1.instances[store.instances.length + 1]?
        = some fresh ∧
      (parseEntity.withCache g serverErrorAttributes factory cacheKey updateFrom
        (parseEntity.withCache g serverErrorAttributes factory cacheKey updateFrom store first
          operationId).2.1 second next).2.1.instances[canonical]?
        = some (updateFrom merged fresh) ∧
      ((∀ a b, updateFrom a b = b) →
        (parseEntity.withCache g serverErrorAttributes factory cacheKey updateFrom
          (parseEntity.withCache g serverErrorAttributes factory cacheKey updateFrom store first
            operationId).2.1 second next).2.1.instances[canonical]? = some fresh) ∧
      (store.cache.find? (fun c => decide (c.1 = cacheKey fields)) = none →
        canonical = store.instances.length ∧ merged = fields) := by
  cases hfind : store.cache.find? (fun c => decide (c.1 = cacheKey fields)) with
  | none =>
    have hone := parseEntity.withCache_absent g serverErrorAttributes factory cacheKey updateFrom
      store first operationId fields hfirst hfind
    have hget : (store.instances ++ [fields])[store.instances.length]? = some fields := by
      simp
    have htwo := parseEntity.withCache_present g serverErrorAttributes factory cacheKey
      updateFrom
      { instances := store.instances ++ [fields],
        cache := (cacheKey fields, store.instances.length) :: store.cache }
      second next fresh fields (cacheKey fields, store.instances.length) hsecond
      (by simp [List.find?, hkey]) hget
    refine ⟨store.instances.length, fields, ?_, ?_, ?_, ?_, ?_, ?_, ?_, ?_⟩
    · rw [hone]
    · rw [hone]; exact hget
    · rw [hone, htwo]
    · rw [hone, htwo]; simp [updateCalls]
    · rw [hone, htwo]
      have h := getElem?_set_snoc_last (store.instances ++ [fields]) fresh
        (updateFrom fields fresh) store.instances.length (by simp)
      simpa using h
    · rw [hone, htwo]
      exact getElem?_set_snoc_self (store.instances ++ [fields]) fresh
        (updateFrom fields fresh) store.instances.length (by simp)
    · intro hcopy
      rw [hone, htwo]
      have h := getElem?_set_snoc_self (store.instances ++ [fields]) fresh
        (updateFrom fields fresh) store.instances.length (by simp)
      rw [hcopy fields fresh] at h
      rw [hcopy fields fresh]
      exact h
    · intro _
      exact ⟨rfl, rfl⟩
  | some c =>
    have hc : c ∈ store.cache := List.mem_of_find?_eq_some hfind
    have hlt : c.2 < store.instances.length := hwf c hc
    have hold : store.instances[c.2]? = some (store.instances[c.2]) :=
      List.getElem?_eq_getElem hlt
    have hone := parseEntity.withCache_present g serverErrorAttributes factory cacheKey
      updateFrom store first operationId fields (store.instances[c.2]) c hfirst hfind hold
    have hlen : ((store.instances ++ [fields]).set c.2
        (updateFrom (store.instances[c.2]) fields)).length = store.instances.length + 1 := by
      simp
    have hget : ((store.instances ++ [fields]).set c.2
        (updateFrom (store.instances[c.2]) fields))[c.2]?
        = some (updateFrom (store.instances[c.2]) fields) := by
      rw [List.getElem?_set_self]
      simp
      omega
    have htwo := parseEntity.withCache_present g serverErrorAttributes factory cacheKey
      updateFrom
      { instances := (store.instances ++ [fields]).set c.2
          (updateFrom (store.instances[c.2]) fields),
        cache := store.cache }
      second next fresh (updateFrom (store.instances[c.2]) fields) c hsecond
      (by rw [← hkey]; exact hfind) hget
    refine ⟨c.2, updateFrom (store.instances[c.2]) fields, ?_, ?_, ?_, ?_, ?_, ?_, ?_, ?_⟩
    · rw [hone]
    · rw [hone]; exact hget
    · rw [hone, htwo]
    · rw [hone, htwo]; simp [updateCalls]
    · rw [hone, htwo]
      have h := getElem?_set_snoc_last ((store.instances ++ [fields]).set c.2
        (updateFrom (store.instances[c.2]) fields)) fresh
        (updateFrom (updateFrom (store.instances[c.2]) fields) fresh) c.2 (by rw [hlen]; omega)
      rw [hlen] at h
      exact h
    · rw [hone, htwo]
      exact getElem?_set_snoc_self _ fresh _ c.2 (by rw [hlen]; omega)
    · intro hcopy
      rw [hone, htwo]
      have h := getElem?_set_snoc_self ((store.instances ++ [fields]).set c.2
        (updateFrom (store.instances[c.2]) fields)) fresh
        (updateFrom (updateFrom (store.instances[c.2]) fields) fresh) c.2 (by rw [hlen]; omega)
      rw [hcopy (updateFrom (store.instances[c.2]) fields) fresh] at h
      rw [hcopy (updateFrom (store.instances[c.2]) fields) fresh]
      exact h
    · intro h
      exact Option.noConfusion h

theorem retriable_ne_noError (code : Int) (h : code ∈ RETRIABLE_NETWORK_ERRORS) :
    code ≠ QNetworkReply.NoError := by
  intro h0
  rw [h0] at h
  revert h
  decide

theorem requestQuasiOAuth2token_exhausted (fromJson : JsonParser) (transport : Nat → TokenReply)
    (now : Nat → Int) (retries : Int) (n : Nat) (d : RestClientPrivate)
    (hfail : (transport n).error ∈ RETRIABLE_NETWORK_ERRORS) (hr : ¬ retries > 0) :
    requestQuasiOAuth2token fromJson transport now retries n d =
      (d, [AuthEffect.post retries,
           AuthEffect.authenticationErrorOccurred
             "Can't connect to Scissorhands service.\nPlease try again."]) := by
  have hne := retriable_ne_noError _ hfail
  rw [requestQuasiOAuth2token]
  simp [requestQuasiOAuth2token.onError, requestQuasiOAuth2token.onFinished, hne, hr]

theorem requestQuasiOAuth2token_retry (fromJson : JsonParser) (transport : Nat → TokenReply)
    (now : Nat → Int) (retries : Int) (n : Nat) (d : RestClientPrivate)
    (hfail : (transport n).error ∈ RETRIABLE_NETWORK_ERRORS) (hr : retries > 0) :
    requestQuasiOAuth2token fromJson transport now retries n d =
      ((requestQuasiOAuth2token fromJson transport now (retries - 1) (n + 1) d).1,
        AuthEffect.post retries ::
          AuthEffect.singleShot OAUTH_TOKEN_RETRY_TIMEOUT (retries - 1) ::
          (requestQuasiOAuth2token fromJson transport now (retries - 1) (n + 1) d).2) := by
  have hne := retriable_ne_noError _ hfail
  rw [requestQuasiOAuth2token]
  simp [requestQuasiOAuth2token.onError, requestQuasiOAuth2token.onFinished, hne, hr, hfail]

theorem requestQuasiOAuth2token_chain (fromJson : JsonParser) (transport : Nat → TokenReply)
    (now : Nat → Int) (hfail : ∀ n, (transport n).error ∈ RETRIABLE_NETWORK_ERRORS)
    (k : Nat) :
    ∀ (n : Nat) (d : RestClientPrivate),
      requestQuasiOAuth2token fromJson transport now (k : Int) n d =
        (d, (List.range k).reverse.flatMap
              (fun i => [AuthEffect.post ((i : Int) + 1),
                         AuthEffect.singleShot OAUTH_TOKEN_RETRY_TIMEOUT (i : Int)]) ++
            [AuthEffect.post 0,
             AuthEffect.authenticationErrorOccurred
               "Can't connect to Scissorhands service.\nPlease try again."]) := by
  induction k with
  | zero =>
    intro n d
    rw [requestQuasiOAuth2token_exhausted fromJson transport now _ n d (hfail n) (by simp)]
    rfl
  | succ k ih =>
    intro n d
    have hpos : ((k + 1 : Nat) : Int) > 0 := by omega
    have hsub : ((k + 1 : Nat) : Int) - 1 = (k : Int) := by omega
    rw [requestQuasiOAuth2token_retry fromJson transport now _ n d (hfail n) hpos, hsub,
      ih (n + 1) d, List.range_succ, List.reverse_append]
    simp

theorem C19_cache_merge_witness :
    sampleStore.WellFormed ∧
    sampleFactory sampleObjectOld = some { id := 7, name := "old" } ∧
    sampleFactory sampleObjectNew = some { id := 7, name := "new" } ∧
    ∃ canonical merged,
      (parseEntity.withCache sampleGlobal [] sampleFactory sampleCacheKey sampleUpdateFrom
        sampleStore sampleObjectOld 1).1 = some canonical ∧
      (parseEntity.withCache sampleGlobal [] sampleFactory sampleCacheKey sampleUpdateFrom
        sampleStore sampleObjectOld 1).2.1.instances[canonical]? = some merged ∧
      (parseEntity.withCache sampleGlobal [] sampleFactory sampleCacheKey sampleUpdateFrom
        (parseEntity.withCache sampleGlobal [] sampleFactory sampleCacheKey sampleUpdateFrom
          sampleStore sampleObjectOld 1).2.1 sampleObjectNew 2).1 = some canonical ∧
      (parseEntity.withCache sampleGlobal [] sampleFactory sampleCacheKey sampleUpdateFrom
        (parseEntity.withCache sampleGlobal [] sampleFactory sampleCacheKey sampleUpdateFrom
          sampleStore sampleObjectOld 1).2.1 sampleObjectNew 2).2.1.instances[canonical]?
        = some { id := 7, name := "new" } :=
  ⟨fun c hc => absurd hc (List.not_mem_nil c), by decide, by decide,
   (C19_cache_merge Int SampleEntity sampleGlobal [] sampleFactory sampleCacheKey
      sampleUpdateFrom sampleStore sampleObjectOld sampleObjectNew 1 2
      { id := 7, name := "old" } { id := 7, name := "new" }
      (fun c hc => absurd hc (List.not_mem_nil c)) (by decide) (by decide) rfl).elim
     (fun canonical h => h.elim (fun merged h =>
       ⟨canonical, merged, h.1, h.2.1, h.2.2.1, h.2.2.2.2.2.2.1 (fun _ _ => rfl)⟩))⟩

theorem tokenRequests_chain (k : Nat) (tail : List AuthEffect) :
    tokenRequests ((List.range k).reverse.flatMap
        (fun i => [AuthEffect.post ((i : Int) + 1),
                   AuthEffect.singleShot OAUTH_TOKEN_RETRY_TIMEOUT (i : Int)]) ++ tail)
      = k + tokenRequests tail := by
  induction k with
  | zero => simp
  | succ k ih =>
    simp only [tokenRequests] at ih ⊢
    rw [List.range_succ, List.reverse_append]
    simp only [List.reverse_cons, List.reverse_nil, List.nil_append, List.singleton_append,
      List.flatMap_cons, List.cons_append, List.countP_cons, ih]
    simp
    omega

theorem authenticationErrors_chain (k : Nat) (tail : List AuthEffect) :
    authenticationErrors ((List.range k).reverse.flatMap
        (fun i => [AuthEffect.post ((i : Int) + 1),
                   AuthEffect.singleShot OAUTH_TOKEN_RETRY_TIMEOUT (i : Int)]) ++ tail)
      = authenticationErrors tail := by
  induction k with
  | zero => simp
  | succ k ih =>
    simp only [authenticationErrors] at ih ⊢
    rw [List.range_succ, List.reverse_append]
    simp only [List.reverse_cons, List.reverse_nil, List.nil_append, List.singleton_append,
      List.flatMap_cons, List.cons_append, List.countP_cons, ih]
    simp

/-- C20: when every token request fails with a retriable transport error,
`requestQuasiOAuth2token` with budget `r >= 0` issues exactly `r + 1` token
requests and then stops, and emits exactly one `authenticationErrorOccurred`,
as its last effect, after the last request; no `authenticationSucceed` is
emitted and the token state is unchanged. With the default budget 4 that is 5
requests (the first attempt and 4 retries, each scheduled by a 2 second single
shot) and one authentication error on the fifth failure. -/
theorem C20_token_retry_budget (fromJson : JsonParser) (transport : Nat → TokenReply)
    (now : Nat → Int) (hfail : ∀ n, (transport n).error ∈ RETRIABLE_NETWORK_ERRORS)
    (retries : Int) (hr : 0 ≤ retries) (n : Nat) (d : RestClientPrivate) :
    (requestQuasiOAuth2token fromJson transport now retries n d).1 = d ∧
    tokenRequests (requestQuasiOAuth2token fromJson transport now retries n d).2
      = retries.toNat + 1 ∧
    authenticationErrors (requestQuasiOAuth2token fromJson transport now retries n d).2 = 1 ∧
    (requestQuasiOAuth2token fromJson transport now retries n d).2.getLast? =
      some (AuthEffect.authenticationErrorOccurred
        "Can't connect to Scissorhands service.\nPlease try again.") ∧
    AuthEffect.authenticationSucceed ∉
      (requestQuasiOAuth2token fromJson transport now retries n d).2 ∧
    (requestQuasiOAuth2token fromJson transport now 4 n d).2 =
      [AuthEffect.post 4, AuthEffect.singleShot 2000 3,
       AuthEffect.post 3, AuthEffect.singleShot 2000 2,
       AuthEffect.post 2, AuthEffect.singleShot 2000 1,
       AuthEffect.post 1, AuthEffect.singleShot 2000 0,
       AuthEffect.post 0,
       AuthEffect.authenticationErrorOccurred
         "Can't connect to Scissorhands service.\nPlease try again."] := by
  have hchain := requestQuasiOAuth2token_chain fromJson transport now hfail
  have hcast : ((retries.toNat : Nat) : Int) = retries := Int.toNat_of_nonneg hr
  have heq := hchain retries.toNat n d
  rw [hcast] at heq
  refine ⟨?_, ?_, ?_, ?_, ?_, ?_⟩
  · rw [heq]
  · rw [heq, tokenRequests_chain]
    simp [tokenRequests]
  · rw [heq, authenticationErrors_chain]
    simp [authenticationErrors]
  · rw [heq]
    simp
  · rw [heq]
    simp
  · have h4 := hchain 4 n d
    simp only [Nat.cast_ofNat] at h4
    rw [h4]
    rfl

theorem C20_token_retry_budget_witness :
    (∀ n, (sampleRefusingTransport n).error ∈ RETRIABLE_NETWORK_ERRORS) ∧ (0 : Int) ≤ 4 ∧
    tokenRequests (requestQuasiOAuth2token sampleDecoderParser sampleRefusingTransport
      (fun n => 2 * n) 4 0 sampleTokenState).2 = 5 ∧
    authenticationErrors (requestQuasiOAuth2token sampleDecoderParser sampleRefusingTransport
      (fun n => 2 * n) 4 0 sampleTokenState).2 = 1 :=
  have h := C20_token_retry_budget sampleDecoderParser sampleRefusingTransport
    (fun n => 2 * n)
    (fun _ => (by decide : QNetworkReply.ConnectionRefusedError ∈ RETRIABLE_NETWORK_ERRORS))
    4 (by decide) 0 sampleTokenState
  ⟨fun _ => (by decide : QNetworkReply.ConnectionRefusedError ∈ RETRIABLE_NETWORK_ERRORS),
   by decide, h.2.1, h.2.2.1⟩

theorem requestQuasiOAuth2token_unfold (fromJson : JsonParser) (transport : Nat → TokenReply)
    (now : Nat → Int) (retries : Int) (n : Nat) (d : RestClientPrivate) :
    requestQuasiOAuth2token fromJson transport now retries n d =
      if (transport n).error ≠ QNetworkReply.NoError ∧
          (transport n).error ∈ RETRIABLE_NETWORK_ERRORS ∧ retries > 0 then
        ((requestQuasiOAuth2token fromJson transport now (retries - 1) (n + 1)
            (requestQuasiOAuth2token.once fromJson retries (transport n) (now n) d).1).1,
          (requestQuasiOAuth2token.once fromJson retries (transport n) (now n) d).2 ++
            (requestQuasiOAuth2token fromJson transport now (retries - 1) (n + 1)
              (requestQuasiOAuth2token.once fromJson retries (transport n) (now n) d).1).2)
      else requestQuasiOAuth2token.once fromJson retries (transport n) (now n) d := by
  rw [requestQuasiOAuth2token]
  simp only [requestQuasiOAuth2token.once, List.cons_append, List.append_assoc]

/-- C21: one token request with remaining budget `r`. A transport error of the
retriable set with `r > 0` emits no event and schedules exactly one retry,
with budget `r - 1`, which the chain then runs. A transport error outside the
retriable set emits exactly one `authenticationErrorOccurred` and schedules
nothing, whatever `r` is. A reply without transport error whose body is not
valid JSON, or whose `access_token` is missing or empty, emits exactly one
`authenticationErrorOccurred` and schedules nothing. A reply without transport
error with a non-empty `access_token` emits exactly one
`authenticationSucceed`, stores the token and sets the expiry to the issue
time plus `expires_in` (as `toInt` reads it) seconds. -/
theorem C21_token_request_outcomes (fromJson : JsonParser) (retries : Int) (reply : TokenReply)
    (expiredTime : Int) (d : RestClientPrivate) :
    (reply.error ∈ RETRIABLE_NETWORK_ERRORS → retries > 0 →
      requestQuasiOAuth2token.once fromJson retries reply expiredTime d =
        (d, [AuthEffect.post retries,
             AuthEffect.singleShot OAUTH_TOKEN_RETRY_TIMEOUT (retries - 1)]) ∧
      authenticationEvents
        (requestQuasiOAuth2token.once fromJson retries reply expiredTime d).2 = [] ∧
      scheduledRetries
        (requestQuasiOAuth2token.once fromJson retries reply expiredTime d).2
          = [retries - 1]) ∧
    (reply.error ≠ QNetworkReply.NoError → reply.error ∉ RETRIABLE_NETWORK_ERRORS →
      requestQuasiOAuth2token.once fromJson retries reply expiredTime d =
        (d, [AuthEffect.post retries,
             AuthEffect.authenticationErrorOccurred
               "Can't connect to Scissorhands service.\nPlease try again."])) ∧
    (reply.error = QNetworkReply.NoError → (fromJson reply.body).1.error ≠ 0 →
      requestQuasiOAuth2token.once fromJson retries reply expiredTime d =
        (d, [AuthEffect.post retries,
             AuthEffect.authenticationErrorOccurred
               "Wrong Scissorhands service answer.\nPlease check your host settings."])) ∧
    (reply.error = QNetworkReply.NoError → (fromJson reply.body).1.error = 0 →
      (QJsonObject.value (fromJson reply.body).2.object "access_token").toString = "" →
      (requestQuasiOAuth2token.once fromJson retries reply expiredTime d).2 =
        [AuthEffect.post retries,
         AuthEffect.authenticationErrorOccurred
           "Wrong Scissorhands service authentication.\nPlease check your authentication settings."]) ∧
    (reply.error = QNetworkReply.NoError → (fromJson reply.body).1.error = 0 →
      (QJsonObject.value (fromJson reply.body).2.object "access_token").toString ≠ "" →
      requestQuasiOAuth2token.once fromJson retries reply expiredTime d =
        ({ quasiOAuth2Token :=
             (QJsonObject.value (fromJson reply.body).2.object "access_token").toString,
           quasiOAuth2TokenExpiredDateTime := expiredTime +
             (QJsonObject.value (fromJson reply.body).2.object "expires_in").toInt },
         [AuthEffect.post retries, AuthEffect.authenticationSucceed]) ∧
      (∀ seconds : Int, -(2 ^ 31) ≤ seconds → seconds < 2 ^ 31 →
        QJsonObject.value (fromJson reply.body).2.object "expires_in"
          = QJsonValue.double (seconds : ℚ) →
        (requestQuasiOAuth2token.once fromJson retries reply expiredTime
          d).1.quasiOAuth2TokenExpiredDateTime = expiredTime + seconds)) ∧
    (∀ (transport : Nat → TokenReply) (now : Nat → Int) (n : Nat),
      transport n = reply → now n = expiredTime →
      (reply.error ∈ RETRIABLE_NETWORK_ERRORS → retries > 0 →
        requestQuasiOAuth2token fromJson transport now retries n d =
          ((requestQuasiOAuth2token fromJson transport now (retries - 1) (n + 1) d).1,
            AuthEffect.post retries ::
              AuthEffect.singleShot OAUTH_TOKEN_RETRY_TIMEOUT (retries - 1) ::
              (requestQuasiOAuth2token fromJson transport now (retries - 1) (n + 1) d).2)) ∧
      (¬ (reply.error ∈ RETRIABLE_NETWORK_ERRORS ∧ retries > 0) →
        requestQuasiOAuth2token fromJson transport now retries n d =
          requestQuasiOAuth2token.once fromJson retries reply expiredTime d)) := by
  refine ⟨?_, ?_, ?_, ?_, ?_, ?_⟩
  · intro hret hpos
    have hne := retriable_ne_noError _ hret
    have h : requestQuasiOAuth2token.once fromJson retries reply expiredTime d =
        (d, [AuthEffect.post retries,
             AuthEffect.singleShot OAUTH_TOKEN_RETRY_TIMEOUT (retries - 1)]) := by
      simp [requestQuasiOAuth2token.once, requestQuasiOAuth2token.onError,
        requestQuasiOAuth2token.onFinished, hne, hret, hpos]
    rw [h]
    exact ⟨rfl, rfl, rfl⟩
  · intro hne hnot
    simp [requestQuasiOAuth2token.once, requestQuasiOAuth2token.onError,
      requestQuasiOAuth2token.onFinished, hne, hnot]
  · intro hno herr
    simp [requestQuasiOAuth2token.once, requestQuasiOAuth2token.onFinished, hno, herr]
  · intro hno herr htoken
    simp [requestQuasiOAuth2token.once, requestQuasiOAuth2token.onFinished, hno, herr, htoken]
  · intro hno herr htoken
    have h : requestQuasiOAuth2token.once fromJson retries reply expiredTime d =
        ({ quasiOAuth2Token :=
             (QJsonObject.value (fromJson reply.body).2.object "access_token").toString,
           quasiOAuth2TokenExpiredDateTime := expiredTime +
             (QJsonObject.value (fromJson reply.body).2.object "expires_in").toInt },
         [AuthEffect.post retries, AuthEffect.authenticationSucceed]) := by
      simp [requestQuasiOAuth2token.once, requestQuasiOAuth2token.onFinished, hno, herr, htoken]
    refine ⟨h, ?_⟩
    intro seconds hlo hhi hvalue
    rw [h, hvalue]
    have hcond : (seconds : ℚ).den = 1 ∧ -(2 ^ 31) ≤ seconds ∧ seconds < 2 ^ 31 :=
      ⟨Rat.den_intCast seconds, hlo, hhi⟩
    simp only [QJsonValue.toInt, Rat.num_intCast]
    rw [if_pos hcond]
  · intro transport now n htransport hnow
    constructor
    · intro hret hpos
      rw [← htransport] at hret
      have h := requestQuasiOAuth2token_retry fromJson transport now retries n d hret hpos
      exact h
    · intro hnot
      rw [requestQuasiOAuth2token_unfold, htransport, hnow]
      rw [if_neg (fun h => hnot ⟨h.2.1, h.2.2⟩)]

theorem C21_token_request_outcomes_witness :
    (QNetworkReply.ConnectionRefusedError ∈ RETRIABLE_NETWORK_ERRORS ∧ (4 : Int) > 0 ∧
      requestQuasiOAuth2token.once sampleTokenParser 4
          { error := QNetworkReply.ConnectionRefusedError, body := "" } 100 sampleTokenState =
        (sampleTokenState, [AuthEffect.post 4, AuthEffect.singleShot 2000 3])) ∧
    (requestQuasiOAuth2token.once sampleTokenParser 4
        { error := QNetworkReply.OperationCanceledError, body := "" } 100 sampleTokenState =
      (sampleTokenState,
        [AuthEffect.post 4,
         AuthEffect.authenticationErrorOccurred
           "Can't connect to Scissorhands service.\nPlease try again."])) ∧
    (requestQuasiOAuth2token.once sampleTokenParser 4
        { error := QNetworkReply.NoError, body := sampleBodyToken } 100 sampleTokenState =
      ({ quasiOAuth2Token := "abc", quasiOAuth2TokenExpiredDateTime := 3700 },
        [AuthEffect.post 4, AuthEffect.authenticationSucceed])) :=
  ⟨⟨by decide, by decide,
    ((C21_token_request_outcomes sampleTokenParser 4
      { error := QNetworkReply.ConnectionRefusedError, body := "" } 100 sampleTokenState).1
        (by decide) (by decide)).1⟩,
   (C21_token_request_outcomes sampleTokenParser 4
      { error := QNetworkReply.OperationCanceledError, body := "" } 100 sampleTokenState).2.1
        (by decide) (by decide),
   ((C21_token_request_outcomes sampleTokenParser 4
      { error := QNetworkReply.NoError, body := sampleBodyToken } 100
      sampleTokenState).2.2.2.2.1 (by decide) (by decide) (by decide)).1⟩

/-- C22 (as stated) fails: the transport error 499 (`UnknownServerError`) on a
reply without HTTP status and the TLS error -1 (`UnspecifiedError`) both get
the numeric code 1499. -/
theorem C22_counterexample_bands_meet :
    errorRecords (replyErrorOccurred sampleGlobal sampleTable 1 sampleReplyUnknownServer
        false).2
      = [(1, { level := Level.ClientError, code := 1499, proofModuleCode := 300,
               proofErrorCode := 1, message := "Unknown error", userFriendly := false })] ∧
    errorRecords (sslErrorsOccurred sampleGlobal sampleTable 1 sampleReply404
        sampleSslUnspecified false).2
      = [(1, { level := Level.ClientError, code := 1499, proofModuleCode := 300,
               proofErrorCode := 3, message := "Unknown error", userFriendly := false })] ∧
    NETWORK_ERROR_OFFSET + 499 = NETWORK_SSL_ERROR_OFFSET + (-1) := by
  decide

/-- C22 (amended): for every transport error code `t` in 1..499, every TLS
error code `s` other than NoError (-1 or positive) and every HTTP status `h`
in 100..599, `h` differs from `1000 + t` and from `1500 + s`, and `1000 + t`
differs from `1500 + s` except for the one pair `t = 499`, `s = -1`;
`clientNetworkErrorOffset() = 1000 < clientSslErrorOffset() = 1500`. -/
theorem C22_code_bands (t s h : Int) (ht : 1 ≤ t ∧ t ≤ 499) (hs : s = -1 ∨ 0 < s)
    (hh : 100 ≤ h ∧ h ≤ 599) :
    h ≠ NETWORK_ERROR_OFFSET + t ∧ h ≠ NETWORK_SSL_ERROR_OFFSET + s ∧
    (NETWORK_ERROR_OFFSET + t = NETWORK_SSL_ERROR_OFFSET + s ↔ t = 499 ∧ s = -1) ∧
    clientNetworkErrorOffset = 1000 ∧ clientSslErrorOffset = 1500 ∧
    clientNetworkErrorOffset < clientSslErrorOffset := by
  refine ⟨?_, ?_, ⟨?_, ?_⟩, rfl, rfl, by decide⟩
  · simp only [NETWORK_ERROR_OFFSET]; omega
  · simp only [NETWORK_SSL_ERROR_OFFSET]; omega
  · simp only [NETWORK_ERROR_OFFSET, NETWORK_SSL_ERROR_OFFSET]; intro h; omega
  · simp only [NETWORK_ERROR_OFFSET, NETWORK_SSL_ERROR_OFFSET]; intro h; omega

theorem C22_code_bands_witness :
    ((1 : Int) ≤ 3 ∧ (3 : Int) ≤ 499) ∧ ((9 : Int) = -1 ∨ (0 : Int) < 9) ∧
    ((100 : Int) ≤ 404 ∧ (404 : Int) ≤ 599) ∧
    (404 : Int) ≠ NETWORK_ERROR_OFFSET + 3 ∧ (404 : Int) ≠ NETWORK_SSL_ERROR_OFFSET + 9 :=
  have h := C22_code_bands 3 9 404 (by decide) (by decide) (by decide)
  ⟨by decide, by decide, by decide, h.1, h.2.1⟩

/-- C28 (as stated) fails: the TLS record that `sslErrorsOccurred` emits for
the TLS error 9 satisfies `isNetworkError()`, and `toNetworkError()` returns
509 for it. -/
theorem C28_counterexample_tls_record :
    errorRecords (sslErrorsOccurred sampleGlobal sampleTable 1 sampleReply404 sampleSslErrors
        false).2
      = [(1, { level := Level.ClientError, code := 1509, proofModuleCode := 300,
               proofErrorCode := 3, message := "The certificate is self-signed",
               userFriendly := false })] ∧
    RestApiError.isNetworkError
      { level := Level.ClientError, code := 1509, proofModuleCode := 300,
        proofErrorCode := 3, message := "The certificate is self-signed",
        userFriendly := false } = true ∧
    RestApiError.toNetworkError
      { level := Level.ClientError, code := 1509, proofModuleCode := 300,
        proofErrorCode := 3, message := "The certificate is self-signed",
        userFriendly := false } = 509 := by
  decide

/-- C28 (amended): for every transport error code `t >= 1` that passes the gate
of `replyErrorOccurred`, on a reply without HTTP status, the emitted record
satisfies `isNetworkError()` and `toNetworkError()` returns `t`; for every
record whose level is not ClientError or whose code is at most 1000,
`isNetworkError()` is false and `toNetworkError()` returns
`UnknownNetworkError`; `isNetworkError()` holds exactly for the ClientError
records with a code above 1000, which includes the TLS records of
`sslErrorsOccurred` (for a TLS error `s > -500` the record satisfies
`isNetworkError()` and `toNetworkError()` returns `500 + s`). -/
theorem C28_network_error_accessors (g : NetworkGlobal) :
    (∀ t operationId reply forceUserFriendly,
      reply.error ≥ 1 → reply.httpStatusCode = 0 →
      (reply.error < 200 ∨ reply.error.tmod 100 = 99) →
      ∃ record,
        errorRecords (replyErrorOccurred g t operationId reply forceUserFriendly).2
          = [(operationId, record)] ∧
        record.isNetworkError = true ∧ record.toNetworkError = reply.error) ∧
    (∀ e : RestApiError, e.level ≠ Level.ClientError ∨ e.code ≤ 1000 →
      e.isNetworkError = false ∧ e.toNetworkError = QNetworkReply.UnknownNetworkError) ∧
    (∀ e : RestApiError,
      e.isNetworkError = true ↔ e.level = Level.ClientError ∧ e.code > 1000) ∧
    (∀ t operationId reply (error : QSslError) forceUserFriendly,
      error.error ≠ QSslError.NoError → error.error > -500 →
      ∃ record,
        errorRecords (sslErrorsOccurred g t operationId reply [error] forceUserFriendly).2
          = [(operationId, record)] ∧
        record.isNetworkError = true ∧ record.toNetworkError = 500 + error.error) := by
  refine ⟨?_, ?_, ?_, ?_⟩
  · intro t operationId reply forceUserFriendly ht hstatus hband
    have hgate : reply.error ≠ QNetworkReply.NoError ∧
        (reply.error < 200 ∨ reply.error.tmod 100 = 99) := by
      refine ⟨?_, hband⟩
      simp only [QNetworkReply.NoError]
      omega
    rw [replyErrorOccurred_fired g t operationId reply forceUserFriendly hgate]
    simp only [errorRecords, errorRecords_cleanupReply, hstatus, if_true]
    refine ⟨_, rfl, ?_, ?_⟩
    · simp only [RestApiError.isNetworkError, NETWORK_ERROR_OFFSET, decide_eq_true_eq]
      exact ⟨trivial, by omega⟩
    · have hnet : RestApiError.isNetworkError
          { level := Level.ClientError, code := NETWORK_ERROR_OFFSET + reply.error,
            proofModuleCode := g.NETWORK_MODULE_CODE,
            proofErrorCode :=
              if reply.error = QNetworkReply.HostNotFoundError ∨
                  reply.error = QNetworkReply.ConnectionRefusedError ∨
                  reply.error = QNetworkReply.RemoteHostClosedError ∨
                  reply.error = QNetworkReply.TimeoutError ∨
                  reply.error = QNetworkReply.OperationCanceledError then g.ServiceUnavailable
              else g.ServerError,
            message :=
              if reply.error = QNetworkReply.HostNotFoundError then
                "Host " ++ reply.urlHost ++ " not found. Try again later"
              else if reply.error = QNetworkReply.ConnectionRefusedError ∨
                  reply.error = QNetworkReply.RemoteHostClosedError ∨
                  reply.error = QNetworkReply.TimeoutError ∨
                  reply.error = QNetworkReply.OperationCanceledError then
                "Host " ++ reply.urlHost ++ " is unavailable. Try again later"
              else reply.errorString,
            userFriendly :=
              if reply.error = QNetworkReply.HostNotFoundError ∨
                  reply.error = QNetworkReply.ConnectionRefusedError ∨
                  reply.error = QNetworkReply.RemoteHostClosedError ∨
                  reply.error = QNetworkReply.TimeoutError ∨
                  reply.error = QNetworkReply.OperationCanceledError then true
              else forceUserFriendly } = true := by
        simp only [RestApiError.isNetworkError, NETWORK_ERROR_OFFSET, decide_eq_true_eq]
        exact ⟨trivial, by omega⟩
      rw [RestApiError.toNetworkError, if_pos hnet]
      simp only [NETWORK_ERROR_OFFSET]
      omega
  · intro e he
    have hnet : e.isNetworkError = false := by
      simp only [RestApiError.isNetworkError, NETWORK_ERROR_OFFSET, decide_eq_false_iff_not,
        not_and]
      intro hlevel
      rcases he with he | he
      · exact absurd hlevel he
      · omega
    exact ⟨hnet, by simp [RestApiError.toNetworkError, hnet]⟩
  · intro e
    simp [RestApiError.isNetworkError, NETWORK_ERROR_OFFSET]
  · intro t operationId reply error forceUserFriendly herror hlow
    have heq := sslErrorsOccurred_eq g t operationId reply forceUserFriendly [error]
    have hfind : [error].find? (fun e => decide (e.error ≠ QSslError.NoError)) = some error := by
      simp [List.find?, herror]
    rw [hfind] at heq
    rw [heq]
    simp only [errorRecords, errorRecords_cleanupReply]
    have hnet : RestApiError.isNetworkError
        { level := Level.ClientError, code := NETWORK_SSL_ERROR_OFFSET + error.error,
          proofModuleCode := g.NETWORK_MODULE_CODE, proofErrorCode := g.SslError,
          message := error.errorString, userFriendly := forceUserFriendly } = true := by
      simp only [RestApiError.isNetworkError, NETWORK_ERROR_OFFSET, NETWORK_SSL_ERROR_OFFSET,
        decide_eq_true_eq]
      exact ⟨trivial, by omega⟩
    refine ⟨_, rfl, hnet, ?_⟩
    rw [RestApiError.toNetworkError, if_pos hnet]
    simp only [NETWORK_ERROR_OFFSET, NETWORK_SSL_ERROR_OFFSET]
    omega

theorem C28_network_error_accessors_witness :
    sampleReplyHostNotFound.error ≥ 1 ∧ sampleReplyHostNotFound.httpStatusCode = 0 ∧
    (∃ record,
      errorRecords (replyErrorOccurred sampleGlobal sampleTable 1 sampleReplyHostNotFound
        false).2 = [(1, record)] ∧
      record.isNetworkError = true ∧
      record.toNetworkError = QNetworkReply.HostNotFoundError) ∧
    (canceledError sampleGlobal).reset.isNetworkError = false :=
  ⟨by decide, by decide,
   (C28_network_error_accessors sampleGlobal).1 sampleTable 1 sampleReplyHostNotFound false
      (by decide) (by decide) (Or.inl (by decide)),
   ((C28_network_error_accessors sampleGlobal).2.1 (canceledError sampleGlobal).reset
      (Or.inl (by decide))).1⟩

/-- C29 (as stated) fails: of the three string elements "a", "" and "b" of the
array the string-list overload appends only "a" and "b"; the empty string
is skipped although it is a string. -/
theorem C29_counterexample_empty_string :
    sampleArrayStrings.countP (fun value => value.isString) = 3 ∧
    (parseEntitiesList.ofStrings [] sampleArrayStrings 1).2.1 = ["a", "b"] := by
  decide

theorem parseEntitiesList.stringsLoop_result (jsonArray : List QJsonValue) :
    ∀ entityList : List String,
      parseEntitiesList.stringsLoop jsonArray entityList =
        entityList ++ (jsonArray.filter
          (fun value => value.isString && decide (value.toString ≠ ""))).map
            (fun value => value.toString) := by
  induction jsonArray with
  | nil => intro entityList; simp [parseEntitiesList.stringsLoop]
  | cons value rest ih =>
    intro entityList
    simp only [parseEntitiesList.stringsLoop]
    rw [ih]
    cases value with
    | string s =>
      by_cases hs : s = ""
      · simp [QJsonValue.toString, QJsonValue.isString, hs, List.filter_cons]
      · simp [QJsonValue.toString, QJsonValue.isString, hs, List.filter_cons]
    | _ => simp [QJsonValue.toString, QJsonValue.isString, List.filter_cons]

/-- C29 (amended): for every JSON array the string-list overload of
`parseEntitiesList` appends to the output list exactly the non-empty string
elements of the array, in array order, one per such element; it skips the
elements that are not strings and the empty strings, emits no error record
and returns true. -/
theorem C29_parseEntitiesList_strings (entityList : List String) (jsonArray : List QJsonValue)
    (operationId : Nat) :
    (parseEntitiesList.ofStrings entityList jsonArray operationId).1 = true ∧
    (parseEntitiesList.ofStrings entityList jsonArray operationId).2.1 =
      entityList ++ (jsonArray.filter
        (fun value => value.isString && decide (value.toString ≠ ""))).map
          (fun value => value.toString) ∧
    decoderRecords (parseEntitiesList.ofStrings entityList jsonArray operationId).2.2 = [] :=
  ⟨rfl, parseEntitiesList.stringsLoop_result jsonArray entityList, rfl⟩

theorem C29_parseEntitiesList_strings_witness :
    (parseEntitiesList.ofStrings ["z"] sampleArrayStrings 1).2.1 = ["z", "a", "b"] ∧
    (parseEntitiesList.ofStrings ["z"] sampleArrayStrings 1).2.1 =
      ["z"] ++ (sampleArrayStrings.filter
        (fun value => value.isString && decide (value.toString ≠ ""))).map
          (fun value => value.toString) :=
  ⟨by decide, (C29_parseEntitiesList_strings ["z"] sampleArrayStrings 1).2.1⟩

theorem QHash.remove_split (t : Replies) (reply : Nat) (v : Nat × RestAnswerHandler)
    (hk : (QHash.keys t).Nodup) (hmem : (reply, v) ∈ t) :
    ∃ before after, t = before ++ (reply, v) :: after ∧
      QHash.remove t reply = before ++ after := by
  obtain ⟨before, after, hsplit⟩ := List.append_of_mem hmem
  refine ⟨before, after, hsplit, ?_⟩
  subst hsplit
  have hkeys : (QHash.keys before ++ reply :: QHash.keys after).Nodup := by
    simpa [QHash.keys] using hk
  have hnb : reply ∉ QHash.keys before := by
    intro h
    have := List.nodup_append.mp hkeys
    exact this.2.2 h (List.mem_cons_self _ _)
  have hna : reply ∉ QHash.keys after := by
    have := (List.nodup_append.mp hkeys).2.1
    exact (List.nodup_cons.mp this).1
  have hb := QHash.remove_of_not_mem before reply hnb
  have ha := QHash.remove_of_not_mem after reply hna
  simp only [QHash.remove] at hb ha ⊢
  rw [List.filter_append, List.filter_cons, hb, ha]
  simp

/-- C25: on a pending table (handles pairwise distinct), `abortRequest(i)`
removes at most one entry, a removed entry carries operation id `i`, and every
entry whose operation id differs from `i` is still in the table afterwards,
unchanged and in the same order. -/
theorem C25_abortRequest_frame (g : NetworkGlobal) (isRunning : Nat → Bool) (t : Replies)
    (i : Nat) (hk : (QHash.keys t).Nodup) :
    ((abortRequest g isRunning t i).1 = t ∨
      ∃ before removed after, t = before ++ removed :: after ∧
        (abortRequest g isRunning t i).1 = before ++ after ∧ removed.2.1 = i) ∧
    t.length ≤ (abortRequest g isRunning t i).1.length + 1 ∧
    (abortRequest g isRunning t i).1.Sublist t ∧
    (∀ e ∈ t, e.2.1 ≠ i → e ∈ (abortRequest g isRunning t i).1) := by
  by_cases h : i ∈ operationIds t
  · obtain ⟨reply, handler, hmem, heq⟩ := abortRequest_present g isRunning t i hk h
    obtain ⟨before, after, hsplit, hrem⟩ := QHash.remove_split t reply (i, handler) hk hmem
    have hfst : (abortRequest g isRunning t i).1 = before ++ after := by
      rw [heq]; exact hrem
    refine ⟨Or.inr ⟨before, (reply, (i, handler)), after, hsplit, hfst, rfl⟩, ?_, ?_, ?_⟩
    · rw [hfst, hsplit]; simp; omega
    · rw [hfst, hsplit]
      exact List.Sublist.append (List.Sublist.refl before) (List.sublist_cons_self _ after)
    · intro e he hne
      rw [hfst]
      rw [hsplit] at he
      rcases List.mem_append.mp he with he | he
      · exact List.mem_append_left _ he
      · rcases List.mem_cons.mp he with he | he
        · subst he; exact absurd rfl hne
        · exact List.mem_append_right _ he
  · have heq := abortRequest_absent g isRunning t i h
    rw [heq]
    exact ⟨Or.inl rfl, Nat.le_succ _, List.Sublist.refl t, fun e he _ => he⟩

theorem C25_abortRequest_frame_witness :
    (QHash.keys sampleTable).Nodup ∧
    (abortRequest sampleGlobal (fun _ => true) sampleTable 2).1
      = [(7, (1, some 50)), (9, (3, some 60))] ∧
    (∀ e ∈ sampleTable, e.2.1 ≠ 2 →
      e ∈ (abortRequest sampleGlobal (fun _ => true) sampleTable 2).1) :=
  ⟨by decide, by decide,
   (C25_abortRequest_frame sampleGlobal (fun _ => true) sampleTable 2 (by decide)).2.2.2⟩

theorem callbacksOutsideLock_released (rest : List LockAction) :
    callbacksOutsideLock false (LockAction.lock :: LockAction.unlock :: rest) =
      callbacksOutsideLock false rest := rfl

theorem callbacksOutsideLock_emit (operationId : Nat) (rest : List LockAction) :
    callbacksOutsideLock false (LockAction.emitApiErrorOccurred operationId :: rest) =
      callbacksOutsideLock false rest := rfl

theorem callbacksOutsideLock_handler (operationId : Nat) (rest : List LockAction) :
    callbacksOutsideLock false (LockAction.callHandler operationId :: rest) =
      callbacksOutsideLock false rest := rfl

theorem runReplyHandler_actions_outside (t : Replies) (operationId reply : Nat) :
    callbacksOutsideLock false (runReplyHandler.actions t operationId reply) = true := by
  unfold runReplyHandler.actions
  split
  · split <;> rfl
  · rfl

theorem replyFinished_actions_outside (t : Replies) (operationId : Nat) (reply : QNetworkReply) :
    callbacksOutsideLock false (replyFinished.actions t operationId reply) = true := by
  unfold replyFinished.actions
  split
  · simp only [cleanupReply.actions, List.cons_append, List.nil_append,
      callbacksOutsideLock_emit, callbacksOutsideLock_released]
    exact runReplyHandler_actions_outside _ _ _
  · exact runReplyHandler_actions_outside _ _ _

theorem replyErrorOccurred_actions_outside (operationId : Nat) (reply : QNetworkReply) :
    callbacksOutsideLock false (replyErrorOccurred.actions operationId reply) = true := by
  unfold replyErrorOccurred.actions
  split <;> rfl

theorem sslErrorsOccurred_actions_outside (operationId : Nat) (errors : List QSslError) :
    ∀ firstError : Bool,
      callbacksOutsideLock false (sslErrorsOccurred.actions operationId errors firstError) = true := by
  induction errors with
  | nil => intro _; rfl
  | cons error rest ih =>
    intro firstError
    unfold sslErrorsOccurred.actions
    split
    · split
      · exact ih _
      · simp only [cleanupReply.actions, List.cons_append, List.nil_append,
          callbacksOutsideLock_emit, callbacksOutsideLock_released]
        exact ih _
    · exact ih _

theorem abortRequest_actions_outside (isRunning : Nat → Bool) (t : Replies) (operationId : Nat) :
    callbacksOutsideLock false (abortRequest.actions isRunning t operationId) = true := by
  unfold abortRequest.actions
  split
  · split <;> rfl
  · rfl

theorem clearReplies.loopActions_held (keys : List Nat) :
    ∀ t : Replies,
      callbacksOutsideLock true (clearReplies.loopActions keys t ++ [LockAction.unlock]) =
        (callbackIds (clearReplies.loopActions keys t)).isEmpty := by
  induction keys with
  | nil => intro _; rfl
  | cons reply rest ih =>
    intro t
    unfold clearReplies.loopActions
    by_cases h : (QHash.value t reply).1 = 0
    · simp only [h, ne_eq, not_true_eq_false, if_false, List.nil_append]
      exact ih _
    · simp only [h, ne_eq, not_false_eq_true, if_true, List.cons_append, List.nil_append]
      rfl

theorem clearReplies.loop_ids (g : NetworkGlobal) (keys : List Nat) :
    ∀ (t : Replies) (toAbort : List Nat) (emitted : List Effect),
      (errorRecords (clearReplies.loop g keys t toAbort emitted).2.2).map Prod.fst =
        (errorRecords emitted).map Prod.fst ++ callbackIds (clearReplies.loopActions keys t) := by
  induction keys with
  | nil => intro _ _ _; simp [clearReplies.loop, clearReplies.loopActions, callbackIds]
  | cons reply rest ih =>
    intro t toAbort emitted
    unfold clearReplies.loop clearReplies.loopActions
    simp only []
    rw [ih]
    by_cases h : (QHash.value t reply).1 = 0
    · simp [h]
    · simp [h, errorRecords_append, errorRecords, callbackIds]

theorem callbackIds_append (a b : List LockAction) :
    callbackIds (a ++ b) = callbackIds a ++ callbackIds b := by
  induction a with
  | nil => rfl
  | cons e a ih => cases e <;> simp [callbackIds, ih]

theorem errorRecords_abortEffects (replies : List Nat) :
    errorRecords (replies.flatMap (fun reply => [Effect.abort reply, Effect.deleteLater reply])) =
      [] := by
  induction replies with
  | nil => rfl
  | cons reply rest ih => simpa [errorRecords] using ih

theorem clearReplies.actions_ids (t : Replies) :
    callbackIds (clearReplies.actions t) =
      callbackIds (clearReplies.loopActions (QHash.keys t) t) := by
  have h : clearReplies.actions t =
      LockAction.lock :: (clearReplies.loopActions (QHash.keys t) t ++ [LockAction.unlock]) := rfl
  rw [h]
  simp [callbackIds, callbackIds_append]

/-- C23: the code at the failing operation. With the three sample entries
pending, `clearReplies` locks, emits `apiErrorOccurred` for the ids 1, 2 and 3
and only then unlocks, so its emits run while the mutex is held. For every
table the discipline holds in `clearReplies` only when it emits nothing, and
its emits are the records of `clearReplies`. In every other registry operation
each emit and each handler call happens while the mutex is released. -/
theorem C23_clearReplies_emits_under_lock :
    clearReplies.actions sampleTable =
        [LockAction.lock, LockAction.emitApiErrorOccurred 1, LockAction.emitApiErrorOccurred 2,
          LockAction.emitApiErrorOccurred 3, LockAction.unlock] ∧
      callbacksOutsideLock false (clearReplies.actions sampleTable) = false ∧
      (∀ t : Replies,
        callbacksOutsideLock false (clearReplies.actions t) =
          (callbackIds (clearReplies.actions t)).isEmpty) ∧
      (∀ (g : NetworkGlobal) (t : Replies),
        callbackIds (clearReplies.actions t) =
          (errorRecords (clearReplies g t).2).map Prod.fst) ∧
      callbacksOutsideLock false setupReply.actions = true ∧
      callbacksOutsideLock false cleanupReply.actions = true ∧
      (∀ (isRunning : Nat → Bool) (t : Replies) (operationId : Nat),
        callbacksOutsideLock false (abortRequest.actions isRunning t operationId) = true) ∧
      (∀ (t : Replies) (operationId reply : Nat),
        callbacksOutsideLock false (runReplyHandler.actions t operationId reply) = true) ∧
      (∀ (t : Replies) (reply : QNetworkReply),
        callbacksOutsideLock false (replyFinishedCaller.actions t reply) = true) ∧
      (∀ (t : Replies) (operationId : Nat) (reply : QNetworkReply),
        callbacksOutsideLock false (replyErrorCaller.actions t operationId reply) = true) ∧
      (∀ (t : Replies) (reply : QNetworkReply) (errors : List QSslError),
        callbacksOutsideLock false (sslErrorsOccurredCaller.actions t reply errors) = true) := by
  refine ⟨by decide, by decide, ?_, ?_, rfl, rfl, abortRequest_actions_outside,
    runReplyHandler_actions_outside, ?_, ?_, ?_⟩
  · intro t
    rw [clearReplies.actions_ids]
    exact clearReplies.loopActions_held (QHash.keys t) t
  · intro g t
    have h := clearReplies.loop_ids g (QHash.keys t) t [] []
    rw [clearReplies.actions_ids]
    simp only [clearReplies, errorRecords_append, errorRecords_abortEffects, List.append_nil]
    simpa [errorRecords] using h.symm
  · intro t reply
    unfold replyFinishedCaller.actions
    split
    · rfl
    · simp only [List.cons_append, List.nil_append, callbacksOutsideLock_released]
      exact replyFinished_actions_outside _ _ _
  · intro t operationId reply
    unfold replyErrorCaller.actions
    split
    · rfl
    · simp only [List.cons_append, List.nil_append, callbacksOutsideLock_released]
      exact replyErrorOccurred_actions_outside _ _
  · intro t reply errors
    unfold sslErrorsOccurredCaller.actions
    split
    · rfl
    · simp only [List.cons_append, List.nil_append, callbacksOutsideLock_released]
      exact sslErrorsOccurred_actions_outside _ _ _

theorem QString.splitChars_ne_nil (sep : Char) (cs : List Char) :
    QString.splitChars sep cs ≠ [] := by
  induction cs with
  | nil => simp [QString.splitChars]
  | cons c cs ih =>
    unfold QString.splitChars
    split
    · simp
    · split <;> simp

theorem QString.splitChars_append (sep : Char) (a rest : List Char) (ha : sep ∉ a) :
    QString.splitChars sep (a ++ sep :: rest) = a :: QString.splitChars sep rest := by
  induction a with
  | nil => simp [QString.splitChars]
  | cons c a ih =>
    have hc : (c == sep) = false := by
      have : c ≠ sep := fun h => ha (by simp [h])
      simpa using this
    have ha2 : sep ∉ a := fun h => ha (by simp [h])
    rw [List.cons_append, QString.splitChars, hc, ih ha2]
    simp

theorem QString.splitChars_free (sep : Char) (a : List Char) (ha : sep ∉ a) :
    QString.splitChars sep a = [a] := by
  induction a with
  | nil => rfl
  | cons c a ih =>
    have hc : (c == sep) = false := by
      have : c ≠ sep := fun h => ha (by simp [h])
      simpa using this
    have ha2 : sep ∉ a := fun h => ha (by simp [h])
    rw [QString.splitChars, hc, ih ha2]
    simp

theorem QString.splitChars_joinChars (sep : Char) (parts : List (List Char))
    (hne : parts ≠ []) (hfree : ∀ part ∈ parts, sep ∉ part) :
    QString.splitChars sep (QStringList.joinChars sep parts) = parts := by
  induction parts with
  | nil => exact absurd rfl hne
  | cons part rest ih =>
    cases rest with
    | nil =>
      simp only [QStringList.joinChars]
      exact QString.splitChars_free sep part (hfree part (by simp))
    | cons next rest =>
      simp only [QStringList.joinChars]
      rw [QString.splitChars_append sep part _ (hfree part (by simp))]
      rw [ih (by simp) (fun p hp => hfree p (by simp [hp]))]

theorem QString.splitChars_free_parts (sep : Char) (cs : List Char) :
    ∀ part ∈ QString.splitChars sep cs, sep ∉ part := by
  induction cs with
  | nil => simp [QString.splitChars]
  | cons c cs ih =>
    intro part hpart
    unfold QString.splitChars at hpart
    by_cases hc : (c == sep) = true
    · rw [if_pos hc] at hpart
      rcases List.mem_cons.mp hpart with h | h
      · rw [h]; simp
      · exact ih part h
    · rw [if_neg hc] at hpart
      have hne : c ≠ sep := by simpa using hc
      cases hs : QString.splitChars sep cs with
      | nil => exact absurd hs (QString.splitChars_ne_nil sep cs)
      | cons p ps =>
        rw [hs] at hpart ih
        rcases List.mem_cons.mp hpart with h | h
        · rw [h]
          intro hmem
          rcases List.mem_cons.mp hmem with h1 | h1
          · exact hne h1.symm
          · exact ih p (by simp) h1
        · exact ih part (by simp [h])

theorem QString.split_parts (s : String) (sep : Char) :
    ∀ part ∈ QString.split s sep, part ≠ "" ∧ sep ∉ part.data := by
  intro part hpart
  simp only [QString.split, List.mem_map, List.mem_filter] at hpart
  obtain ⟨cs, ⟨hmem, hne⟩, rfl⟩ := hpart
  refine ⟨?_, QString.splitChars_free_parts sep s.data cs hmem⟩
  intro h
  have : cs = [] := by
    have := congrArg String.data h
    simpa using this
  simp [this] at hne

theorem QString.split_join (parts : List String) (hne : parts ≠ [])
    (hparts : ∀ part ∈ parts, part ≠ "" ∧ '/' ∉ part.data) :
    QString.split (QStringList.join parts '/') '/' = parts := by
  have hsplit : QString.splitChars '/' (QStringList.joinChars '/' (parts.map String.data)) =
      parts.map String.data :=
    QString.splitChars_joinChars '/' _ (by simpa using hne)
      (by
        intro part hpart
        obtain ⟨p, hp, rfl⟩ := List.mem_map.mp hpart
        exact (hparts p hp).2)
  simp only [QString.split, QStringList.join, hsplit]
  rw [List.filter_eq_self.mpr]
  · simp [List.map_map, Function.comp_def]
  · intro cs hcs
    obtain ⟨p, hp, rfl⟩ := List.mem_map.mp hcs
    have := (hparts p hp).1
    cases p with
    | mk data =>
      cases data with
      | nil => exact absurd rfl this
      | cons c cs => rfl

theorem QString.split_scheme_join (s : String) (parts : List String)
    (hs : s ≠ "") (hfree : '/' ∉ s.data) (hne : parts ≠ [])
    (hparts : ∀ part ∈ parts, part ≠ "" ∧ '/' ∉ part.data) :
    QString.split (s ++ "//" ++ QStringList.join parts '/') '/' = s :: parts := by
  have hsplit : QString.splitChars '/' (QStringList.joinChars '/' (parts.map String.data)) =
      parts.map String.data :=
    QString.splitChars_joinChars '/' _ (by simpa using hne)
      (by
        intro part hpart
        obtain ⟨p, hp, rfl⟩ := List.mem_map.mp hpart
        exact (hparts p hp).2)
  have hdata : (s ++ "//" ++ QStringList.join parts '/').data =
      s.data ++ '/' :: ([] ++ '/' :: QStringList.joinChars '/' (parts.map String.data)) := by
    simp [QStringList.join, String.data_append]
  have hfilter : (parts.map String.data).filter (fun part => !part.isEmpty) =
      parts.map String.data := by
    rw [List.filter_eq_self]
    intro cs hcs
    obtain ⟨p, hp, rfl⟩ := List.mem_map.mp hcs
    have := (hparts p hp).1
    cases p with
    | mk data =>
      cases data with
      | nil => exact absurd rfl this
      | cons c cs => rfl
  have hsne : (!s.data.isEmpty) = true := by
    cases s with
    | mk data =>
      cases data with
      | nil => exact absurd rfl hs
      | cons c cs => rfl
  simp only [QString.split]
  rw [hdata, QString.splitChars_append '/' s.data _ hfree,
    QString.splitChars_append '/' [] _ (by simp), hsplit]
  simp only [List.filter_cons, hsne, if_true, List.isEmpty_nil, Bool.not_true, hfilter]
  simp [List.map_map, Function.comp_def]

theorem parseHost_no_parts (input : String) (h : QString.split input '/' = []) :
    parseHost input = some (input, "") := by
  simp only [parseHost, h]

theorem parseHost_plain (input first : String) (rest : List String)
    (h : QString.split input '/' = first :: rest) (hcolon : QString.endsWith first ':' = false) :
    parseHost input =
      some (first, if rest = [] then "" else "/" ++ QStringList.join rest '/') := by
  simp only [parseHost, h, hcolon]
  cases rest <;> simp

theorem parseHost_scheme (input first second : String) (rest : List String)
    (h : QString.split input '/' = first :: second :: rest)
    (hcolon : QString.endsWith first ':' = true) :
    parseHost input =
      some (second, if rest = [] then "" else "/" ++ QStringList.join rest '/') := by
  simp only [parseHost, h, hcolon]
  cases rest <;> simp

theorem parseHost_out_of_range (input first : String)
    (h : QString.split input '/' = [first]) (hcolon : QString.endsWith first ':' = true) :
    parseHost input = none := by
  simp only [parseHost, h, hcolon]
  simp

/-- C26: the code at the failing inputs. Both `"https://"` and
`"example.com:"` have a single non-empty part, which ends with `':'`, so
`parseHost` reads index 1 of a one-element list; and in general that happens
exactly when the input has one non-empty part and that part ends with `':'`. -/
theorem C26_parseHost_reads_out_of_range :
    QString.split "https://" '/' = ["https:"] ∧
      QString.split "example.com:" '/' = ["example.com:"] ∧
      parseHost "https://" = none ∧
      parseHost "example.com:" = none ∧
      (∀ input : String,
        parseHost input = none ↔
          ∃ first, QString.split input '/' = [first] ∧ QString.endsWith first ':' = true) := by
  refine ⟨by decide, by decide, by decide, by decide, ?_⟩
  intro input
  constructor
  · intro hnone
    cases hparts : QString.split input '/' with
    | nil => rw [parseHost_no_parts input hparts] at hnone; exact absurd hnone (by simp)
    | cons first rest =>
      cases hcolon : QString.endsWith first ':' with
      | false =>
        rw [parseHost_plain input first rest hparts hcolon] at hnone
        exact absurd hnone (by simp)
      | true =>
        cases rest with
        | nil => exact ⟨first, rfl, hcolon⟩
        | cons second rest =>
          rw [parseHost_scheme input first second rest hparts hcolon] at hnone
          exact absurd hnone (by simp)
  · rintro ⟨first, hparts, hcolon⟩
    exact parseHost_out_of_range input first hparts hcolon

theorem QStringList.joinChars_getLast (sep : Char) (parts : List (List Char))
    (hne : parts ≠ []) (hparts : ∀ part ∈ parts, part ≠ [] ∧ sep ∉ part) :
    ∃ c, (QStringList.joinChars sep parts).getLast? = some c ∧ c ≠ sep := by
  induction parts with
  | nil => exact absurd rfl hne
  | cons part rest ih =>
    cases rest with
    | nil =>
      simp only [QStringList.joinChars]
      obtain ⟨hpne, hfree⟩ := hparts part (by simp)
      refine ⟨part.getLast hpne, List.getLast?_eq_getLast _ hpne, ?_⟩
      intro h
      exact hfree (h ▸ List.getLast_mem hpne)
    | cons next rest =>
      obtain ⟨c, hc, hcne⟩ := ih (by simp) (fun p hp => hparts p (by simp [hp]))
      refine ⟨c, ?_, hcne⟩
      simp only [QStringList.joinChars] at hc ⊢
      have hJ : QStringList.joinChars sep (next :: rest) ≠ [] := by
        intro h
        rw [h] at hc
        simp at hc
      rw [List.getLast?_append_of_ne_nil _ (by simp)]
      obtain ⟨x, xs, hx⟩ := List.exists_cons_of_ne_nil hJ
      rw [hx] at hc ⊢
      rw [List.getLast?_cons_cons, hc]

theorem parseHost_path_shape (segments : List String) (hne : segments ≠ [])
    (hparts : ∀ part ∈ segments, part ≠ "" ∧ '/' ∉ part.data) :
    ("/" ++ QStringList.join segments '/').data.head? = some '/' ∧
      ("/" ++ QStringList.join segments '/').data.getLast? ≠ some '/' ∧
      [] ∉ QString.splitChars '/' ("/" ++ QStringList.join segments '/').data.tail := by
  have hdata : ("/" ++ QStringList.join segments '/').data =
      '/' :: QStringList.joinChars '/' (segments.map String.data) := by
    simp [QStringList.join, String.data_append]
  have hchars : ∀ part ∈ segments.map String.data, part ≠ [] ∧ '/' ∉ part := by
    intro part hpart
    obtain ⟨p, hp, rfl⟩ := List.mem_map.mp hpart
    refine ⟨?_, (hparts p hp).2⟩
    intro h
    apply (hparts p hp).1
    cases p
    simp only at h
    rw [h]
  have hne2 : segments.map String.data ≠ [] := by simpa using hne
  rw [hdata]
  refine ⟨rfl, ?_, ?_⟩
  · obtain ⟨c, hc, hcne⟩ := QStringList.joinChars_getLast '/' _ hne2 hchars
    have hJ : QStringList.joinChars '/' (segments.map String.data) ≠ [] := by
      intro h
      rw [h] at hc
      simp at hc
    obtain ⟨x, xs, hx⟩ := List.exists_cons_of_ne_nil hJ
    rw [hx] at hc ⊢
    rw [List.getLast?_cons_cons, hc]
    intro h
    exact hcne (Option.some.inj h)
  · rw [List.tail_cons,
      QString.splitChars_joinChars '/' _ hne2 (fun part hpart => (hchars part hpart).2)]
    intro h
    exact (hchars [] h).1 rfl

/-- C27: `parseHost` against its reference definition. At `"https://"`, an
input with one non-empty part, nothing is returned: index 1 of a one-element
list is read. Everywhere else a pair is returned. For a scheme `s` that ends
with `':'` and contains no `'/'`, and non-empty `'/'`-free strings `h`,
`p1`, ..., `pn`, both `s + "//" + h + "/" + p1 + ... + "/" + pn` and (when `h`
does not end with `':'`) `h + "/" + p1 + ... + "/" + pn` give the host `h` and
the path `"/p1/.../pn"`, empty when `n = 0`; a scheme with a `'/'` inside is
split at it. Whenever a pair is returned for an input with a non-empty part,
the host has no `'/'` and the path is empty or starts with `'/'`, does not end
with `'/'` and has no empty segment. -/
theorem C27_parseHost_reference :
    (QString.split "https://" '/' = ["https:"] ∧ parseHost "https://" = none) ∧
      (∀ input : String,
        (∃ result, parseHost input = some result) ∨
          ∃ first, QString.split input '/' = [first] ∧ QString.endsWith first ':' = true) ∧
      (∀ (s h : String) (ps : List String),
        QString.endsWith s ':' = true → '/' ∉ s.data →
        (∀ part ∈ h :: ps, part ≠ "" ∧ '/' ∉ part.data) →
        parseHost (s ++ "//" ++ QStringList.join (h :: ps) '/') =
          some (h, if ps = [] then "" else "/" ++ QStringList.join ps '/')) ∧
      (∀ (h : String) (ps : List String),
        QString.endsWith h ':' = false →
        (∀ part ∈ h :: ps, part ≠ "" ∧ '/' ∉ part.data) →
        parseHost (QStringList.join (h :: ps) '/') =
          some (h, if ps = [] then "" else "/" ++ QStringList.join ps '/')) ∧
      parseHost "a/b://h" = some ("a", "/b:/h") ∧
      (∀ input host path : String,
        QString.split input '/' ≠ [] → parseHost input = some (host, path) →
        '/' ∉ host.data ∧
          (path = "" ∨
            (path.data.head? = some '/' ∧ path.data.getLast? ≠ some '/' ∧
              [] ∉ QString.splitChars '/' path.data.tail))) := by
  refine ⟨⟨by decide, by decide⟩, ?_, ?_, ?_, by decide, ?_⟩
  · intro input
    cases hparts : QString.split input '/' with
    | nil => exact Or.inl ⟨_, parseHost_no_parts input hparts⟩
    | cons first rest =>
      cases hcolon : QString.endsWith first ':' with
      | false => exact Or.inl ⟨_, parseHost_plain input first rest hparts hcolon⟩
      | true =>
        cases rest with
        | nil => exact Or.inr ⟨first, rfl, hcolon⟩
        | cons second rest =>
          exact Or.inl ⟨_, parseHost_scheme input first second rest hparts hcolon⟩
  · intro s h ps hcolon hfree hparts
    have hs : s ≠ "" := by
      intro hempty
      rw [hempty] at hcolon
      exact absurd hcolon (by decide)
    exact parseHost_scheme _ s h ps
      (QString.split_scheme_join s (h :: ps) hs hfree (by simp) hparts) hcolon
  · intro h ps hcolon hparts
    exact parseHost_plain _ h ps (QString.split_join (h :: ps) (by simp) hparts) hcolon
  · intro input host path hne hsome
    have hall := QString.split_parts input '/'
    have shape : ∀ segments : List String,
        (∀ part ∈ segments, part ∈ QString.split input '/') →
        path = (if segments = [] then "" else "/" ++ QStringList.join segments '/') →
        path = "" ∨
          (path.data.head? = some '/' ∧ path.data.getLast? ≠ some '/' ∧
            [] ∉ QString.splitChars '/' path.data.tail) := by
      intro segments hsub hpath
      by_cases hseg : segments = []
      · left; rw [hpath, if_pos hseg]
      · right
        rw [hpath, if_neg hseg]
        exact parseHost_path_shape segments hseg (fun part hpart => hall part (hsub part hpart))
    cases hparts : QString.split input '/' with
    | nil => exact absurd hparts hne
    | cons first rest =>
      rw [hparts] at hall shape
      cases hcolon : QString.endsWith first ':' with
      | false =>
        rw [parseHost_plain input first rest hparts hcolon] at hsome
        have hpair := Option.some.inj hsome
        have hhost : first = host := congrArg Prod.fst hpair
        have hpath : (if rest = [] then "" else "/" ++ QStringList.join rest '/') = path :=
          congrArg Prod.snd hpair
        refine ⟨hhost ▸ (hall first (by simp)).2, shape rest (fun p hp => by simp [hp]) hpath.symm⟩
      | true =>
        cases rest with
        | nil =>
          rw [parseHost_out_of_range input first hparts hcolon] at hsome
          exact absurd hsome (by simp)
        | cons second rest =>
          rw [parseHost_scheme input first second rest hparts hcolon] at hsome
          have hpair := Option.some.inj hsome
          have hhost : second = host := congrArg Prod.fst hpair
          have hpath : (if rest = [] then "" else "/" ++ QStringList.join rest '/') = path :=
            congrArg Prod.snd hpair
          refine ⟨hhost ▸ (hall second (by simp)).2,
            shape rest (fun p hp => by simp [hp]) hpath.symm⟩

theorem C27_parseHost_reference_witness :
    parseHost ("https:" ++ "//" ++ QStringList.join ["example.com", "api", "v1"] '/') =
        some ("example.com", "/" ++ QStringList.join ["api", "v1"] '/') ∧
      parseHost (QStringList.join ["example.com", "api", "v1"] '/') =
        some ("example.com", "/" ++ QStringList.join ["api", "v1"] '/') ∧
      parseHost (QStringList.join ["example.com"] '/') = some ("example.com", "") ∧
      ('/' ∉ "example.com:8080".data ∧
        ("/x" = "" ∨
          ("/x".data.head? = some '/' ∧ "/x".data.getLast? ≠ some '/' ∧
            [] ∉ QString.splitChars '/' "/x".data.tail))) :=
  ⟨C27_parseHost_reference.2.2.1 "https:" "example.com" ["api", "v1"] (by decide) (by decide)
      (by decide),
    C27_parseHost_reference.2.2.2.1 "example.com" ["api", "v1"] (by decide) (by decide),
    C27_parseHost_reference.2.2.2.1 "example.com" [] (by decide) (by decide),
    C27_parseHost_reference.2.2.2.2.2 "example.com:8080/x" "example.com:8080" "/x" (by decide)
      (by decide)⟩

end Proof
